import Mathlib

/-!
Landscaping-service backend: availability, crew assignment, estimates,
appointment lifecycle, refunds, business settings, pagination.

A shallow embedding of the controllers of the REST backend
(`src/src/controllers/*.js`), of two model files and of the pagination
middleware over an explicit database state.

* Tables are lists of rows; a query is a list operation.
* A handler that opens a transaction and rolls back on failure is a function
  into `Except ErrorResponse Db`: an error leaves the old state in force.
  A handler without a transaction returns the state it has reached together
  with its response.
* Wall-clock values follow the source: appointment times are strings, the
  availability calculator compares `Date` values, the crew conflict check
  compares the strings themselves.
-/

namespace Landscaping

/-! ## JavaScript values -/

/-- The error object the handlers pass to `next` (utils/errorResponse). -/
structure ErrorResponse where
  message : String
  statusCode : Nat
deriving DecidableEq, Repr

/-- Scalar JSON values of a request body or of a column; `undefined` stands
for an absent key. -/
inductive JsVal where
  | undefined
  | null
  | bool (b : Bool)
  | num (n : Int)
  | str (s : String)
deriving DecidableEq, Repr

/-- JavaScript truthiness of a scalar. -/
def JsVal.truthy : JsVal → Bool
  | .undefined => false
  | .null => false
  | .bool b => b
  | .num n => n != 0
  | .str s => s != ""

/-- The expression `a || b`. -/
def JsVal.or (a b : JsVal) : JsVal :=
  if a.truthy then a else b

/-- Lexicographic comparison by code units, the order `<` has on two
JavaScript strings. -/
def codeUnitsLt : List Char → List Char → Bool
  | [], [] => false
  | [], _ :: _ => true
  | _ :: _, [] => false
  | a :: as, b :: bs =>
    if a.toNat < b.toNat then true
    else if b.toNat < a.toNat then false
    else codeUnitsLt as bs

/-- String comparison `a < b`. -/
def jsLt (a b : String) : Bool := codeUnitsLt a.toList b.toList

/-- String comparison `a > b`. -/
def jsGt (a b : String) : Bool := jsLt b a

/-- String comparison `a <= b`. -/
def jsLe (a b : String) : Bool := !jsLt b a

/-- String comparison `a >= b`. -/
def jsGe (a b : String) : Bool := !jsLt a b

/-- Comparison `a < b` of two `Date` objects by their time value; `none` is
an Invalid Date, whose time value is NaN, and every comparison with NaN is
false. -/
def dateLt : Option Int → Option Int → Bool
  | some a, some b => decide (a < b)
  | _, _ => false

/-- The parts of the JavaScript runtime the handlers call and the source does
not define.

* `parseTime s` is the time value of `new Date('1970-01-01T' + s)` in
  milliseconds after local midnight of that day, `none` for an Invalid Date.
* `isoDate s` is `new Date(s).toISOString().split('T')[0]`, `none` when
  `new Date(s)` is an Invalid Date.
* `toDateString d` is `new Date(d).toDateString()` for a stored date `d`. -/
structure Runtime where
  parseTime : String → Option Int
  isoDate : String → Option String
  toDateString : String → String

/-- Value of a decimal digit character. -/
def digitVal (c : Char) : Option Int :=
  if c.isDigit then some ((c.toNat : Int) - 48) else none

/-- Reading of the ISO clock texts `HH:mm` and `HH:mm:ss` as milliseconds
after midnight. -/
def parseClock (s : String) : Option Int :=
  match s.toList.map digitVal with
  | [some a, some b, none, some c, some d] =>
    if s.toList.get? 2 = some ':' ∧ 10 * a + b < 24 ∧ 10 * c + d < 60 then
      some (((10 * a + b) * 60 + (10 * c + d)) * 60000)
    else none
  | [some a, some b, none, some c, some d, none, some e, some f] =>
    if s.toList.get? 2 = some ':' ∧ s.toList.get? 5 = some ':' ∧ 10 * a + b < 24
        ∧ 10 * c + d < 60 ∧ 10 * e + f < 60 then
      some (((10 * a + b) * 60 + (10 * c + d)) * 60000 + (10 * e + f) * 1000)
    else none
  | _ => none

/-- A runtime for evaluating examples: clock texts are read by `parseClock`,
a ten-character date text `YYYY-MM-DD` is its own ISO date, and a date is
printed as it is stored. -/
def sampleRuntime : Runtime :=
  { parseTime := parseClock
    isoDate := fun s => if s.length = 10 then some s else none
    toDateString := fun d => d }

/-! ## Data model (src/src/models) -/

/-- Row of `services`; `duration` is an INTEGER column in minutes without a
range validator. -/
structure Service where
  id : Nat
  name : JsVal := .undefined
  duration : Int
deriving DecidableEq, Repr

/-- Values of the `status` ENUM of an appointment. -/
inductive AppointmentStatus where
  | Scheduled
  | InProgress
  | Completed
  | Cancelled
  | Rescheduled
deriving DecidableEq, Repr

/-- Row of `appointments`; `date` is a DATEONLY text, `startTime` and
`endTime` are STRING columns validated only as not null. -/
structure Appointment where
  id : Nat
  customerId : Nat := 0
  serviceId : Nat := 0
  date : String
  startTime : String
  endTime : String
  status : AppointmentStatus := .Scheduled
  leadProfessionalId : Option Nat := none
  customerNotes : Option String := none
  completedAt : Option Int := none
  completionSent : Bool := false
  confirmationSent : Bool := false
  duration : Option Int := none
deriving DecidableEq, Repr

/-- Row of the join table `appointment_crew`. -/
structure AppointmentCrew where
  id : Nat
  appointmentId : Nat
  userId : Nat
deriving DecidableEq, Repr

/-- Values of the `role` ENUM of a user. -/
inductive Role where
  | customer
  | professional
  | admin
deriving DecidableEq, Repr

/-- Row of `users`. -/
structure User where
  id : Nat
  role : Role := .customer
  email : Option String := none
deriving DecidableEq, Repr

/-- Row of `professionals`. -/
structure Professional where
  id : Nat
  userId : Nat
deriving DecidableEq, Repr

/-- Row of `customers`: the address columns that an estimate defaults to. -/
structure Customer where
  id : Nat
  userId : Nat := 0
  street : JsVal := .null
  city : JsVal := .null
  state : JsVal := .null
  zipCode : JsVal := .null
  propertySize : JsVal := .null
deriving DecidableEq, Repr

/-- Row of `estimates`. -/
structure Estimate where
  id : Nat
  customerId : Nat
  propertyStreet : JsVal := .null
  propertyCity : JsVal := .null
  propertyState : JsVal := .null
  propertyZipCode : JsVal := .null
  propertySize : JsVal := .null
  propertyDetails : JsVal := .null
  customerNotes : JsVal := .null
  budgetMin : JsVal := .null
  budgetMax : JsVal := .null
  accessInfo : JsVal := .null
  status : JsVal := .str "Requested"
  approvedPackage : JsVal := .null
  expiryDate : JsVal := .null
  depositRequired : JsVal := .bool false
  depositAmount : JsVal := .null
  depositPaymentId : JsVal := .null
  depositPaidOn : JsVal := .null
  estimateNumber : String := ""
  assignedToId : JsVal := .null
  createdById : Nat := 0
deriving DecidableEq, Repr

/-- Row of `estimate_services`. -/
structure EstimateService where
  id : Nat
  estimateId : Nat
  serviceId : Nat
  quantity : JsVal
deriving DecidableEq, Repr

/-- Row of `estimate_packages`. -/
structure EstimatePackage where
  id : Nat
  estimateId : Nat
  name : JsVal
  description : JsVal
  subTotal : JsVal := .null
  tax : JsVal := .null
  discountAmount : JsVal := .null
  discountDescription : JsVal := .null
  total : JsVal
  notes : JsVal := .null
deriving DecidableEq, Repr

/-- Row of `estimate_line_items`. -/
structure EstimateLineItem where
  id : Nat
  estimatePackageId : Nat
  service : JsVal
  description : JsVal := .null
  unitPrice : JsVal := .null
  quantity : JsVal := .num 1
  totalPrice : JsVal := .null
deriving DecidableEq, Repr

/-- Row of `estimate_photos`. -/
structure EstimatePhoto where
  id : Nat
  estimateId : Nat
  url : String
deriving DecidableEq, Repr

/-- The database: one list of rows per table. Of the constraints the models
declare, the handlers below check `allowNull: false`, the `unique` columns and
the foreign key of `estimate_services.serviceId`; ENUM and number formats of a
column are not checked. -/
structure Db where
  users : List User := []
  professionals : List Professional := []
  customers : List Customer := []
  services : List Service := []
  appointments : List Appointment := []
  appointmentCrew : List AppointmentCrew := []
  estimates : List Estimate := []
  estimateServices : List EstimateService := []
  estimatePackages : List EstimatePackage := []
  estimateLineItems : List EstimateLineItem := []
  estimatePhotos : List EstimatePhoto := []
deriving DecidableEq, Repr

/-- The value an AUTO_INCREMENT key takes: larger than every key present. -/
def nextId (ids : List Nat) : Nat := ids.foldr max 0 + 1

/-! ## Availability calculator (appointment.controller.js, getAvailableTimeSlots) -/

/-- The `businessHours` object literal. -/
structure BusinessHours where
  start : Int
  end_ : Int
  slotInterval : Int

/-- Business hours of the source: 8 AM to 6 PM, a slot every 30 minutes. -/
def businessHours : BusinessHours := { start := 8, end_ := 18, slotInterval := 30 }

/-- An element of the response: `start` and `end` are `HH:MM` texts, held here
as the minute of the day they denote. -/
structure TimeSlot where
  start : Int
  end_ : Int
deriving DecidableEq, Repr

/-- The clock text `toLocaleTimeString` renders (hour and minute) for the
instant `t` minutes after local midnight of the selected date, as a minute of
the day: an instant of another day shows its own time of day. -/
def toLocaleTimeString (t : Int) : Int := t % 1440

/-- The `while (current < endTime)` loop that fills `allSlots`; instants are
minutes after local midnight of the selected date. -/
def generateSlots (duration endTime current : Int) : List TimeSlot :=
  if current < endTime then
    let slotEnd := current + duration
    if slotEnd > endTime then []
    else
      { start := toLocaleTimeString current, end_ := toLocaleTimeString slotEnd }
        :: generateSlots duration endTime (current + businessHours.slotInterval)
  else []
termination_by (endTime - current).toNat
decreasing_by
  simp only [businessHours]
  omega

/-- The list `allSlots` for a service duration. -/
def allSlots (duration : Int) : List TimeSlot :=
  generateSlots duration (businessHours.end_ * 60) (businessHours.start * 60)

/-- The value `new Date('1970-01-01T' + text)` has for a slot text denoting
minute `m` of the day. -/
def slotDate (m : Int) : Option Int := some (m * 60000)

/-- The predicate inside `appointments.some`: the slot and the appointment
overlap as half-open intervals of `Date` values. -/
def slotTaken (rt : Runtime) (slot : TimeSlot) (appointment : Appointment) : Bool :=
  dateLt (slotDate slot.start) (rt.parseTime appointment.endTime)
    && dateLt (rt.parseTime appointment.startTime) (slotDate slot.end_)

/-- Handler `getAvailableTimeSlots`: `date` and `serviceId` are the query
parameters, `none` when absent. -/
def getAvailableTimeSlots (rt : Runtime) (db : Db) (date : Option String)
    (serviceId : Option Nat) : Except ErrorResponse (List TimeSlot) :=
  match date, serviceId with
  | some d, some sid =>
    if d = "" then .error { message := "Please provide date and service ID", statusCode := 400 }
    else
      match rt.isoDate d with
      | none => .error { message := "Invalid date format", statusCode := 400 }
      | some formattedDate =>
        match db.services.find? (fun s => s.id == sid) with
        | none => .error { message := "Service not found", statusCode := 404 }
        | some service =>
          let appointments := db.appointments.filter (fun a => a.date == formattedDate)
          .ok ((allSlots service.duration).filter
            (fun slot => !appointments.any (fun a => slotTaken rt slot a)))
  | _, _ => .error { message := "Please provide date and service ID", statusCode := 400 }

/-! ## Crew assignment (professional.controller.js, appointmentCrew.controller.js) -/

/-- The three-disjunct overlap test on the time strings, as written in
`assignToAppointment` (candidate: the appointment to assign; existing: an
appointment of the professional) and in `getAvailableProfessionals` (candidate:
the queried window; existing: an appointment of that day). -/
def timeConflict (appointmentStart appointmentEnd existingStart existingEnd : String) : Bool :=
  (jsGe appointmentStart existingStart && jsLt appointmentStart existingEnd)
    || (jsGt appointmentEnd existingStart && jsLe appointmentEnd existingEnd)
    || (jsLe appointmentStart existingStart && jsGe appointmentEnd existingEnd)

/-- Query `Appointment.findByPk`. -/
def findAppointment (db : Db) (id : Nat) : Option Appointment :=
  db.appointments.find? (fun a => a.id == id)

/-- Query `AppointmentCrew.findOne` by appointment and user. -/
def findCrew (db : Db) (appointmentId userId : Nat) : Option AppointmentCrew :=
  db.appointmentCrew.find? (fun c => c.appointmentId == appointmentId && c.userId == userId)

/-- Insert `AppointmentCrew.create`. -/
def createCrew (db : Db) (appointmentId userId : Nat) : Db :=
  { db with
    appointmentCrew := db.appointmentCrew ++
      [{ id := nextId (db.appointmentCrew.map (fun c => c.id))
         appointmentId := appointmentId
         userId := userId }] }

/-- Write of `leadProfessionalId` by `appointment.save()`. -/
def saveLead (db : Db) (appointmentId userId : Nat) : Db :=
  { db with
    appointments := db.appointments.map
      (fun a => if a.id == appointmentId then { a with leadProfessionalId := some userId } else a) }

/-- The query for `existingAppointments`: the appointments of the same day
joined with the crew rows of the user (an include with a `where` keeps only
appointments that have such a row). The window from `startOfDay` to
`endOfDay` around a DATEONLY value selects the rows of that date. -/
def existingAppointments (db : Db) (appointment : Appointment) (userId : Nat) :
    List Appointment :=
  db.appointments.filter (fun a =>
    a.date == appointment.date
      && db.appointmentCrew.any (fun c => c.appointmentId == a.id && c.userId == userId))

/-- Whether the identifier `Service` is bound where professional.controller.js
runs. The file takes `User`, `Professional`, `Appointment` and
`AppointmentCrew` from '../models' and not `Service`, which the options of
`Appointment.findByPk` in `assignToAppointment` read; so as it stands the
identifier is unbound and building these options throws a ReferenceError. -/
structure ProfessionalModule where
  serviceBound : Bool

/-- The module as the source has it. -/
def professionalModule : ProfessionalModule := { serviceBound := false }

/-- Handler `assignToAppointment`; `isLead` is the truthiness of the body
field. After the professional is found, the options of `Appointment.findByPk`
are built, which read `Service`; the ReferenceError is caught, the transaction
is rolled back and the error handler answers 500. In the crew branch
`appointment.save()` has no changed column to write. -/
def assignToAppointment (scope : ProfessionalModule) (rt : Runtime) (db : Db)
    (professionalId appointmentId : Nat) (isLead : Bool) : Except ErrorResponse Db :=
  match db.professionals.find? (fun p => p.id == professionalId) with
  | none =>
    .error { message := "Professional not found with id of " ++ toString professionalId
             statusCode := 404 }
  | some professional =>
    if !scope.serviceBound then
      .error { message := "Service is not defined", statusCode := 500 }
    else
      match findAppointment db appointmentId with
      | none =>
        .error { message := "Appointment not found with id of " ++ toString appointmentId
                 statusCode := 404 }
      | some appointment =>
        let hasConflict := (existingAppointments db appointment professional.userId).any
          (fun existing => timeConflict appointment.startTime appointment.endTime
            existing.startTime existing.endTime)
        if hasConflict then
          .error { message := "Professional has scheduling conflict on "
                     ++ rt.toDateString appointment.date
                   statusCode := 400 }
        else if isLead then
          .ok (saveLead db appointment.id professional.userId)
        else
          match findCrew db appointment.id professional.userId with
          | some _ => .ok db
          | none => .ok (createCrew db appointment.id professional.userId)

/-- The check `user.role !== 'professional' && user.role !== 'admin'`. -/
def notCrewRole (user : User) : Bool :=
  user.role != .professional && user.role != .admin

/-- Handler `addCrewMember`; `userId` is the body field, `none` when absent,
and `0` is falsy as well. -/
def addCrewMember (db : Db) (appointmentId : Nat) (userId : Option Nat) :
    Except ErrorResponse Db :=
  match userId with
  | none => .error { message := "Please provide a user ID", statusCode := 400 }
  | some uid =>
    if uid = 0 then .error { message := "Please provide a user ID", statusCode := 400 }
    else
      match findAppointment db appointmentId with
      | none =>
        .error { message := "Appointment not found with id of " ++ toString appointmentId
                 statusCode := 404 }
      | some _ =>
        match db.users.find? (fun u => u.id == uid) with
        | none =>
          .error { message := "User not found with id of " ++ toString uid, statusCode := 404 }
        | some user =>
          if notCrewRole user then
            .error { message := "Only professionals can be added to crew", statusCode := 400 }
          else
            match findCrew db appointmentId uid with
            | some _ =>
              .error { message := "User is already assigned to this appointment"
                       statusCode := 400 }
            | none => .ok (createCrew db appointmentId uid)

/-- Handler `setLeadProfessional`. -/
def setLeadProfessional (db : Db) (appointmentId : Nat) (userId : Option Nat) :
    Except ErrorResponse Db :=
  match userId with
  | none => .error { message := "Please provide a user ID", statusCode := 400 }
  | some uid =>
    if uid = 0 then .error { message := "Please provide a user ID", statusCode := 400 }
    else
      match findAppointment db appointmentId with
      | none =>
        .error { message := "Appointment not found with id of " ++ toString appointmentId
                 statusCode := 404 }
      | some appointment =>
        match db.users.find? (fun u => u.id == uid) with
        | none =>
          .error { message := "User not found with id of " ++ toString uid, statusCode := 404 }
        | some user =>
          if notCrewRole user then
            .error { message := "Only professionals can be lead professionals"
                     statusCode := 400 }
          else
            let db1 := saveLead db appointment.id uid
            match findCrew db1 appointmentId uid with
            | some _ => .ok db1
            | none => .ok (createCrew db1 appointmentId uid)

/-- Handler `getAvailableProfessionals` for a date text `YYYY-MM-DD`: the
professionals without a conflicting appointment on that day in whose crew they
are. -/
def getAvailableProfessionals (db : Db) (date startTime endTime : Option String) :
    Except ErrorResponse (List Professional) :=
  match date, startTime, endTime with
  | some d, some startTime, some endTime =>
    if d = "" ∨ startTime = "" ∨ endTime = "" then
      .error { message := "Please provide date, startTime and endTime", statusCode := 400 }
    else
      let appointments := db.appointments.filter (fun a =>
        a.date == d && db.appointmentCrew.any (fun c => c.appointmentId == a.id))
      .ok (db.professionals.filter (fun professional =>
        !appointments.any (fun appointment =>
          if !db.appointmentCrew.any
              (fun c => c.appointmentId == appointment.id && c.userId == professional.userId)
          then false
          else timeConflict startTime endTime appointment.startTime appointment.endTime)))
  | _, _, _ =>
    .error { message := "Please provide date, startTime and endTime", statusCode := 400 }

/-- One request to an assignment endpoint. -/
inductive CrewOp where
  | addCrewMember (appointmentId : Nat) (userId : Option Nat)
  | setLeadProfessional (appointmentId : Nat) (userId : Option Nat)
  | assignToAppointment (professionalId appointmentId : Nat) (isLead : Bool)
deriving DecidableEq, Repr

/-- Outcome of a request. -/
def CrewOp.run (rt : Runtime) (db : Db) : CrewOp → Except ErrorResponse Db
  | .addCrewMember a u => Landscaping.addCrewMember db a u
  | .setLeadProfessional a u => Landscaping.setLeadProfessional db a u
  | .assignToAppointment p a l => Landscaping.assignToAppointment professionalModule rt db p a l

/-- State after a request: a failed request is rolled back. -/
def applyOp (rt : Runtime) (db : Db) (op : CrewOp) : Db :=
  match op.run rt db with
  | .ok db1 => db1
  | .error _ => db

/-- State after a sequence of requests. -/
def applyOps (rt : Runtime) (db : Db) (ops : List CrewOp) : Db :=
  ops.foldl (applyOp rt) db

/-- The user holds a role on the appointment: a crew row, or the lead. -/
def holdsRole (db : Db) (userId : Nat) (a : Appointment) : Bool :=
  a.leadProfessionalId == some userId
    || db.appointmentCrew.any (fun c => c.appointmentId == a.id && c.userId == userId)

/-- Half-open overlap of the windows of two appointments, in the order of the
time strings. -/
def windowsOverlap (a b : Appointment) : Bool :=
  jsLt a.startTime b.endTime && jsGt a.endTime b.startTime

/-- No professional holds roles on two distinct appointments of one date
whose windows overlap. -/
def NoDoubleBooking (db : Db) : Prop :=
  ∀ userId, ∀ a ∈ db.appointments, ∀ b ∈ db.appointments,
    a.id ≠ b.id → a.date = b.date →
    holdsRole db userId a = true → holdsRole db userId b = true →
    windowsOverlap a b = false

/-- No two rows of the crew table carry the same (appointmentId, userId). -/
def CrewUnique (db : Db) : Prop :=
  (db.appointmentCrew.map (fun c => (c.appointmentId, c.userId))).Nodup

/-! ## Estimate aggregate (estimate.controller.js, estimate.model.js) -/

/-- The `service` field of an element of `services`: absent, a service id, or
an object with `id` and `name`. -/
inductive ServiceRef where
  | absent
  | id (n : Nat)
  | object (id : Option Nat) (name : JsVal)
deriving DecidableEq, Repr

/-- An element of `req.body.services`. -/
structure ServiceItem where
  service : ServiceRef := .absent
  quantity : JsVal := .undefined
deriving DecidableEq, Repr

/-- An element of `lineItems` of a package of the body. -/
structure LineItemInput where
  service : JsVal := .undefined
  description : JsVal := .undefined
  unitPrice : JsVal := .undefined
  quantity : JsVal := .undefined
  totalPrice : JsVal := .undefined
deriving DecidableEq, Repr

/-- An element of `req.body.packages`; `discountAmount` and
`discountDescription` are `discount?.amount` and `discount?.description`. -/
structure PackageInput where
  name : JsVal := .undefined
  description : JsVal := .undefined
  subTotal : JsVal := .undefined
  tax : JsVal := .undefined
  discountAmount : JsVal := .undefined
  discountDescription : JsVal := .undefined
  total : JsVal := .undefined
  notes : JsVal := .undefined
  lineItems : Option (List LineItemInput) := none
deriving DecidableEq, Repr

/-- The request body of the estimate endpoints. A nested scalar is named by
its path: `propertyStreet` is `property?.address?.street`, `budgetMin` is
`budget?.min`, `depositRequired` is `deposit?.required`, and so on. -/
structure EstimateBody where
  customerId : Option Nat := none
  propertyStreet : JsVal := .undefined
  propertyCity : JsVal := .undefined
  propertyState : JsVal := .undefined
  propertyZipCode : JsVal := .undefined
  propertySize : JsVal := .undefined
  propertyDetails : JsVal := .undefined
  customerNotes : JsVal := .undefined
  budgetMin : JsVal := .undefined
  budgetMax : JsVal := .undefined
  accessInfo : JsVal := .undefined
  status : JsVal := .undefined
  expiryDate : JsVal := .undefined
  assignedToId : JsVal := .undefined
  approvedPackage : JsVal := .undefined
  depositRequired : JsVal := .undefined
  depositAmount : JsVal := .undefined
  depositPaymentId : JsVal := .undefined
  depositPaidOn : JsVal := .undefined
  services : Option (List ServiceItem) := none
  packages : Option (List PackageInput) := none
deriving DecidableEq, Repr

/-- The clock reading of `new Date()`: time value in milliseconds, full year
and zero-based month. -/
structure Clock where
  now : Int
  fullYear : Nat
  month : Nat

/-- The value a column without a declared default takes for an attribute:
NULL when the attribute is undefined. -/
def JsVal.toColumn (v : JsVal) : JsVal :=
  if v = .undefined then .null else v

/-- The value a column with the declared default `dflt` takes for an
attribute. -/
def JsVal.toColumnOr (v dflt : JsVal) : JsVal :=
  if v = .undefined then dflt else v

/-- The check `allowNull: false`. -/
def JsVal.isNullish (v : JsVal) : Bool :=
  v == .undefined || v == .null

/-- Method `String.prototype.padStart` with a one-character filler. -/
def padStart (s : String) (targetLength : Nat) (c : Char) : String :=
  String.mk (List.replicate (targetLength - s.length) c) ++ s

/-- Static method `Estimate.generateEstimateNumber`, given the row count. -/
def generateEstimateNumber (clock : Clock) (count : Nat) : String :=
  "EST-" ++ toString clock.fullYear ++ padStart (toString (clock.month + 1)) 2 '0' ++ "-"
    ++ padStart (toString (count + 1)) 4 '0'

/-- Insert `Estimate.create` with the `beforeCreate` hook: the number is
generated from the row count and the `unique` column refuses a number already
stored. Returns the new state and the new row. -/
def Estimate.create (clock : Clock) (db : Db) (row : Estimate) :
    Except ErrorResponse (Db × Estimate) :=
  let number := generateEstimateNumber clock db.estimates.length
  if db.estimates.any (fun e => e.estimateNumber == number) then
    .error { message := "Duplicate field value entered", statusCode := 400 }
  else
    let stored : Estimate :=
      { row with id := nextId (db.estimates.map (fun e => e.id)), estimateNumber := number }
    .ok ({ db with estimates := db.estimates ++ [stored] }, stored)

/-- The value handed to the `serviceId` column. -/
inductive ServiceIdArg where
  | undefined
  | id (n : Nat)
  | object
deriving DecidableEq, Repr

/-- Insert `EstimateService.create`: `serviceId` must not be null, must be a
number and must reference a service. -/
def EstimateService.create (estimateId : Nat) (db : Db) (arg : ServiceIdArg × JsVal) :
    Except ErrorResponse Db :=
  match arg.1 with
  | .undefined =>
    .error { message := "EstimateService.serviceId cannot be null", statusCode := 400 }
  | .object => .error { message := "Database error occurred", statusCode := 500 }
  | .id sid =>
    if db.services.any (fun s => s.id == sid) then
      .ok { db with
            estimateServices := db.estimateServices ++
              [{ id := nextId (db.estimateServices.map (fun r => r.id))
                 estimateId := estimateId
                 serviceId := sid
                 quantity := arg.2 }] }
    else
      .error { message := "Cannot delete or update a parent row: a foreign key constraint fails"
               statusCode := 400 }

/-- Insert `EstimatePackage.create`: `name`, `description` and `total` must
not be null. Returns the new state and the id of the new package. -/
def EstimatePackage.create (estimateId : Nat) (db : Db) (packageItem : PackageInput) :
    Except ErrorResponse (Db × Nat) :=
  if packageItem.name.isNullish then
    .error { message := "EstimatePackage.name cannot be null", statusCode := 400 }
  else if packageItem.description.isNullish then
    .error { message := "EstimatePackage.description cannot be null", statusCode := 400 }
  else if packageItem.total.isNullish then
    .error { message := "EstimatePackage.total cannot be null", statusCode := 400 }
  else
    let newId := nextId (db.estimatePackages.map (fun r => r.id))
    .ok ({ db with
           estimatePackages := db.estimatePackages ++
             [{ id := newId
                estimateId := estimateId
                name := packageItem.name
                description := packageItem.description
                subTotal := packageItem.subTotal.toColumn
                tax := packageItem.tax.toColumn
                discountAmount := packageItem.discountAmount.toColumn
                discountDescription := packageItem.discountDescription.toColumn
                total := packageItem.total
                notes := packageItem.notes.toColumn }] }, newId)

/-- Insert `EstimateLineItem.create`: `service` must not be null, `quantity`
defaults to 1. -/
def EstimateLineItem.create (estimatePackageId : Nat) (db : Db) (lineItem : LineItemInput) :
    Except ErrorResponse Db :=
  if lineItem.service.isNullish then
    .error { message := "EstimateLineItem.service cannot be null", statusCode := 400 }
  else
    .ok { db with
          estimateLineItems := db.estimateLineItems ++
            [{ id := nextId (db.estimateLineItems.map (fun r => r.id))
               estimatePackageId := estimatePackageId
               service := lineItem.service
               description := lineItem.description.toColumn
               unitPrice := lineItem.unitPrice.toColumn
               quantity := lineItem.quantity.toColumnOr (.num 1)
               totalPrice := lineItem.totalPrice.toColumn }] }

/-- The pattern `await Promise.all(items.map(create))`: every insert is
started, so every valid row is written; the first rejection is the error. -/
def promiseAll {α : Type} (create : Db → α → Except ErrorResponse Db) (db : Db)
    (items : List α) : Db × Option ErrorResponse :=
  items.foldl
    (fun acc item =>
      match create acc.1 item with
      | .ok db1 => (db1, acc.2)
      | .error e => (acc.1, acc.2.orElse (fun _ => some e)))
    (db, none)

/-- The `for (const packageItem of req.body.packages)` loop: packages are
inserted one after another, each followed by its line items, and the first
failure ends the loop. -/
def createPackages (estimateId : Nat) (db : Db) : List PackageInput → Db × Option ErrorResponse
  | [] => (db, none)
  | packageItem :: rest =>
    match EstimatePackage.create estimateId db packageItem with
    | .error e => (db, some e)
    | .ok (db1, newPackageId) =>
      let step : Db × Option ErrorResponse :=
        match packageItem.lineItems with
        | some (l :: ls) => promiseAll (EstimateLineItem.create newPackageId) db1 (l :: ls)
        | _ => (db1, none)
      match step.2 with
      | some e => (step.1, some e)
      | none => createPackages estimateId step.1 rest

/-- The expression `serviceItem.service` of `createEstimate`. -/
def ServiceRef.asCreateArg : ServiceRef → ServiceIdArg
  | .absent => .undefined
  | .id n => .id n
  | .object _ _ => .object

/-- The error of a query whose include names `Service` under `EstimateService`
(`include: { model: Service }` inside the include of `services`). No model
file declares an association between EstimateService and Service, nor between
EstimatePackage and EstimateLineItem (models/index.js sets up the associations
of User, Customer, Service, Appointment, Estimate, Professional and
Announcement only), so the ORM refuses the query before it reads a row; the
error handler answers 500. -/
def eagerLoadingError : ErrorResponse :=
  { message := "Service is not associated to EstimateService!", statusCode := 500 }

/-- The query `Estimate.findByPk(id, { include: [...] })` that fetches "the
complete estimate with all associations": the last statement of
`createEstimate` and of `approveEstimate`, and the query of `getEstimate`. Its
include list names `Service` under `services` and `lineItems` under
`packages`. -/
def findCompleteEstimate (_db : Db) (_id : Nat) : Except ErrorResponse (Option Estimate) :=
  .error eagerLoadingError

/-- The first query of `updateEstimate`: `Estimate.findByPk` with the include
of `services` and, under it, of `Service`. -/
def findEstimateWithServices (_db : Db) (_id : Nat) : Except ErrorResponse (Option Estimate) :=
  .error eagerLoadingError

/-- Handler `createEstimate`; it opens no transaction, so it returns the state
it has reached together with the error, or with the id of the new estimate.
Its last statement before the response is the query for the complete
estimate. -/
def createEstimate (clock : Clock) (db : Db) (userId : Nat) (body : EstimateBody) :
    Db × Except ErrorResponse Nat :=
  match body.customerId.bind (fun cid => db.customers.find? (fun c => c.id == cid)) with
  | none => (db, .error { message := "Customer not found", statusCode := 404 })
  | some customer =>
    let expiryDate :=
      if body.expiryDate.truthy then body.expiryDate
      else .num (clock.now + 30 * 24 * 60 * 60 * 1000)
    match Estimate.create clock db
        { id := 0
          customerId := customer.id
          propertyStreet := (body.propertyStreet.or customer.street).toColumn
          propertyCity := (body.propertyCity.or customer.city).toColumn
          propertyState := (body.propertyState.or customer.state).toColumn
          propertyZipCode := (body.propertyZipCode.or customer.zipCode).toColumn
          propertySize := (body.propertySize.or customer.propertySize).toColumn
          propertyDetails := body.propertyDetails.toColumn
          customerNotes := body.customerNotes.toColumn
          budgetMin := body.budgetMin.toColumn
          budgetMax := body.budgetMax.toColumn
          accessInfo := body.accessInfo.toColumn
          status := body.status.or (.str "Requested")
          expiryDate := expiryDate
          assignedToId := body.assignedToId.toColumn
          createdById := userId } with
    | .error e => (db, .error e)
    | .ok (db1, estimate) =>
      let afterServices : Db × Option ErrorResponse :=
        match body.services with
        | some (i :: is) =>
          promiseAll (EstimateService.create estimate.id) db1
            ((i :: is).map (fun serviceItem =>
              (serviceItem.service.asCreateArg, serviceItem.quantity.or (.num 1))))
        | _ => (db1, none)
      match afterServices.2 with
      | some e => (afterServices.1, .error e)
      | none =>
        let afterPackages : Db × Option ErrorResponse :=
          match body.packages with
          | some (p :: ps) => createPackages estimate.id afterServices.1 (p :: ps)
          | _ => (afterServices.1, none)
        match afterPackages.2 with
        | some e => (afterPackages.1, .error e)
        | none =>
          match findCompleteEstimate afterPackages.1 estimate.id with
          | .error e => (afterPackages.1, .error e)
          | .ok _ => (afterPackages.1, .ok estimate.id)

/-- Whether the identifier `sequelize` is bound where estimate.controller.js
runs. The file requires `Op` from 'sequelize' and nothing from '../config/db',
so as it stands the identifier is unbound and `sequelize.transaction()` throws
a ReferenceError. -/
structure EstimateModule where
  sequelizeBound : Bool

/-- The module as the source has it. -/
def estimateModule : EstimateModule := { sequelizeBound := false }

/-- Update `Service.update({ name }, { where: { id } })`: the `unique` column
refuses a name that another service carries. -/
def Service.updateName (db : Db) (id : Nat) (name : JsVal) : Except ErrorResponse Db :=
  if db.services.any (fun s => s.id == id)
      && db.services.any (fun s => s.id != id && s.name == name) then
    .error { message := "Duplicate field value entered", statusCode := 400 }
  else
    .ok { db with
          services := db.services.map (fun s => if s.id == id then { s with name := name } else s) }

/-- The first loop of `updateEstimate`: "update service names if they
changed". -/
def updateServiceNames (db : Db) : List ServiceItem → Except ErrorResponse Db
  | [] => .ok db
  | serviceItem :: rest =>
    match serviceItem.service with
    | .object id name =>
      if name.truthy then
        match id with
        | none =>
          .error { message := "WHERE parameter id has invalid undefined value"
                   statusCode := 500 }
        | some i =>
          match Service.updateName db i name with
          | .error e => .error e
          | .ok db1 => updateServiceNames db1 rest
      else updateServiceNames db rest
    | _ => updateServiceNames db rest

/-- The expression `serviceItem.service.id || serviceItem.service` of
`updateEstimate`; reading `.id` of an absent `service` throws. -/
def ServiceRef.asUpdateArg : ServiceRef → Except ErrorResponse ServiceIdArg
  | .absent =>
    .error { message := "Cannot read properties of undefined (reading id)", statusCode := 500 }
  | .id n => .ok (.id n)
  | .object (some i) _ => if i = 0 then .ok .object else .ok (.id i)
  | .object none _ => .ok .object

/-- The arguments of the inserts of the service replacement, in list order. -/
def serviceCreateArgs : List ServiceItem → Except ErrorResponse (List (ServiceIdArg × JsVal))
  | [] => .ok []
  | serviceItem :: rest =>
    match serviceItem.service.asUpdateArg with
    | .error e => .error e
    | .ok arg =>
      match serviceCreateArgs rest with
      | .error e => .error e
      | .ok args => .ok ((arg, serviceItem.quantity.or (.num 1)) :: args)

/-- The object passed to `estimate.update`: the new values of the scalar
columns. -/
def updatedFields (estimate : Estimate) (body : EstimateBody) : Estimate :=
  { estimate with
    propertyStreet := body.propertyStreet.or estimate.propertyStreet
    propertyCity := body.propertyCity.or estimate.propertyCity
    propertyState := body.propertyState.or estimate.propertyState
    propertyZipCode := body.propertyZipCode.or estimate.propertyZipCode
    propertySize := body.propertySize.or estimate.propertySize
    propertyDetails := body.propertyDetails.or estimate.propertyDetails
    customerNotes := body.customerNotes.or estimate.customerNotes
    budgetMin := body.budgetMin.or estimate.budgetMin
    budgetMax := body.budgetMax.or estimate.budgetMax
    accessInfo := body.accessInfo.or estimate.accessInfo
    status := body.status.or estimate.status
    expiryDate := body.expiryDate.or estimate.expiryDate
    assignedToId := body.assignedToId.or estimate.assignedToId
    approvedPackage := body.approvedPackage.or estimate.approvedPackage
    depositRequired :=
      if body.depositRequired ≠ .undefined then body.depositRequired
      else estimate.depositRequired
    depositAmount := body.depositAmount.or estimate.depositAmount
    depositPaymentId := body.depositPaymentId.or estimate.depositPaymentId
    depositPaidOn := body.depositPaidOn.or estimate.depositPaidOn }

/-- The `try` block of `updateEstimate` up to the commit; an error is what the
`catch` receives. -/
def updateEstimateBody (db : Db) (estimate : Estimate) (body : EstimateBody) :
    Except ErrorResponse Db :=
  let named : Except ErrorResponse Db :=
    match body.services with
    | some (i :: is) => updateServiceNames db (i :: is)
    | _ => .ok db
  match named with
  | .error e => .error e
  | .ok db1 =>
    let db2 : Db :=
      { db1 with
        estimates := db1.estimates.map
          (fun e => if e.id == estimate.id then updatedFields estimate body else e) }
    let replaced : Except ErrorResponse Db :=
      match body.services with
      | some (i :: is) =>
        match serviceCreateArgs (i :: is) with
        | .error e => .error e
        | .ok args =>
          let cleared : Db :=
            { db2 with
              estimateServices :=
                db2.estimateServices.filter (fun r => r.estimateId != estimate.id) }
          match promiseAll (EstimateService.create estimate.id) cleared args with
          | (_, some e) => .error e
          | (db3, none) => .ok db3
      | _ => .ok db2
    match replaced with
    | .error e => .error e
    | .ok db3 =>
      match body.packages with
      | some (p :: ps) =>
        let existingPackages := db3.estimatePackages.filter (fun r => r.estimateId == estimate.id)
        let cleared : Db :=
          { db3 with
            estimateLineItems := db3.estimateLineItems.filter
              (fun li => !existingPackages.any (fun pkg => li.estimatePackageId == pkg.id))
            estimatePackages := db3.estimatePackages.filter
              (fun r => r.estimateId != estimate.id) }
        match createPackages estimate.id cleared (p :: ps) with
        | (_, some e) => .error e
        | (db4, none) => .ok db4
      | _ => .ok db3

/-- Handler `updateEstimate` for a caller of the given role. Its first query
throws; after it come the checks, `sequelize.transaction()` and the `try`
block. -/
def updateEstimate (scope : EstimateModule) (db : Db) (role : Role) (id : Nat)
    (body : EstimateBody) : Except ErrorResponse Db :=
  match findEstimateWithServices db id with
  | .error e => .error e
  | .ok none =>
    .error { message := "Estimate not found with id of " ++ toString id, statusCode := 404 }
  | .ok (some estimate) =>
    if role ≠ .admin then
      .error { message := "Not authorized to update this estimate", statusCode := 403 }
    else if !scope.sequelizeBound then
      .error { message := "sequelize is not defined", statusCode := 500 }
    else
      match updateEstimateBody db estimate body with
      | .ok db1 => .ok db1
      | .error e =>
        .error { message := "Error updating estimate: " ++ e.message, statusCode := 500 }

/-- The EstimateService rows of an estimate, as (serviceId, quantity). -/
def estimateServiceRows (db : Db) (estimateId : Nat) : List (Nat × JsVal) :=
  (db.estimateServices.filter (fun r => r.estimateId == estimateId)).map
    (fun r => (r.serviceId, r.quantity))

/-! ## States for the examples -/

/-- A database with one service of duration 60 and one appointment from 09:00
to 10:00 on 2024-06-10. -/
def bookedDb : Db :=
  { services := [{ id := 1, duration := 60 }]
    appointments := [{ id := 1, serviceId := 1, date := "2024-06-10",
                       startTime := "09:00", endTime := "10:00" }] }

/-- A database whose only service has the duration -600. -/
def negativeDurationDb : Db :=
  { services := [{ id := 1, duration := -600 }] }

/-- One professional (user 7) and three appointments on 2024-06-10:
10:00-11:00, 10:30-11:30 and 11:00-12:00; nobody is assigned yet. -/
def crewDb : Db :=
  { users := [{ id := 7, role := .professional }]
    professionals := [{ id := 1, userId := 7 }]
    appointments :=
      [{ id := 1, date := "2024-06-10", startTime := "10:00", endTime := "11:00" },
       { id := 2, date := "2024-06-10", startTime := "10:30", endTime := "11:30" },
       { id := 3, date := "2024-06-10", startTime := "11:00", endTime := "12:00" }] }

/-- State after an `updateEstimate` request: a failed request is rolled
back. -/
def afterUpdate (scope : EstimateModule) (db : Db) (role : Role) (id : Nat)
    (body : EstimateBody) : Db :=
  match updateEstimate scope db role id body with
  | .ok db1 => db1
  | .error _ => db

/-- Two services, one customer, and estimate 1 with the notes "old", the
status "Sent" and two EstimateService rows. -/
def estimateDb : Db :=
  { users := [{ id := 9, role := .admin }]
    customers := [{ id := 1, userId := 5, street := .str "1 Elm St" }]
    services := [{ id := 1, name := .str "Mowing", duration := 60 },
                 { id := 2, name := .str "Pruning", duration := 90 }]
    estimates := [{ id := 1, customerId := 1, customerNotes := .str "old",
                    status := .str "Sent", estimateNumber := "EST-202406-0001",
                    createdById := 9 }]
    estimateServices := [{ id := 1, estimateId := 1, serviceId := 1, quantity := .num 2 },
                         { id := 2, estimateId := 1, serviceId := 2, quantity := .num 1 }] }

/-- A clock reading in June 2024. -/
def juneClock : Clock := { now := 1718000000000, fullYear := 2024, month := 5 }

/-- A body for `createEstimate`: one service, a complete package "Basic" with
one line item, and a package "Standard" without a description. -/
def halfValidBody : EstimateBody :=
  { customerId := some 1
    services := some [{ service := .id 1 }]
    packages := some
      [{ name := .str "Basic", description := .str "Basic care", total := .num 100,
         lineItems := some [{ service := .str "Mowing" }] },
       { name := .str "Standard", total := .num 200 }] }

/-! ## Appointment lifecycle (appointment.controller.js) -/

/-- The request body of the appointment endpoints: the columns of the model
that are written here, `none` when the key is absent, and the names of all
other keys of the body. -/
structure AppointmentBody where
  customerId : Option Nat := none
  serviceId : Option Nat := none
  date : Option String := none
  startTime : Option String := none
  endTime : Option String := none
  duration : Option Int := none
  status : Option String := none
  leadProfessionalId : Option Nat := none
  customerNotes : Option String := none
  completedAt : Option Int := none
  completionSent : Option Bool := none
  extraKeys : List String := []
deriving DecidableEq, Repr

/-- The value `Object.keys(req.body)`. -/
def AppointmentBody.keys (body : AppointmentBody) : List String :=
  (if body.customerId.isSome then ["customerId"] else [])
    ++ (if body.serviceId.isSome then ["serviceId"] else [])
    ++ (if body.date.isSome then ["date"] else [])
    ++ (if body.startTime.isSome then ["startTime"] else [])
    ++ (if body.endTime.isSome then ["endTime"] else [])
    ++ (if body.duration.isSome then ["duration"] else [])
    ++ (if body.status.isSome then ["status"] else [])
    ++ (if body.leadProfessionalId.isSome then ["leadProfessionalId"] else [])
    ++ (if body.customerNotes.isSome then ["customerNotes"] else [])
    ++ (if body.completedAt.isSome then ["completedAt"] else [])
    ++ (if body.completionSent.isSome then ["completionSent"] else [])
    ++ body.extraKeys

/-- Truthiness of an optional text: absent and empty texts are falsy. -/
def textTruthy : Option String → Bool
  | none => false
  | some s => s != ""

/-- The member of the `status` ENUM a text names. -/
def parseStatus (s : String) : Option AppointmentStatus :=
  if s = "Scheduled" then some .Scheduled
  else if s = "In Progress" then some .InProgress
  else if s = "Completed" then some .Completed
  else if s = "Cancelled" then some .Cancelled
  else if s = "Rescheduled" then some .Rescheduled
  else none

/-- The validator `min: 15, max: 480` of the `duration` column. -/
def durationValid (duration : Option Int) : Bool :=
  match duration with
  | none => true
  | some d => decide (15 ≤ d) && decide (d ≤ 480)

/-- The assignment `appointment.update(req.body)`: every column whose key is
present takes the supplied value; a status outside the ENUM and a duration
outside its range are refused. References of the id columns are not
checked. -/
def Appointment.update (appointment : Appointment) (body : AppointmentBody) :
    Except ErrorResponse Appointment :=
  if !durationValid body.duration then
    .error { message := "Validation min on duration failed", statusCode := 400 }
  else
    let status : Option AppointmentStatus :=
      match body.status with
      | none => some appointment.status
      | some s => parseStatus s
    match status with
    | none => .error { message := "Database error occurred", statusCode := 500 }
    | some st =>
      .ok { appointment with
            customerId := body.customerId.getD appointment.customerId
            serviceId := body.serviceId.getD appointment.serviceId
            date := body.date.getD appointment.date
            startTime := body.startTime.getD appointment.startTime
            endTime := body.endTime.getD appointment.endTime
            duration := if body.duration.isSome then body.duration else appointment.duration
            status := st
            leadProfessionalId :=
              if body.leadProfessionalId.isSome then body.leadProfessionalId
              else appointment.leadProfessionalId
            customerNotes :=
              if body.customerNotes.isSome then body.customerNotes
              else appointment.customerNotes
            completedAt :=
              if body.completedAt.isSome then body.completedAt else appointment.completedAt
            completionSent := body.completionSent.getD appointment.completionSent }

/-- The write of `appointment.save()`: the row of that id takes the values of
the instance. -/
def saveAppointment (db : Db) (appointment : Appointment) : Db :=
  { db with
    appointments := db.appointments.map
      (fun a => if a.id == appointment.id then appointment else a) }

/-- Whether the notification block reaches the line after `sendEmail`: the
customer and its user are found, the user has an email address, and the mail
is delivered (`mail`); every failure inside the block is caught and logged. -/
def notified (mail : Bool) (db : Db) (customerId : Nat) : Bool :=
  match db.customers.find? (fun c => c.id == customerId) with
  | none => false
  | some customer =>
    match db.users.find? (fun u => u.id == customer.userId) with
    | none => false
    | some user => textTruthy user.email && mail

/-- The array `allowedFields` of the customer branch. -/
def allowedFields : List String := ["date", "startTime", "endTime"]

/-- The role branches of `updateAppointment`: the instance after
`appointment.update(req.body)` for an admin or professional, and after the
allow-list check and the three guarded assignments for a customer. -/
def updateByRole (db : Db) (userId : Nat) (role : Role) (original : Appointment)
    (body : AppointmentBody) : Except ErrorResponse Appointment :=
  match role with
  | .customer =>
    match db.customers.find? (fun c => c.userId == userId) with
    | none => .error { message := "Customer profile not found", statusCode := 404 }
    | some customer =>
      if original.customerId ≠ customer.id then
        .error { message := "Not authorized to update this appointment", statusCode := 403 }
      else
        let invalidFields := body.keys.filter (fun key => not (allowedFields.contains key))
        if invalidFields.length > 0 then
          .error
            { message := "Customers are only allowed to update date, startTime, and endTime. "
                ++ "You sent: " ++ ", ".intercalate invalidFields
              statusCode := 403 }
        else
          .ok { original with
                date := if textTruthy body.date then body.date.getD "" else original.date
                startTime :=
                  if textTruthy body.startTime then body.startTime.getD ""
                  else original.startTime
                endTime :=
                  if textTruthy body.endTime then body.endTime.getD ""
                  else original.endTime }
  | _ => Appointment.update original body

/-- The condition `req.body.status === 'Completed' && originalStatus !==
'Completed'`. -/
def completing (original : Appointment) (body : AppointmentBody) : Bool :=
  body.status == some "Completed" && original.status != .Completed

/-- The block under that condition: `completedAt` takes `Date.now()`, and
`completionSent` is set when the notification went out. -/
def markCompleted (mail : Bool) (now : Int) (db : Db) (original : Appointment)
    (body : AppointmentBody) (appointment : Appointment) : Appointment :=
  if completing original body then
    { appointment with
      completedAt := some now
      completionSent :=
        if notified mail db appointment.customerId then true
        else appointment.completionSent }
  else appointment

/-- Whether `new Date(req.body.date).toISOString()` of the date-change check
throws: the check runs unless the request completes the appointment, and only
for a truthy `date`. -/
def dateCheckThrows (rt : Runtime) (original : Appointment) (body : AppointmentBody) : Bool :=
  (body.status != some "Completed" || original.status == .Completed)
    && textTruthy body.date && (rt.isoDate (body.date.getD "")).isNone

/-- Handler `updateAppointment` for the caller `userId` of role `role`; `now`
is `Date.now()` and `mail` tells whether `sendEmail` delivers. An exception
rolls the transaction back. -/
def updateAppointment (rt : Runtime) (mail : Bool) (now : Int) (db : Db) (userId : Nat)
    (role : Role) (id : Nat) (body : AppointmentBody) : Except ErrorResponse Db :=
  match findAppointment db id with
  | none =>
    .error { message := "Appointment not found with id of " ++ toString id, statusCode := 404 }
  | some original =>
    match updateByRole db userId role original body with
    | .error e => .error e
    | .ok appointment =>
      if dateCheckThrows rt original body then
        .error { message := "Invalid time value", statusCode := 500 }
      else .ok (saveAppointment db (markCompleted mail now db original body appointment))

/-- Handler `requestReschedule` for the caller `userId`; the three fields of
the body are texts, `none` when absent. -/
def requestReschedule (db : Db) (userId : Nat) (id : Nat)
    (requestedDate requestedTime reason : Option String) : Except ErrorResponse Db :=
  if !textTruthy requestedDate || !textTruthy requestedTime then
    .error { message := "Please provide requested date and time", statusCode := 400 }
  else
    match findAppointment db id with
    | none =>
      .error { message := "Appointment not found with id of " ++ toString id
               statusCode := 404 }
    | some appointment =>
      match db.customers.find? (fun c => c.userId == userId) with
      | none =>
        .error { message := "Not authorized to reschedule this appointment", statusCode := 403 }
      | some customer =>
        if appointment.customerId ≠ customer.id then
          .error { message := "Not authorized to reschedule this appointment"
                   statusCode := 403 }
        else
          let previous : String :=
            if textTruthy appointment.customerNotes then appointment.customerNotes.getD ""
            else ""
          .ok (saveAppointment db
            { appointment with
              customerNotes := some (previous ++ String.singleton (Char.ofNat 10)
                ++ "[RESCHEDULE REQUEST] Date: " ++ requestedDate.getD ""
                ++ ", Time: " ++ requestedTime.getD ""
                ++ ", Reason: " ++ (if textTruthy reason then reason.getD "" else "Not provided"))
              status := .Rescheduled })

/-- Handler `createAppointment` for the caller `userId`: the customer id and
the creator are taken from the caller, `date`, `startTime` and `endTime` must
not be null, and the row is inserted as supplied. -/
def createAppointment (mail : Bool) (db : Db) (userId : Nat) (body : AppointmentBody) :
    Except ErrorResponse Db :=
  match db.customers.find? (fun c => c.userId == userId) with
  | none =>
    .error { message := "Customer not found with user id of " ++ toString userId
             statusCode := 404 }
  | some customer =>
    match body.serviceId.bind (fun sid => db.services.find? (fun s => s.id == sid)) with
    | none => .error { message := "Service not found", statusCode := 404 }
    | some service =>
      match body.date, body.startTime, body.endTime with
      | some date, some startTime, some endTime =>
        if !durationValid body.duration then
          .error { message := "Validation min on duration failed", statusCode := 400 }
        else
          let status : Option AppointmentStatus :=
            match body.status with
            | none => some .Scheduled
            | some s => parseStatus s
          match status with
          | none => .error { message := "Database error occurred", statusCode := 500 }
          | some st =>
            let appointment : Appointment :=
              { id := nextId (db.appointments.map (fun a => a.id))
                customerId := customer.id
                serviceId := service.id
                date := date
                startTime := startTime
                endTime := endTime
                duration := body.duration
                status := st
                leadProfessionalId := body.leadProfessionalId
                customerNotes := body.customerNotes
                completedAt := body.completedAt
                completionSent := body.completionSent.getD false
                confirmationSent :=
                  match db.users.find? (fun u => u.id == customer.userId) with
                  | none => false
                  | some user => textTruthy user.email && mail }
            .ok { db with appointments := db.appointments ++ [appointment] }
      | none, _, _ => .error { message := "Please add an appointment date", statusCode := 400 }
      | _, none, _ => .error { message := "Please add a start time", statusCode := 400 }
      | _, _, none => .error { message := "Please add an end time", statusCode := 400 }

/-- One request to the appointment endpoints that change an appointment. -/
inductive LifecycleOp where
  | updateAppointment (mail : Bool) (now : Int) (userId : Nat) (role : Role)
      (body : AppointmentBody)
  | requestReschedule (userId : Nat) (requestedDate requestedTime reason : Option String)
deriving DecidableEq, Repr

/-- State after a request on the appointment `id`: a failed request is rolled
back. -/
def applyLifecycleOp (rt : Runtime) (id : Nat) (db : Db) : LifecycleOp → Db
  | .updateAppointment mail now userId role body =>
    match Landscaping.updateAppointment rt mail now db userId role id body with
    | .ok db1 => db1
    | .error _ => db
  | .requestReschedule userId requestedDate requestedTime reason =>
    match Landscaping.requestReschedule db userId id requestedDate requestedTime reason with
    | .ok db1 => db1
    | .error _ => db

/-- State after a sequence of requests on the appointment `id`. -/
def applyLifecycleOps (rt : Runtime) (id : Nat) (db : Db) (ops : List LifecycleOp) : Db :=
  ops.foldl (applyLifecycleOp rt id) db

/-- One customer (user 5, with an email address), one admin (user 9), one
service, and appointment 1 of that customer on 2024-06-10 from 10:00 to 11:00,
Scheduled. -/
def lifecycleDb : Db :=
  { users := [{ id := 5, role := .customer, email := some "c@example.com" },
              { id := 9, role := .admin }]
    customers := [{ id := 1, userId := 5 }]
    services := [{ id := 1, duration := 60 }]
    appointments := [{ id := 1, customerId := 1, serviceId := 1, date := "2024-06-10",
                       startTime := "10:00", endTime := "11:00" }] }

/-- The request by which the admin of `lifecycleDb` completes appointment 1 at
time `now`. -/
def completeOp (now : Int) : LifecycleOp :=
  .updateAppointment true now 9 .admin { status := some "Completed" }

/-- The request by which the customer of `lifecycleDb` asks for another day. -/
def rescheduleOp : LifecycleOp :=
  .requestReschedule 5 (some "2024-06-12") (some "09:00") none

/-! ## Estimate deletion, approval and read-back (estimate.controller.js) -/

/-- Handler `deleteEstimate` for a caller of the given role. After the lookup
and the admin check the transaction is opened by `sequelize.transaction()`,
where `sequelize` is read; inside the transaction the line items of the
estimate's packages, the packages, the services, the photos and the estimate
row are destroyed. -/
def deleteEstimate (scope : EstimateModule) (db : Db) (role : Role) (id : Nat) :
    Except ErrorResponse Db :=
  match db.estimates.find? (fun e => e.id == id) with
  | none =>
    .error { message := "Estimate not found with id of " ++ toString id, statusCode := 404 }
  | some estimate =>
    if role ≠ .admin then
      .error { message := "Not authorized to delete this estimate", statusCode := 403 }
    else if !scope.sequelizeBound then
      .error { message := "sequelize is not defined", statusCode := 500 }
    else
      .ok { db with
            estimateLineItems := db.estimateLineItems.filter
              (fun li => !(db.estimatePackages.filter
                (fun p => p.estimateId == estimate.id)).any
                  (fun p => li.estimatePackageId == p.id))
            estimatePackages := db.estimatePackages.filter
              (fun p => p.estimateId != estimate.id)
            estimateServices := db.estimateServices.filter
              (fun r => r.estimateId != estimate.id)
            estimatePhotos := db.estimatePhotos.filter
              (fun r => r.estimateId != estimate.id)
            estimates := db.estimates.filter (fun e => e.id != estimate.id) }

/-- Handler `approveEstimate` for the caller `userId`; `packageName` is the
body field. It opens no transaction, so it returns the state it has reached
together with the error, or with the id of the estimate. The notification mail
that follows the update changes no row; the last statement before the response
is the query for the complete estimate. -/
def approveEstimate (db : Db) (userId : Nat) (id : Nat) (packageName : JsVal) :
    Db × Except ErrorResponse Nat :=
  if !packageName.truthy then
    (db, .error { message := "Please provide the package name to approve", statusCode := 400 })
  else
    match db.estimates.find? (fun e => e.id == id) with
    | none =>
      (db, .error { message := "Estimate not found with id of " ++ toString id
                    statusCode := 404 })
    | some estimate =>
      match db.customers.find? (fun c => c.userId == userId) with
      | none => (db, .error { message := "No customer profile found", statusCode := 404 })
      | some customer =>
        if estimate.customerId ≠ customer.id then
          (db, .error { message := "Not authorized to approve this estimate"
                        statusCode := 403 })
        else
          let packageExists :=
            (db.estimatePackages.filter (fun p => p.estimateId == estimate.id)).any
              (fun pkg => pkg.name == packageName)
          if !packageExists then
            (db, .error { message := "Package not found in this estimate", statusCode := 404 })
          else
            let updated : Db :=
              { db with
                estimates := db.estimates.map
                  (fun e =>
                    if e.id == estimate.id then
                      { e with status := .str "Approved", approvedPackage := packageName }
                    else e) }
            match findCompleteEstimate updated id with
            | .error e => (updated, .error e)
            | .ok _ => (updated, .ok estimate.id)

/-- A line-item row carries what the body supplied for it. -/
def LineItemMatches (input : LineItemInput) (row : EstimateLineItem) : Prop :=
  row.service = input.service
    ∧ row.description = input.description.toColumn
    ∧ row.unitPrice = input.unitPrice.toColumn
    ∧ row.quantity = input.quantity.toColumnOr (.num 1)
    ∧ row.totalPrice = input.totalPrice.toColumn

/-- A package row, with the line-item rows of its key, carries what the body
supplied for the package, and the line items are those supplied for it, one
by one. -/
def PackageMatches (input : PackageInput) (out : EstimatePackage × List EstimateLineItem) :
    Prop :=
  out.1.name = input.name
    ∧ out.1.description = input.description
    ∧ out.1.subTotal = input.subTotal.toColumn
    ∧ out.1.tax = input.tax.toColumn
    ∧ out.1.discountAmount = input.discountAmount.toColumn
    ∧ out.1.discountDescription = input.discountDescription.toColumn
    ∧ out.1.total = input.total
    ∧ out.1.notes = input.notes.toColumn
    ∧ List.Forall₂ LineItemMatches (input.lineItems.getD []) out.2

/-- One request to the estimate endpoints that write `approvedPackage` or the
packages. -/
inductive EstimateOp where
  | createEstimate (clock : Clock) (userId : Nat) (body : EstimateBody)
  | updateEstimate (role : Role) (id : Nat) (body : EstimateBody)
  | approveEstimate (userId : Nat) (id : Nat) (packageName : JsVal)

/-- State after a request: `createEstimate` and `approveEstimate` leave the
state they have reached, `updateEstimate` leaves the old state when it
fails. -/
def applyEstimateOp (scope : EstimateModule) (db : Db) : EstimateOp → Db
  | .createEstimate clock userId body => (Landscaping.createEstimate clock db userId body).1
  | .updateEstimate role id body => afterUpdate scope db role id body
  | .approveEstimate userId id packageName =>
    (Landscaping.approveEstimate db userId id packageName).1

/-- State after a sequence of requests. -/
def applyEstimateOps (scope : EstimateModule) (db : Db) (ops : List EstimateOp) : Db :=
  ops.foldl (applyEstimateOp scope) db

/-- Every estimate's `approvedPackage` is unset (NULL) or the name of one of
the estimate's package rows. -/
def ApprovedPackageValid (db : Db) : Prop :=
  ∀ e ∈ db.estimates,
    e.approvedPackage = .null
      ∨ ∃ p ∈ db.estimatePackages, p.estimateId = e.id ∧ p.name = e.approvedPackage

/-- Customer 1 (user 5) owns estimate 1, which has the packages "Basic" (with
two line items) and "Standard" (with one), a service row and a photo; estimate
2 of customer 2 has the package "Premium" with one line item and a service
row. -/
def packagesDb : Db :=
  { users := [{ id := 5, role := .customer }, { id := 9, role := .admin }]
    customers := [{ id := 1, userId := 5 }, { id := 2, userId := 6 }]
    services := [{ id := 1, name := .str "Mowing", duration := 60 }]
    estimates := [{ id := 1, customerId := 1, status := .str "Sent",
                    estimateNumber := "EST-202406-0001", createdById := 9 },
                  { id := 2, customerId := 2, estimateNumber := "EST-202406-0002",
                    createdById := 9 }]
    estimateServices := [{ id := 1, estimateId := 1, serviceId := 1, quantity := .num 1 },
                         { id := 2, estimateId := 2, serviceId := 1, quantity := .num 4 }]
    estimatePackages :=
      [{ id := 1, estimateId := 1, name := .str "Basic", description := .str "b",
         total := .num 100 },
       { id := 2, estimateId := 1, name := .str "Standard", description := .str "s",
         total := .num 200 },
       { id := 3, estimateId := 2, name := .str "Premium", description := .str "p",
         total := .num 300 }]
    estimateLineItems :=
      [{ id := 1, estimatePackageId := 1, service := .str "Mowing" },
       { id := 2, estimatePackageId := 1, service := .str "Edging" },
       { id := 3, estimatePackageId := 2, service := .str "Pruning" },
       { id := 4, estimatePackageId := 3, service := .str "Design" }]
    estimatePhotos := [{ id := 1, estimateId := 1, url := "https://img/1" }] }

/-- A body for `createEstimate` with two packages: "Basic" with two line
items and "Premium" without line items. -/
def twoPackagesBody : EstimateBody :=
  { customerId := some 1
    packages := some
      [{ name := .str "Basic", description := .str "Basic care", total := .num 100,
         lineItems := some [{ service := .str "Mowing", quantity := .num 2 },
                            { service := .str "Edging" }] },
       { name := .str "Premium", description := .str "Full care", total := .num 300 }] }

/-! ## Further states: crew rows, estimate status, removal of an estimate -/

/-- The state `crewDb` after user 7 has joined the crew of appointment 1
(10:00-11:00). -/
def assignedDb : Db :=
  { crewDb with appointmentCrew := [{ id := 1, appointmentId := 1, userId := 7 }] }

/-- The state `crewDb` with user 7 as lead professional of appointment 1
(10:00-11:00). -/
def leadDb : Db :=
  { crewDb with
    appointments :=
      [{ id := 1, date := "2024-06-10", startTime := "10:00", endTime := "11:00",
         leadProfessionalId := some 7 },
       { id := 2, date := "2024-06-10", startTime := "10:30", endTime := "11:30" },
       { id := 3, date := "2024-06-10", startTime := "11:00", endTime := "12:00" }] }

/-- The state in which the estimate of the given id has the given status and
every other column and row is as in `db`. -/
def withEstimateStatus (db : Db) (id : Nat) (status : JsVal) : Db :=
  { db with
    estimates := db.estimates.map
      (fun e => if e.id == id then { e with status := status } else e) }

/-- Row removal `estimate.destroy()` on the estimates table. -/
def Estimate.destroy (db : Db) (id : Nat) : Db :=
  { db with estimates := db.estimates.filter (fun e => e.id != id) }

/-- An estimate instance before it is inserted: customer 1, created by user
9. -/
def newEstimate : Estimate :=
  { id := 0, customerId := 1, estimateNumber := "", createdById := 9 }

/-- The state reached from the empty tables by two `Estimate.create` calls in
June 2024 followed by the removal of the first estimate. -/
def afterRemoval : Db :=
  match Estimate.create juneClock {} newEstimate with
  | .error _ => {}
  | .ok (db1, first) =>
    match Estimate.create juneClock db1 newEstimate with
    | .error _ => db1
    | .ok (db2, _) => Estimate.destroy db2 first.id

/-! ## Refunds (payment.controller.js, payment.model.js) -/

/-- Values of the column `status` of `Payments`. -/
inductive PaymentStatus where
  | Pending
  | Completed
  | Refunded
  | PartiallyRefunded
deriving DecidableEq, Repr

/-- The object written to the JSON column `refund`. -/
structure Refund where
  amount : JsVal
  reason : JsVal
  refundedAt : Int
  refundTransactionId : Option String
deriving DecidableEq, Repr

/-- Row of `Payments`, with the columns `processRefund` reads or writes;
`amount` is the value the row gives for the DECIMAL column. -/
structure Payment where
  id : Nat
  customerId : Nat
  appointmentId : Option Nat := none
  amount : JsVal
  status : PaymentStatus := .Pending
  gateway : String := "Cash"
  gatewayTransactionId : Option String := none
  refund : Option Refund := none
deriving DecidableEq, Repr

/-- Whether the identifier `Payment` is bound where payment.controller.js
runs. The file takes `Payment` from '../models', and models/index.js neither
requires payment.model.js nor lists `Payment`, so as it stands the identifier
is undefined and `Payment.findByPk` throws a TypeError. -/
structure PaymentModule where
  paymentBound : Bool

/-- The module as the source has it. -/
def paymentModule : PaymentModule := { paymentBound := false }

/-- The condition under which `processRefund` calls the gateway:
`payment.gateway === 'Stripe' && payment.gatewayTransactionId`. -/
def usesStripe (payment : Payment) : Bool :=
  payment.gateway == "Stripe" && textTruthy payment.gatewayTransactionId

/-- The call `stripe.refunds.create` when the condition holds: `stripe` is
what the gateway answers, the id of the refund or the message of the error it
throws; `stripeRefund` stays undefined when the gateway is not called. -/
def stripeRefund (stripe : Except String String) (payment : Payment) :
    Except String (Option String) :=
  if usesStripe payment then
    match stripe with
    | .ok refundId => .ok (some refundId)
    | .error message => .error message
  else .ok none

/-- Handler `processRefund` for the payment `id`; `amount` and `reason` are
the body fields, `now` is `new Date()`. The `Appointment.update` that follows
the save names the key 'payment.status', which is no attribute of Appointment,
so it writes no column; the notification mail changes no row and its failure
is caught. An exception rolls the transaction back. -/
def processRefund (scope : PaymentModule) (stripe : Except String String) (now : Int)
    (payments : List Payment) (id : Nat) (amount reason : JsVal) :
    Except ErrorResponse (List Payment) :=
  if !scope.paymentBound then
    .error { message := "Cannot read properties of undefined", statusCode := 500 }
  else
    match payments.find? (fun p => p.id == id) with
    | none =>
      .error { message := "Payment not found with id of " ++ toString id, statusCode := 404 }
    | some payment =>
      if payment.status = .Refunded then
        .error { message := "This payment has already been refunded", statusCode := 400 }
      else
        let refundAmount := amount.or payment.amount
        match stripeRefund stripe payment with
        | .error message =>
          .error { message := "Refund processing failed: " ++ message, statusCode := 500 }
        | .ok refundTransactionId =>
          let saved : Payment :=
            { payment with
              status := if refundAmount = payment.amount then .Refunded else .PartiallyRefunded
              refund := some
                { amount := refundAmount
                  reason := reason.or (.str "Customer requested refund")
                  refundedAt := now
                  refundTransactionId := refundTransactionId } }
          .ok (payments.map (fun p => if p.id == payment.id then saved else p))

/-- One completed cash payment of 100 by customer 1. -/
def paidPayments : List Payment :=
  [{ id := 1, customerId := 1, amount := .num 100, status := .Completed }]

/-! ## Business settings (business-setting.model.js) -/

/-- Row of `business_settings`, with the columns that have a check or a
default of their own. -/
structure BusinessSetting where
  id : Nat
  companyName : JsVal := .str "GardenPro Services"
  companyEmail : JsVal := .null
  currency : JsVal := .str "USD"
  updatedBy : JsVal := .null
deriving DecidableEq, Repr

/-- The attributes handed to `BusinessSetting.create`; `undefined` for an
absent key. -/
structure BusinessSettingValues where
  companyName : JsVal := .undefined
  companyEmail : JsVal := .undefined
  currency : JsVal := .undefined
  updatedBy : JsVal := .undefined
deriving DecidableEq, Repr

/-- Insert `BusinessSetting.create`: the instance is validated, then the
`beforeCreate` hook counts the rows and throws when there is one, then the
row is inserted. Returns the new table and the new row. -/
def BusinessSetting.create (table : List BusinessSetting) (values : BusinessSettingValues) :
    Except ErrorResponse (List BusinessSetting × BusinessSetting) :=
  if (values.companyName.toColumnOr (.str "GardenPro Services")).isNullish then
    .error { message := "BusinessSetting.companyName cannot be null", statusCode := 400 }
  else
    let existing := table.length
    if existing > 0 then
      .error { message := "Only one business setting record is allowed", statusCode := 500 }
    else
      let row : BusinessSetting :=
        { id := nextId (table.map (fun s => s.id))
          companyName := values.companyName.toColumnOr (.str "GardenPro Services")
          companyEmail := values.companyEmail.toColumn
          currency := values.currency.toColumnOr (.str "USD")
          updatedBy := values.updatedBy.toColumn }
      .ok (table ++ [row], row)

/-- Static method `BusinessSetting.getSettings`: the row `findOne` gives, or a
row created from the defaults when there is none. Returns the table after the
call and the settings. -/
def BusinessSetting.getSettings (table : List BusinessSetting) :
    Except ErrorResponse (List BusinessSetting × BusinessSetting) :=
  match table.head? with
  | none => BusinessSetting.create table {}
  | some settings => .ok (table, settings)

/-- One call on the model. -/
inductive SettingsOp where
  | create (values : BusinessSettingValues)
  | getSettings
deriving DecidableEq, Repr

/-- Table after a call: a call that throws inserts nothing. -/
def applySettingsOp (table : List BusinessSetting) : SettingsOp → List BusinessSetting
  | .create values =>
    match BusinessSetting.create table values with
    | .ok (table1, _) => table1
    | .error _ => table
  | .getSettings =>
    match BusinessSetting.getSettings table with
    | .ok (table1, _) => table1
    | .error _ => table

/-- Table after a sequence of calls. -/
def applySettingsOps (table : List BusinessSetting) (ops : List SettingsOp) :
    List BusinessSetting :=
  ops.foldl applySettingsOp table

/-! ## Pagination (middlewares/advancedResults.js) -/

/-- The white space and line terminators that `parseInt` skips at the start
of its input. -/
def isWhiteSpace (c : Char) : Bool :=
  [9, 10, 11, 12, 13, 32, 160, 5760, 8232, 8233, 8239, 8287, 12288, 65279].contains c.toNat
    || (8192 ≤ c.toNat && c.toNat ≤ 8202)

/-- Value of a run of decimal digits. -/
def digitsValue (digits : List Char) : Int :=
  digits.foldl (fun acc c => 10 * acc + ((c.toNat : Int) - 48)) 0

/-- Function `parseInt(value, 10)` on a query value, `none` for NaN: leading
white space is skipped, a sign is read, and the longest run of decimal digits
that follows is the number; without a digit the result is NaN, as it is for an
absent value. Numbers are exact integers here. -/
def parseInt (value : Option String) : Option Int :=
  match value with
  | none => none
  | some s =>
    let trimmed := s.toList.dropWhile isWhiteSpace
    let sign : Int := if trimmed.head? = some '-' then -1 else 1
    let unsigned :=
      if trimmed.head? = some '-' ∨ trimmed.head? = some '+' then trimmed.tail else trimmed
    let digits := unsigned.takeWhile Char.isDigit
    if digits.isEmpty then none else some (sign * digitsValue digits)

/-- The expression `parseInt(value, 10) || dflt`: NaN and 0 are falsy. -/
def parseIntOr (value : Option String) (dflt : Int) : Int :=
  match parseInt value with
  | none => dflt
  | some n => if n = 0 then dflt else n

/-- The constant `page`. -/
def page (query : Option String) : Int := parseIntOr query 1

/-- The constant `limit`. -/
def limit (query : Option String) : Int := parseIntOr query 25

/-- The constant `offset`. -/
def offset (pageQuery limitQuery : Option String) : Int :=
  (page pageQuery - 1) * limit limitQuery

/-- The constant `totalPages`: `Math.ceil(count / limit)`. -/
def totalPages (count : Int) (limitQuery : Option String) : Int :=
  ⌈(count : ℚ) / (limit limitQuery : ℚ)⌉

/-- A page reference `{ page, limit }`. -/
structure PageRef where
  page : Int
  limit : Int
deriving DecidableEq, Repr

/-- The object `pagination`; `next` and `prev` are `none` when the key is not
set. -/
structure Pagination where
  next : Option PageRef
  prev : Option PageRef
  totalPages : Int
  currentPage : Int
  totalItems : Int
deriving DecidableEq, Repr

/-- The object `pagination` built from the query values and the `count` of
`findAndCountAll`. -/
def pagination (pageQuery limitQuery : Option String) (count : Int) : Pagination :=
  { next :=
      if page pageQuery < totalPages count limitQuery then
        some { page := page pageQuery + 1, limit := limit limitQuery }
      else none
    prev :=
      if page pageQuery > 1 then
        some { page := page pageQuery - 1, limit := limit limitQuery }
      else none
    totalPages := totalPages count limitQuery
    currentPage := page pageQuery
    totalItems := count }

/-! ## Properties of the availability calculator -/

/-- Every generated slot comes from an instant `t` of the loop: at or after
the starting instant, before the closing time, with `t + duration` not after
the closing time. -/
theorem generateSlots_mem (duration endTime : Int) (current : Int) :
    ∀ slot ∈ generateSlots duration endTime current,
      ∃ t, current ≤ t ∧ t < endTime ∧ t + duration ≤ endTime
        ∧ slot.start = toLocaleTimeString t ∧ slot.end_ = toLocaleTimeString (t + duration) := by
  induction current using generateSlots.induct duration endTime with
  | case1 x hx slotEnd hgt =>
    intro slot hslot
    rw [generateSlots] at hslot
    simp [hx, slotEnd, hgt] at hslot
  | case2 x hx slotEnd hle ih =>
    intro slot hslot
    rw [generateSlots] at hslot
    simp only [hx, if_true] at hslot
    have hle2 : ¬ (x + duration > endTime) := hle
    simp only [hle2, if_false, List.mem_cons] at hslot
    rcases hslot with rfl | hslot
    · exact ⟨x, le_refl _, hx, by omega, rfl, rfl⟩
    · obtain ⟨t, h1, h2, h3, h4, h5⟩ := ih slot hslot
      refine ⟨t, ?_, h2, h3, h4, h5⟩
      simp only [businessHours] at h1
      omega
  | case3 x hx =>
    intro slot hslot
    rw [generateSlots] at hslot
    simp [hx] at hslot

/-- Starts of the generated slots increase strictly, when the loop runs inside
one day. -/
theorem generateSlots_pairwise (duration endTime : Int) (hE : endTime ≤ 1440) (current : Int)
    (h0 : 0 ≤ current) :
    (generateSlots duration endTime current).Pairwise (fun a b => a.start < b.start) := by
  induction current using generateSlots.induct duration endTime with
  | case1 x hx slotEnd hgt =>
    rw [generateSlots]
    simp [hx, slotEnd, hgt]
  | case2 x hx slotEnd hle ih =>
    rw [generateSlots]
    have hle2 : ¬ (x + duration > endTime) := hle
    simp only [hx, if_true, hle2, if_false, List.pairwise_cons]
    refine ⟨?_, ih (by simp only [businessHours]; omega)⟩
    intro b hb
    obtain ⟨t, h1, h2, _, h4, _⟩ := generateSlots_mem duration endTime _ b hb
    simp only [businessHours] at h1
    simp only [toLocaleTimeString] at h4 ⊢
    rw [h4]
    omega
  | case3 x hx =>
    rw [generateSlots]
    simp [hx]

/-- Unfolding of the handler on a request with a date text and an existing
service. -/
theorem getAvailableTimeSlots_ok (rt : Runtime) (db : Db) (date formattedDate : String)
    (serviceId : Nat) (service : Service) (hne : date ≠ "")
    (hd : rt.isoDate date = some formattedDate)
    (hs : db.services.find? (fun s => s.id == serviceId) = some service) :
    getAvailableTimeSlots rt db (some date) (some serviceId)
      = .ok ((allSlots service.duration).filter (fun slot =>
          !(db.appointments.filter (fun a => a.date == formattedDate)).any
            (fun a => slotTaken rt slot a))) := by
  simp [getAvailableTimeSlots, hne, hd, hs]

/-- The filter predicate holds exactly when both time texts parse and the two
intervals overlap half-open. -/
theorem slotTaken_iff (rt : Runtime) (slot : TimeSlot) (a : Appointment) :
    slotTaken rt slot a = true ↔
      ∃ s e, rt.parseTime a.startTime = some s ∧ rt.parseTime a.endTime = some e
        ∧ slot.start * 60000 < e ∧ slot.end_ * 60000 > s := by
  unfold slotTaken slotDate
  cases hs : rt.parseTime a.startTime <;> cases he : rt.parseTime a.endTime <;>
    simp [dateLt]

/-- C1 (as amended): for a service whose duration `d` is not negative, the
availability request succeeds and every returned slot satisfies
end = start + d, end <= 18:00, and overlaps no appointment stored for the
date: for no such appointment do start < its end and end > its start hold. -/
theorem availableSlots_sound (rt : Runtime) (db : Db) (date formattedDate : String)
    (serviceId : Nat) (service : Service) (hne : date ≠ "")
    (hd : rt.isoDate date = some formattedDate)
    (hs : db.services.find? (fun s => s.id == serviceId) = some service)
    (hdur : 0 ≤ service.duration) :
    ∃ slots, getAvailableTimeSlots rt db (some date) (some serviceId) = .ok slots
      ∧ ∀ slot ∈ slots,
          slot.end_ = slot.start + service.duration
          ∧ slot.end_ ≤ 18 * 60
          ∧ ∀ a ∈ db.appointments, a.date = formattedDate →
              ∀ s e, rt.parseTime a.startTime = some s → rt.parseTime a.endTime = some e →
                ¬ (slot.start * 60000 < e ∧ slot.end_ * 60000 > s) := by
  refine ⟨_, getAvailableTimeSlots_ok rt db date formattedDate serviceId service hne hd hs, ?_⟩
  intro slot hslot
  rw [List.mem_filter] at hslot
  obtain ⟨hmem, hfree⟩ := hslot
  obtain ⟨t, h1, h2, h3, h4, h5⟩ := generateSlots_mem _ _ _ slot hmem
  simp only [businessHours] at h1 h2 h3
  simp only [toLocaleTimeString] at h4 h5
  refine ⟨by omega, by omega, ?_⟩
  intro a ha hdate s e hps hpe hov
  have htaken : slotTaken rt slot a = true :=
    (slotTaken_iff rt slot a).2 ⟨s, e, hps, hpe, hov.1, hov.2⟩
  have hany : (db.appointments.filter (fun a => a.date == formattedDate)).any
      (fun a => slotTaken rt slot a) = true := by
    rw [List.any_eq_true]
    exact ⟨a, List.mem_filter.2 ⟨ha, by simp [hdate]⟩, htaken⟩
  simp [hany] at hfree

/-- Witness of C1: the booked day of `bookedDb` with the 60-minute service. -/
theorem availableSlots_sound_witness :
    ("2024-06-10" : String) ≠ ""
    ∧ sampleRuntime.isoDate "2024-06-10" = some "2024-06-10"
    ∧ (0 : Int) ≤ 60
    ∧ ∃ slots, getAvailableTimeSlots sampleRuntime bookedDb (some "2024-06-10") (some 1)
          = .ok slots
        ∧ ∀ slot ∈ slots,
            slot.end_ = slot.start + 60
            ∧ slot.end_ ≤ 18 * 60
            ∧ ∀ a ∈ bookedDb.appointments, a.date = "2024-06-10" →
                ∀ s e, sampleRuntime.parseTime a.startTime = some s →
                  sampleRuntime.parseTime a.endTime = some e →
                  ¬ (slot.start * 60000 < e ∧ slot.end_ * 60000 > s) :=
  ⟨by decide, by decide, by decide,
    availableSlots_sound sampleRuntime bookedDb "2024-06-10" "2024-06-10" 1
      { id := 1, duration := 60 } (by decide) (by decide) (by rfl) (by decide)⟩

/-- Counterexample to C1 as stated: for the service of duration -600 the first
returned slot starts at 08:00 and ends at 22:00, after the close of business
and not at start + d. -/
theorem availableSlots_negative_duration :
    ∃ slots, getAvailableTimeSlots sampleRuntime negativeDurationDb (some "2024-06-10") (some 1)
        = .ok slots
      ∧ ∃ slot ∈ slots, slot.start = 8 * 60 ∧ slot.end_ = 22 * 60
          ∧ ¬ slot.end_ ≤ 18 * 60 ∧ ¬ slot.end_ = slot.start + (-600) := by
  refine ⟨_, getAvailableTimeSlots_ok sampleRuntime negativeDurationDb "2024-06-10"
    "2024-06-10" 1 { id := 1, duration := -600 } (by decide) (by decide) (by rfl), ?_⟩
  refine ⟨{ start := 480, end_ := 1320 }, ?_, by decide, by decide, by decide, by decide⟩
  rw [List.mem_filter]
  refine ⟨?_, by simp [negativeDurationDb]⟩
  rw [allSlots, generateSlots]
  simp [businessHours, toLocaleTimeString]

/-- C3: the result of the availability request is the chronological list of
candidate slots without those that overlap an appointment of the date: it is
a sublist of the candidates, a candidate is absent from it if and only if
candidateStart < existingEnd and candidateEnd > existingStart for at least one
appointment of the date, and the starts of the result increase strictly. -/
theorem availableSlots_exact (rt : Runtime) (db : Db) (date formattedDate : String)
    (serviceId : Nat) (service : Service) (hne : date ≠ "")
    (hd : rt.isoDate date = some formattedDate)
    (hs : db.services.find? (fun s => s.id == serviceId) = some service) :
    ∃ slots, getAvailableTimeSlots rt db (some date) (some serviceId) = .ok slots
      ∧ slots.Sublist (allSlots service.duration)
      ∧ (∀ c ∈ allSlots service.duration,
          c ∉ slots ↔
            ∃ a ∈ db.appointments, a.date = formattedDate ∧
              ∃ s e, rt.parseTime a.startTime = some s ∧ rt.parseTime a.endTime = some e
                ∧ c.start * 60000 < e ∧ c.end_ * 60000 > s)
      ∧ slots.Pairwise (fun a b => a.start < b.start) := by
  refine ⟨_, getAvailableTimeSlots_ok rt db date formattedDate serviceId service hne hd hs,
    List.filter_sublist _, ?_, ?_⟩
  · intro c hc
    rw [List.mem_filter]
    simp only [hc, true_and, Bool.not_eq_true', Bool.not_eq_false, List.any_eq_true,
      List.mem_filter, beq_iff_eq, slotTaken_iff]
    constructor
    · rintro ⟨a, ⟨ha, hdate⟩, h⟩
      exact ⟨a, ha, hdate, h⟩
    · rintro ⟨a, ha, hdate, h⟩
      exact ⟨a, ⟨ha, hdate⟩, h⟩
  · apply List.Pairwise.filter
    exact generateSlots_pairwise _ _ (by simp [businessHours]) _ (by simp [businessHours])

/-- The candidate slots of a 60-minute service: 08:00-09:00, 08:30-09:30, ...,
17:00-18:00. -/
theorem allSlots_sixty :
    allSlots 60 = (List.range 19).map
      (fun k => { start := 480 + 30 * (k : Int), end_ := 540 + 30 * (k : Int) }) := by
  simp [allSlots, generateSlots, businessHours, toLocaleTimeString, List.range, List.range.loop]

/-- Witness of C3: a 60-minute service and one appointment 09:00-10:00. The
result lacks the slots starting 08:30, 09:00 and 09:30 and contains
08:00-09:00 and 10:00-11:00. -/
theorem availableSlots_exact_witness :
    (∃ slots, getAvailableTimeSlots sampleRuntime bookedDb (some "2024-06-10") (some 1)
          = .ok slots
        ∧ slots.Sublist (allSlots 60)
        ∧ (∀ c ∈ allSlots 60,
            c ∉ slots ↔
              ∃ a ∈ bookedDb.appointments, a.date = "2024-06-10" ∧
                ∃ s e, sampleRuntime.parseTime a.startTime = some s
                  ∧ sampleRuntime.parseTime a.endTime = some e
                  ∧ c.start * 60000 < e ∧ c.end_ * 60000 > s)
        ∧ slots.Pairwise (fun a b => a.start < b.start))
    ∧ ∃ slots, getAvailableTimeSlots sampleRuntime bookedDb (some "2024-06-10") (some 1)
          = .ok slots
        ∧ { start := 8 * 60, end_ := 9 * 60 } ∈ slots
        ∧ { start := 10 * 60, end_ := 11 * 60 } ∈ slots
        ∧ ∀ slot ∈ slots,
            slot.start ≠ 8 * 60 + 30 ∧ slot.start ≠ 9 * 60 ∧ slot.start ≠ 9 * 60 + 30 := by
  refine ⟨availableSlots_exact sampleRuntime bookedDb "2024-06-10" "2024-06-10" 1
      { id := 1, duration := 60 } (by decide) (by decide) (by rfl), ?_⟩
  refine ⟨_, getAvailableTimeSlots_ok sampleRuntime bookedDb "2024-06-10" "2024-06-10" 1
    { id := 1, duration := 60 } (by decide) (by decide) (by rfl), ?_⟩
  have hstart : sampleRuntime.parseTime "09:00" = some 32400000 := by decide
  have hend : sampleRuntime.parseTime "10:00" = some 36000000 := by decide
  simp only [allSlots_sixty, bookedDb, List.filter, slotTaken, slotDate]
  simp [hstart, hend, dateLt, List.range, List.range.loop]

/-! ## The order of the time strings -/

/-- A character is determined by its code. -/
theorem charToNat_inj (a b : Char) (h : a.toNat = b.toNat) : a = b := by
  have h1 : Char.ofNat a.toNat = Char.ofNat b.toNat := by rw [h]
  simpa using h1

/-- The code-unit order is asymmetric. -/
theorem codeUnitsLt_asymm : ∀ a b : List Char, codeUnitsLt a b = true → codeUnitsLt b a = false
  | [], [], h => by simp [codeUnitsLt] at h
  | [], _ :: _, _ => by simp [codeUnitsLt]
  | _ :: _, [], h => by simp [codeUnitsLt] at h
  | a :: as, b :: bs, h => by
    unfold codeUnitsLt at h ⊢
    by_cases h1 : a.toNat < b.toNat
    · have h2 : ¬ b.toNat < a.toNat := by omega
      simp [h1, h2]
    · by_cases h2 : b.toNat < a.toNat
      · simp [h1, h2] at h
      · simp only [h1, h2, if_false] at h ⊢
        exact codeUnitsLt_asymm as bs h

/-- Two texts neither of which is below the other are equal. -/
theorem codeUnitsLt_total : ∀ a b : List Char,
    codeUnitsLt a b = false → codeUnitsLt b a = false → a = b
  | [], [], _, _ => rfl
  | [], _ :: _, h, _ => by simp [codeUnitsLt] at h
  | _ :: _, [], _, h => by simp [codeUnitsLt] at h
  | a :: as, b :: bs, h, h' => by
    unfold codeUnitsLt at h h'
    by_cases h1 : a.toNat < b.toNat
    · simp [h1] at h
    · by_cases h2 : b.toNat < a.toNat
      · simp [h2] at h'
      · simp only [h1, h2, if_false] at h h'
        have hab : a = b := charToNat_inj a b (by omega)
        rw [hab, codeUnitsLt_total as bs h h']

/-- The code-unit order is transitive. -/
theorem codeUnitsLt_trans : ∀ a b c : List Char,
    codeUnitsLt a b = true → codeUnitsLt b c = true → codeUnitsLt a c = true
  | [], [], _, h, _ => by simp [codeUnitsLt] at h
  | [], _ :: _, [], _, h => by simp [codeUnitsLt] at h
  | [], _ :: _, _ :: _, _, _ => by simp [codeUnitsLt]
  | _ :: _, [], _, h, _ => by simp [codeUnitsLt] at h
  | _ :: _, _ :: _, [], _, h => by simp [codeUnitsLt] at h
  | a :: as, b :: bs, c :: cs, h, h' => by
    unfold codeUnitsLt at h h' ⊢
    by_cases h1 : a.toNat < b.toNat
    · by_cases h3 : b.toNat < c.toNat
      · have : a.toNat < c.toNat := by omega
        simp [this]
      · by_cases h4 : c.toNat < b.toNat
        · simp [h3, h4] at h'
        · have : a.toNat < c.toNat := by omega
          simp [this]
    · by_cases h2 : b.toNat < a.toNat
      · simp [h1, h2] at h
      · simp only [h1, h2, if_false] at h
        by_cases h3 : b.toNat < c.toNat
        · have : a.toNat < c.toNat := by omega
          simp [this]
        · by_cases h4 : c.toNat < b.toNat
          · simp [h3, h4] at h'
          · simp only [h3, h4, if_false] at h'
            have e1 : ¬ a.toNat < c.toNat := by omega
            have e2 : ¬ c.toNat < a.toNat := by omega
            simp only [e1, e2, if_false]
            exact codeUnitsLt_trans as bs cs h h'

/-- From `a <= b` and `b < c` follows `a < c`. -/
theorem jsLt_of_le_of_lt (a b c : String) (h : jsLt b a = false) (h2 : jsLt b c = true) :
    jsLt a c = true := by
  cases hab : jsLt a b with
  | true => exact codeUnitsLt_trans _ _ _ hab h2
  | false =>
    have : a = b := String.ext (codeUnitsLt_total _ _ hab h)
    rw [this]; exact h2

/-- From `a < b` and `b <= c` follows `a < c`. -/
theorem jsLt_of_lt_of_le (a b c : String) (h : jsLt a b = true) (h2 : jsLt c b = false) :
    jsLt a c = true := by
  cases hbc : jsLt b c with
  | true => exact codeUnitsLt_trans _ _ _ h hbc
  | false =>
    have : b = c := String.ext (codeUnitsLt_total _ _ hbc h2)
    rw [← this]; exact h

/-- C4 (as amended): a half-open overlap (s < e' and e > s') is always
reported as a conflict by the three-disjunct test, and for windows with s < e
and s' < e' the test reports a conflict if and only if s < e' and e > s'. -/
theorem timeConflict_iff_halfOpen (s e s' e' : String) :
    (jsLt s e' = true ∧ jsGt e s' = true → timeConflict s e s' e' = true)
    ∧ (jsLt s e = true → jsLt s' e' = true →
        (timeConflict s e s' e' = true ↔ jsLt s e' = true ∧ jsGt e s' = true)) := by
  have fwd : jsLt s e' = true ∧ jsGt e s' = true → timeConflict s e s' e' = true := by
    rintro ⟨h1, h2⟩
    simp only [jsGt] at h2
    simp only [timeConflict, jsGe, jsGt, jsLe, Bool.or_eq_true, Bool.and_eq_true,
      Bool.not_eq_true']
    cases hss : jsLt s s' with
    | false => exact Or.inl (Or.inl ⟨rfl, h1⟩)
    | true =>
      cases hee : jsLt e e' with
      | false => exact Or.inr ⟨codeUnitsLt_asymm _ _ hss, rfl⟩
      | true => exact Or.inl (Or.inr ⟨h2, codeUnitsLt_asymm _ _ hee⟩)
  refine ⟨fwd, fun hse hse' => ⟨?_, fwd⟩⟩
  simp only [timeConflict, jsGe, jsGt, jsLe, Bool.or_eq_true, Bool.and_eq_true,
    Bool.not_eq_true']
  rintro ((⟨h1, h2⟩ | ⟨h1, h2⟩) | ⟨h1, h2⟩)
  · exact ⟨h2, jsLt_of_le_of_lt s' s e h1 hse⟩
  · exact ⟨jsLt_of_lt_of_le s e e' hse h2, h1⟩
  · exact ⟨jsLt_of_le_of_lt s s' e' h1 hse', jsLt_of_lt_of_le s' e' e hse' h2⟩

/-- Witness of C4: the windows 10:00-11:00 and 10:30-11:30. -/
theorem timeConflict_iff_halfOpen_witness :
    jsLt "10:00" "11:00" = true ∧ jsLt "10:30" "11:30" = true
    ∧ (jsLt "10:00" "11:30" = true ∧ jsGt "11:00" "10:30" = true
        → timeConflict "10:00" "11:00" "10:30" "11:30" = true)
    ∧ (timeConflict "10:00" "11:00" "10:30" "11:30" = true
        ↔ jsLt "10:00" "11:30" = true ∧ jsGt "11:00" "10:30" = true) :=
  ⟨by decide, by decide,
    (timeConflict_iff_halfOpen "10:00" "11:00" "10:30" "11:30").1,
    (timeConflict_iff_halfOpen "10:00" "11:00" "10:30" "11:30").2 (by decide) (by decide)⟩

/-- Counterexample to C4 as stated: against an existing appointment stored
with startTime = endTime = 10:00, the candidate 10:00-11:00 is reported as a
conflict although s < e' fails. -/
theorem timeConflict_degenerate :
    timeConflict "10:00" "11:00" "10:00" "10:00" = true
    ∧ ¬ (jsLt "10:00" "10:00" = true ∧ jsGt "11:00" "10:00" = true) := by
  decide

/-! ## Properties of the crew assignment -/

/-- A search that finds no crew row means no row carries the pair. -/
theorem findCrew_none (db : Db) (a u : Nat) (h : findCrew db a u = none) :
    (a, u) ∉ db.appointmentCrew.map (fun c => (c.appointmentId, c.userId)) := by
  unfold findCrew at h
  rw [List.find?_eq_none] at h
  intro hmem
  rw [List.mem_map] at hmem
  obtain ⟨c, hc, heq⟩ := hmem
  have := h c hc
  simp only [Prod.mk.injEq] at heq
  simp [heq.1, heq.2] at this

/-- An insert guarded by an unsuccessful search keeps the pairs distinct. -/
theorem createCrew_unique (db : Db) (a u : Nat) (h : findCrew db a u = none)
    (hu : CrewUnique db) : CrewUnique (createCrew db a u) := by
  unfold CrewUnique createCrew
  simp only [List.map_append, List.map_cons, List.map_nil]
  rw [List.nodup_append]
  refine ⟨hu, List.nodup_singleton _, ?_⟩
  intro x hx hx'
  simp only [List.mem_singleton] at hx'
  subst hx'
  exact findCrew_none db a u h hx

/-- Writing the lead column leaves the crew table as it is. -/
theorem saveLead_crew (db : Db) (a u : Nat) :
    (saveLead db a u).appointmentCrew = db.appointmentCrew := rfl

/-- Searching the crew after the lead column was written. -/
theorem findCrew_saveLead (db : Db) (a u a' u' : Nat) :
    findCrew (saveLead db a u) a' u' = findCrew db a' u' := rfl

/-- As the module stands, `assignToAppointment` answers an error for every
request: 404 when the professional does not exist, and 500 for the unbound
`Service` when it does. -/
theorem assignToAppointment_fails (rt : Runtime) (db : Db) (professionalId appointmentId : Nat)
    (isLead : Bool) :
    ∃ e, assignToAppointment professionalModule rt db professionalId appointmentId isLead
      = .error e := by
  unfold assignToAppointment
  cases db.professionals.find? (fun p => p.id == professionalId) with
  | none => exact ⟨_, rfl⟩
  | some professional => exact ⟨_, rfl⟩

/-- For a professional that exists the answer is the 500 of the
ReferenceError. -/
theorem assignToAppointment_unbound (rt : Runtime) (db : Db)
    (professionalId appointmentId : Nat) (isLead : Bool) (professional : Professional)
    (hp : db.professionals.find? (fun p => p.id == professionalId) = some professional) :
    assignToAppointment professionalModule rt db professionalId appointmentId isLead
      = .error { message := "Service is not defined", statusCode := 500 } := by
  simp only [assignToAppointment, hp]
  rfl

/-- Every assignment request that succeeds keeps the pairs distinct. -/
theorem crewOp_run_unique (rt : Runtime) (db db1 : Db) (op : CrewOp)
    (h : op.run rt db = .ok db1) (hu : CrewUnique db) : CrewUnique db1 := by
  cases op with
  | addCrewMember a u =>
    simp only [CrewOp.run, Landscaping.addCrewMember] at h
    split at h
    · cases h
    · split at h
      · cases h
      · split at h
        · cases h
        · split at h
          · cases h
          · split at h
            · cases h
            · split at h
              · cases h
              · rename_i hnone
                cases h
                exact createCrew_unique db _ _ hnone hu
  | setLeadProfessional a u =>
    simp only [CrewOp.run, Landscaping.setLeadProfessional] at h
    split at h
    · cases h
    · split at h
      · cases h
      · split at h
        · cases h
        · split at h
          · cases h
          · split at h
            · cases h
            · split at h
              · cases h
                exact hu
              · rename_i hnone
                cases h
                exact createCrew_unique _ _ _ hnone hu
  | assignToAppointment p a l =>
    obtain ⟨e, he⟩ := assignToAppointment_fails rt db p a l
    simp only [CrewOp.run, he] at h
    cases h

/-- C7: starting from a crew table without two rows of the same
(appointmentId, userId), every sequence of addCrewMember, setLeadProfessional
and assignToAppointment requests leaves it without such rows. -/
theorem crewUnique_applyOps (rt : Runtime) (ops : List CrewOp) (db : Db)
    (hu : CrewUnique db) : CrewUnique (applyOps rt db ops) := by
  induction ops generalizing db with
  | nil => exact hu
  | cons op ops ih =>
    simp only [applyOps, List.foldl_cons]
    apply ih
    unfold applyOp
    split
    · rename_i db1 hrun
      exact crewOp_run_unique rt db db1 op hrun hu
    · exact hu

/-- Witness of C7: four requests on `crewDb`, one of them a repeated insert
that is refused and one an `assignToAppointment` that is answered 500; one row
results. -/
theorem crewUnique_applyOps_witness :
    CrewUnique crewDb
    ∧ CrewUnique (applyOps sampleRuntime crewDb
        [.addCrewMember 1 (some 7), .addCrewMember 1 (some 7),
         .setLeadProfessional 1 (some 7), .assignToAppointment 1 3 false])
    ∧ ((applyOps sampleRuntime crewDb
        [.addCrewMember 1 (some 7), .addCrewMember 1 (some 7),
         .setLeadProfessional 1 (some 7), .assignToAppointment 1 3 false]).appointmentCrew.map
          (fun c => (c.appointmentId, c.userId))) = [(1, 7)] :=
  ⟨by unfold CrewUnique; decide,
    crewUnique_applyOps sampleRuntime
      [.addCrewMember 1 (some 7), .addCrewMember 1 (some 7),
       .setLeadProfessional 1 (some 7), .assignToAppointment 1 3 false] crewDb
      (by unfold CrewUnique; decide),
    by decide⟩

/-- The sibling path: a successful `setLeadProfessional` leaves a crew row of
the new lead on the appointment. -/
theorem setLeadProfessional_crew (db db1 : Db) (a : Nat) (u : Option Nat)
    (h : setLeadProfessional db a u = .ok db1) :
    ∃ uid, u = some uid ∧ (findCrew db1 a uid).isSome = true := by
  simp only [setLeadProfessional] at h
  split at h
  · cases h
  · rename_i uid
    refine ⟨uid, rfl, ?_⟩
    split at h
    · cases h
    · split at h
      · cases h
      · split at h
        · cases h
        · split at h
          · cases h
          · split at h
            · rename_i c hc
              cases h
              simp [hc]
            · cases h
              simp [findCrew, createCrew, List.find?_append]

/-- C6: every lead assignment that succeeds leaves a crew row of the new lead
on the appointment. `setLeadProfessional` inserts the row when there is none;
`assignToAppointment` with isLead = true never succeeds, so no state comes out
of it with a lead that is not in the crew. -/
theorem lead_assignment_joins_crew (rt : Runtime) (db db1 : Db) (a : Nat) :
    (∀ u, CrewOp.run rt db (.setLeadProfessional a u) = .ok db1 →
        ∃ uid, u = some uid ∧ (findCrew db1 a uid).isSome = true)
      ∧ (∀ p professional,
          db.professionals.find? (fun x => x.id == p) = some professional →
          CrewOp.run rt db (.assignToAppointment p a true) = .ok db1 →
          (findCrew db1 a professional.userId).isSome = true)
      ∧ (∀ p, ∃ e, CrewOp.run rt db (.assignToAppointment p a true) = .error e) := by
  refine ⟨?_, ?_, ?_⟩
  · intro u h
    exact setLeadProfessional_crew db db1 a u h
  · intro p professional _ h
    obtain ⟨e, he⟩ := assignToAppointment_fails rt db p a true
    simp only [CrewOp.run, he] at h
    cases h
  · intro p
    exact assignToAppointment_fails rt db p a true

/-- Witness of C6 on `crewDb`: `setLeadProfessional` makes user 7 the lead of
appointment 1 and the crew table has the row (1, 7) afterwards. -/
theorem lead_assignment_joins_crew_witness :
    (∃ uid, some 7 = some uid
        ∧ (findCrew (applyOp sampleRuntime crewDb (.setLeadProfessional 1 (some 7))) 1
            uid).isSome = true)
      ∧ (applyOp sampleRuntime crewDb (.setLeadProfessional 1 (some 7))).appointmentCrew.map
          (fun c => (c.appointmentId, c.userId)) = [(1, 7)]
      ∧ (findAppointment (applyOp sampleRuntime crewDb (.setLeadProfessional 1 (some 7)))
          1).map (fun x => x.leadProfessionalId) = some (some 7) :=
  ⟨(lead_assignment_joins_crew sampleRuntime crewDb
      (applyOp sampleRuntime crewDb (.setLeadProfessional 1 (some 7))) 1).1 (some 7) (by rfl),
    by decide, by decide⟩

/-- C5, the code at the failing input: in `leadDb` user 7 is the lead of
appointment 1 (10:00-11:00); the request to assign professional 1 (user 7) as
crew to appointment 2 (10:30-11:30, same date, the windows overlap) is
answered 500 with the message of the ReferenceError, for isLead false and
true, and not with the conflict error of status 400. -/
theorem assignToAppointment_lead_overlap :
    (findAppointment leadDb 1).map (fun a => (a.leadProfessionalId, a.date, a.startTime, a.endTime))
        = some (some 7, "2024-06-10", "10:00", "11:00")
      ∧ (findAppointment leadDb 2).map (fun a => (a.date, a.startTime, a.endTime))
          = some ("2024-06-10", "10:30", "11:30")
      ∧ timeConflict "10:30" "11:30" "10:00" "11:00" = true
      ∧ assignToAppointment professionalModule sampleRuntime leadDb 1 2 false
          = .error { message := "Service is not defined", statusCode := 500 }
      ∧ assignToAppointment professionalModule sampleRuntime leadDb 1 2 true
          = .error { message := "Service is not defined", statusCode := 500 }
      ∧ applyOp sampleRuntime leadDb (.assignToAppointment 1 2 false) = leadDb :=
  ⟨by decide, by decide, by decide, rfl, rfl, by decide⟩

/-- C2, the code at the failing input: `crewDb` has no double booking; after
addCrewMember(1, 7) and addCrewMember(2, 7), which both succeed, user 7 is in
the crew of appointment 1 (10:00-11:00) and of appointment 2 (10:30-11:30) on
the same date, so the state reached is double booked. -/
theorem addCrewMember_double_booking :
    NoDoubleBooking crewDb
    ∧ (∃ db1 db2, addCrewMember crewDb 1 (some 7) = .ok db1
        ∧ addCrewMember db1 2 (some 7) = .ok db2
        ∧ applyOps sampleRuntime crewDb
            [.addCrewMember 1 (some 7), .addCrewMember 2 (some 7)] = db2)
    ∧ ¬ NoDoubleBooking (applyOps sampleRuntime crewDb
          [.addCrewMember 1 (some 7), .addCrewMember 2 (some 7)]) := by
  refine ⟨?_, ⟨_, _, rfl, rfl, by decide⟩, ?_⟩
  · intro u a ha b hb _ _ hra _
    simp only [crewDb, List.mem_cons, List.mem_singleton, List.not_mem_nil, or_false] at ha
    rcases ha with rfl | rfl | rfl <;> simp [holdsRole, crewDb] at hra
  · intro h
    have := h 7 { id := 1, date := "2024-06-10", startTime := "10:00", endTime := "11:00" }
      (by decide) { id := 2, date := "2024-06-10", startTime := "10:30", endTime := "11:30" }
      (by decide) (by decide) (by decide) (by decide) (by decide)
    revert this
    decide

/-! ## Properties of the estimate aggregate -/

/-- A service insert writes to `estimate_services` only. -/
theorem estimateService_create_frame (estimateId : Nat) (db db1 : Db)
    (arg : ServiceIdArg × JsVal) (h : EstimateService.create estimateId db arg = .ok db1) :
    db1.estimates = db.estimates ∧ db1.estimatePackages = db.estimatePackages
      ∧ db1.estimateLineItems = db.estimateLineItems ∧ db1.services = db.services := by
  unfold EstimateService.create at h
  split at h
  · cases h
  · cases h
  · split at h
    · cases h; exact ⟨rfl, rfl, rfl, rfl⟩
    · cases h

/-- A line-item insert writes to `estimate_line_items` only. -/
theorem estimateLineItem_create_frame (packageId : Nat) (db db1 : Db) (li : LineItemInput)
    (h : EstimateLineItem.create packageId db li = .ok db1) :
    db1.estimates = db.estimates ∧ db1.estimateServices = db.estimateServices
      ∧ db1.estimatePackages = db.estimatePackages := by
  unfold EstimateLineItem.create at h
  split at h
  · cases h
  · cases h; exact ⟨rfl, rfl, rfl⟩

/-- A package insert writes to `estimate_packages` only. -/
theorem estimatePackage_create_frame (estimateId : Nat) (db db1 : Db) (p : PackageInput)
    (n : Nat) (h : EstimatePackage.create estimateId db p = .ok (db1, n)) :
    db1.estimates = db.estimates ∧ db1.estimateServices = db.estimateServices := by
  unfold EstimatePackage.create at h
  split at h
  · cases h
  · split at h
    · cases h
    · split at h
      · cases h
      · cases h; exact ⟨rfl, rfl⟩

/-- A group of inserts keeps every property of the state that each insert
keeps. -/
theorem promiseAll_frame {α : Type} (create : Db → α → Except ErrorResponse Db)
    (P : Db → Prop) (hcreate : ∀ db x db1, create db x = .ok db1 → P db → P db1)
    (items : List α) (db : Db) (e : Option ErrorResponse) (h : P db) :
    P (items.foldl
      (fun acc item =>
        match create acc.1 item with
        | .ok db1 => (db1, acc.2)
        | .error e => (acc.1, acc.2.orElse (fun _ => some e)))
      (db, e)).1 := by
  induction items generalizing db e with
  | nil => exact h
  | cons x xs ih =>
    simp only [List.foldl_cons]
    cases hx : create db x with
    | ok db1 => exact ih db1 e (hcreate db x db1 hx h)
    | error err => exact ih db _ h

/-- The package loop writes neither to `estimates` nor to
`estimate_services`. -/
theorem createPackages_frame (estimateId : Nat) (ps : List PackageInput) (db : Db) :
    (createPackages estimateId db ps).1.estimates = db.estimates
      ∧ (createPackages estimateId db ps).1.estimateServices = db.estimateServices := by
  induction ps generalizing db with
  | nil => exact ⟨rfl, rfl⟩
  | cons p ps ih =>
    unfold createPackages
    cases hp : EstimatePackage.create estimateId db p with
    | error e => exact ⟨rfl, rfl⟩
    | ok r =>
      obtain ⟨db1, n⟩ := r
      have hf := estimatePackage_create_frame estimateId db db1 p n hp
      have hstep : ∀ items : List LineItemInput,
          (promiseAll (EstimateLineItem.create n) db1 items).1.estimates = db.estimates
          ∧ (promiseAll (EstimateLineItem.create n) db1 items).1.estimateServices
              = db.estimateServices := by
        intro items
        exact promiseAll_frame (EstimateLineItem.create n)
          (fun d => d.estimates = db.estimates ∧ d.estimateServices = db.estimateServices)
          (fun d x d1 hd hP => by
            have := estimateLineItem_create_frame n d d1 x hd
            exact ⟨this.1.trans hP.1, this.2.1.trans hP.2⟩)
          items db1 none hf
      simp only
      cases hli : p.lineItems with
      | none =>
        simp only
        have := ih db1
        exact ⟨this.1.trans hf.1, this.2.trans hf.2⟩
      | some l =>
        cases l with
        | nil =>
          simp only
          have := ih db1
          exact ⟨this.1.trans hf.1, this.2.trans hf.2⟩
        | cons li lis =>
          simp only
          have hs := hstep (li :: lis)
          split
          · exact hs
          · have := ih (promiseAll (EstimateLineItem.create n) db1 (li :: lis)).1
            exact ⟨this.1.trans hs.1, this.2.trans hs.2⟩

/-- Once an insert of a group was rejected, the group reports an error. -/
theorem promiseAll_error_sticks {α : Type} (create : Db → α → Except ErrorResponse Db)
    (items : List α) (db : Db) (e : ErrorResponse) :
    (items.foldl
      (fun acc item =>
        match create acc.1 item with
        | .ok db1 => (db1, acc.2)
        | .error e => (acc.1, acc.2.orElse (fun _ => some e)))
      (db, some e)).2 ≠ none := by
  induction items generalizing db with
  | nil => simp
  | cons x xs ih =>
    simp only [List.foldl_cons]
    cases hx : create db x with
    | ok db1 => exact ih db1
    | error err => exact ih db

/-- As the module stands, `updateEstimate` answers the error of its first
query for every request and every caller. -/
theorem updateEstimate_fails (scope : EstimateModule) (db : Db) (role : Role) (id : Nat)
    (body : EstimateBody) :
    updateEstimate scope db role id body = .error eagerLoadingError := rfl

/-- C8, the code at the failing input: on `estimateDb`, whose estimate 1 has
the notes "old", an admin sends `customerNotes: "new"`; the request is
answered 500 and the column keeps "old". -/
theorem updateEstimate_notes_not_written :
    updateEstimate estimateModule estimateDb .admin 1 { customerNotes := .str "new" }
        = .error { message := "Service is not associated to EstimateService!",
                   statusCode := 500 }
      ∧ afterUpdate estimateModule estimateDb .admin 1 { customerNotes := .str "new" }
          = estimateDb
      ∧ ((afterUpdate estimateModule estimateDb .admin 1
            { customerNotes := .str "new" }).estimates.find? (fun e => e.id == 1)).map
          (fun e => e.customerNotes) = some (.str "old") :=
  ⟨rfl, by decide, by decide⟩

/-- C9, the code at the failing input: on `estimateDb`, whose estimate 1 has
the service rows (1, 2) and (2, 1), an admin sends the one-element list
`services: [{ service: 2, quantity: 3 }]`; the request is answered 500 and
the two rows stay, where the claim has the one row (2, 3). -/
theorem updateEstimate_services_not_replaced :
    estimateServiceRows estimateDb 1 = [(1, .num 2), (2, .num 1)]
      ∧ updateEstimate estimateModule estimateDb .admin 1
          { services := some [{ service := .id 2, quantity := .num 3 }] }
        = .error { message := "Service is not associated to EstimateService!",
                   statusCode := 500 }
      ∧ estimateServiceRows
          (afterUpdate estimateModule estimateDb .admin 1
            { services := some [{ service := .id 2, quantity := .num 3 }] }) 1
          = [(1, .num 2), (2, .num 1)] :=
  ⟨by decide, rfl, by decide⟩

/-- C10, the code at the failing input: on `estimateDb`, `createEstimate` with
`halfValidBody` fails when the package "Standard" is inserted (its description
is null), and the rows written before the failure stay: the new estimate row,
its EstimateService row, the package "Basic" and its line item. -/
theorem createEstimate_rows_remain_after_failure :
    (createEstimate juneClock estimateDb 9 halfValidBody).2
        = .error { message := "EstimatePackage.description cannot be null", statusCode := 400 }
    ∧ (createEstimate juneClock estimateDb 9 halfValidBody).1.estimates.map (fun e => e.id)
        = [1, 2]
    ∧ (createEstimate juneClock estimateDb 9 halfValidBody).1.estimateServices.map
          (fun r => (r.estimateId, r.serviceId))
        = [(1, 1), (1, 2), (2, 1)]
    ∧ (createEstimate juneClock estimateDb 9 halfValidBody).1.estimatePackages.map
          (fun r => (r.estimateId, r.name))
        = [(2, .str "Basic")]
    ∧ (createEstimate juneClock estimateDb 9 halfValidBody).1.estimateLineItems.map
          (fun r => (r.estimatePackageId, r.service))
        = [(1, .str "Mowing")] :=
  ⟨rfl, by decide, by decide, by decide, by decide⟩

/-- Closed form of the slot loop for a positive duration: the slots start at
`current + 30 k` for the first `(endTime - duration - current) / 30 + 1`
values of `k` when the first one fits, and there is none otherwise. -/
theorem generateSlots_closed (duration endTime : Int) (hd : 0 < duration) (current : Int) :
    generateSlots duration endTime current
      = (List.range
          (if current + duration ≤ endTime then
            ((endTime - duration - current) / 30 + 1).toNat else 0)).map
          (fun (k : Nat) =>
            { start := toLocaleTimeString (current + 30 * (k : Int))
              end_ := toLocaleTimeString (current + 30 * (k : Int) + duration) }) := by
  induction current using generateSlots.induct duration endTime with
  | case1 x hx slotEnd hgt =>
    rw [generateSlots]
    have h1 : ¬ (x + duration ≤ endTime) := by
      have : x + duration > endTime := hgt
      omega
    simp [hx, slotEnd, hgt, h1]
  | case2 x hx slotEnd hle ih =>
    rw [generateSlots]
    have hle2 : ¬ (x + duration > endTime) := hle
    have h1 : x + duration ≤ endTime := by omega
    simp only [hx, if_true, hle2, if_false, h1]
    rw [ih]
    simp only [businessHours]
    by_cases h2 : x + 30 + duration ≤ endTime
    · have hn : ((endTime - duration - x) / 30 + 1).toNat
          = ((endTime - duration - (x + 30)) / 30 + 1).toNat + 1 := by omega
      rw [if_pos h2, hn, List.range_succ_eq_map, List.map_cons, List.map_map]
      congr 1
      · simp
      · apply List.map_congr_left
        intro k _
        simp only [Function.comp, Nat.succ_eq_add_one, Nat.cast_add, Nat.cast_one]
        congr 2 <;> ring_nf
    · have hn : ((endTime - duration - x) / 30 + 1).toNat = 1 := by omega
      rw [if_neg h2, hn]
      have hr : List.range 1 = [0] := rfl
      rw [hr]
      simp
  | case3 x hx =>
    rw [generateSlots]
    have h1 : ¬ (x + duration ≤ endTime) := by omega
    simp [hx, h1]

/-- C19: when no appointment is booked on the date, the availability request
for a service of duration d returns, for 0 < d <= 600, exactly the slots that
start at 08:00 + 30 k minutes and end d minutes later, for
k = 0 .. floor((600 - d) / 30), in this order; for d > 600 it returns the
empty list. -/
theorem availableSlots_unbooked (rt : Runtime) (db : Db) (date formattedDate : String)
    (serviceId : Nat) (service : Service) (hne : date ≠ "")
    (hd : rt.isoDate date = some formattedDate)
    (hs : db.services.find? (fun s => s.id == serviceId) = some service)
    (hfree : ∀ a ∈ db.appointments, a.date ≠ formattedDate) :
    (0 < service.duration → service.duration ≤ 600 →
      getAvailableTimeSlots rt db (some date) (some serviceId)
        = .ok ((List.range (((600 - service.duration) / 30).toNat + 1)).map
            (fun (k : Nat) => { start := 8 * 60 + 30 * (k : Int)
                                end_ := 8 * 60 + 30 * (k : Int) + service.duration })))
    ∧ (600 < service.duration →
        getAvailableTimeSlots rt db (some date) (some serviceId) = .ok []) := by
  have hnone : db.appointments.filter (fun a => a.date == formattedDate) = [] := by
    rw [List.filter_eq_nil_iff]
    intro a ha
    simpa using hfree a ha
  rw [getAvailableTimeSlots_ok rt db date formattedDate serviceId service hne hd hs, hnone]
  simp only [List.any_nil, Bool.not_false, List.filter_true, allSlots, businessHours]
  constructor
  · intro hpos hle
    rw [generateSlots_closed _ _ hpos]
    have h1 : (8 : Int) * 60 + service.duration ≤ 18 * 60 := by omega
    have hn : ((18 * 60 - service.duration - 8 * 60) / 30 + 1).toNat
        = ((600 - service.duration) / 30).toNat + 1 := by omega
    rw [if_pos h1, hn]
    congr 1
    apply List.map_congr_left
    intro k hk
    rw [List.mem_range] at hk
    have hk2 : (k : Int) ≤ (600 - service.duration) / 30 := by omega
    simp only [toLocaleTimeString]
    congr 1 <;> omega
  · intro hbig
    rw [generateSlots_closed _ _ (by omega)]
    have h1 : ¬ ((8 : Int) * 60 + service.duration ≤ 18 * 60) := by omega
    rw [if_neg h1]
    rfl

/-- Witness of C19: the 60-minute service of `estimateDb`, where no
appointment is stored, gets the 19 slots 08:00-09:00, ..., 17:00-18:00. -/
theorem availableSlots_unbooked_witness :
    ("2024-06-10" : String) ≠ ""
    ∧ (∀ a ∈ estimateDb.appointments, a.date ≠ "2024-06-10")
    ∧ getAvailableTimeSlots sampleRuntime estimateDb (some "2024-06-10") (some 1)
        = .ok ((List.range 19).map
            (fun (k : Nat) => { start := 8 * 60 + 30 * (k : Int)
                                end_ := 8 * 60 + 30 * (k : Int) + 60 })) :=
  ⟨by decide, by intro a ha; simp [estimateDb] at ha,
    (availableSlots_unbooked sampleRuntime estimateDb "2024-06-10" "2024-06-10" 1
      { id := 1, name := .str "Mowing", duration := 60 } (by decide) (by decide) (by rfl)
      (by intro a ha; simp [estimateDb] at ha)).1 (by decide) (by decide)⟩

/-! ## Properties of the appointment lifecycle -/

/-- Looking up a row by key after the rows of that key were replaced by a row
of the same key. -/
theorem find?_replace {α : Type} (key : α → Nat) (l : List α) (id : Nat) (new e : α)
    (hnew : key new = id) (h : l.find? (fun x => key x == id) = some e) :
    (l.map (fun x => if key x == id then new else x)).find? (fun x => key x == id)
      = some new := by
  induction l with
  | nil => simp at h
  | cons x xs ih =>
    by_cases hx : (key x == id) = true
    · have hx1 : key x = id := by simpa using hx
      simp [List.find?_cons, hx1, hnew]
    · have hx2 : (key x == id) = false := by simpa using hx
      rw [List.find?_cons, hx2] at h
      have h1 : (key (if (key x == id) = true then new else x) == id) = false := by
        simp [hx2]
      simp only [List.map_cons, List.find?_cons, h1]
      exact ih h

/-- The appointment found under an id carries that id. -/
theorem findAppointment_id (db : Db) (id : Nat) (a : Appointment)
    (h : findAppointment db id = some a) : a.id = id := by
  have := List.find?_some h
  simpa using this

/-- Reading an appointment back after it was saved. -/
theorem findAppointment_save (db : Db) (id : Nat) (a new : Appointment)
    (h : findAppointment db id = some a) (hnew : new.id = id) :
    findAppointment (saveAppointment db new) id = some new := by
  unfold findAppointment at h ⊢
  unfold saveAppointment
  simp only [hnew]
  exact find?_replace (fun x : Appointment => x.id) db.appointments id new a hnew h

/-- A successful `updateAppointment` found the appointment, passed the branch
of the caller's role and saved the resulting instance. -/
theorem updateAppointment_ok (rt : Runtime) (mail : Bool) (now : Int) (db db1 : Db)
    (userId : Nat) (role : Role) (id : Nat) (body : AppointmentBody)
    (h : updateAppointment rt mail now db userId role id body = .ok db1) :
    ∃ original appointment,
      findAppointment db id = some original
      ∧ updateByRole db userId role original body = .ok appointment
      ∧ db1 = saveAppointment db (markCompleted mail now db original body appointment) := by
  unfold updateAppointment at h
  split at h
  · cases h
  · rename_i original horig
    split at h
    · cases h
    · rename_i appointment happ
      split at h
      · cases h
      · cases h
        exact ⟨original, appointment, horig, happ, rfl⟩

/-- The customer branch keeps every column but date, startTime and endTime. -/
theorem updateByRole_customer (db : Db) (userId : Nat) (original appointment : Appointment)
    (body : AppointmentBody)
    (h : updateByRole db userId .customer original body = .ok appointment) :
    appointment =
      { original with
        date := if textTruthy body.date then body.date.getD "" else original.date
        startTime :=
          if textTruthy body.startTime then body.startTime.getD "" else original.startTime
        endTime :=
          if textTruthy body.endTime then body.endTime.getD "" else original.endTime }
    ∧ body.status = none := by
  simp only [updateByRole] at h
  split at h
  · cases h
  · split at h
    · cases h
    · split at h
      · cases h
      · rename_i hkeys
        cases h
        refine ⟨rfl, ?_⟩
        cases hst : body.status with
        | none => rfl
        | some st =>
          exfalso
          apply hkeys
          have hmem : "status" ∈ body.keys.filter
              (fun key => not (allowedFields.contains key)) := by
            rw [List.mem_filter]
            refine ⟨?_, by decide⟩
            simp [AppointmentBody.keys, hst]
          exact List.length_pos_of_mem hmem

/-- The staff branch is `appointment.update(req.body)`. -/
theorem updateByRole_staff (db : Db) (userId : Nat) (role : Role)
    (original appointment : Appointment) (body : AppointmentBody) (hrole : role ≠ .customer)
    (h : updateByRole db userId role original body = .ok appointment) :
    Appointment.update original body = .ok appointment := by
  cases role with
  | customer => exact absurd rfl hrole
  | professional => exact h
  | admin => exact h

/-- The columns after a successful `appointment.update(req.body)`. -/
theorem appointment_update_columns (original appointment : Appointment) (body : AppointmentBody)
    (h : Appointment.update original body = .ok appointment) :
    appointment.id = original.id
    ∧ appointment.date = body.date.getD original.date
    ∧ appointment.startTime = body.startTime.getD original.startTime
    ∧ appointment.endTime = body.endTime.getD original.endTime
    ∧ appointment.completedAt
        = (if body.completedAt.isSome then body.completedAt else original.completedAt)
    ∧ (body.status = none → appointment.status = original.status)
    ∧ (∀ s, body.status = some s → parseStatus s = some appointment.status) := by
  unfold Appointment.update at h
  split at h
  · cases h
  · simp only at h
    split at h
    · cases h
    · rename_i st hst
      cases h
      refine ⟨rfl, rfl, rfl, rfl, rfl, ?_, ?_⟩
      · intro hnone
        rw [hnone] at hst
        simp only [Option.some.injEq] at hst
        exact hst.symm
      · intro s hs
        rw [hs] at hst
        exact hst

/-- Both role branches keep the id of the appointment. -/
theorem updateByRole_id (db : Db) (userId : Nat) (role : Role)
    (original appointment : Appointment) (body : AppointmentBody)
    (h : updateByRole db userId role original body = .ok appointment) :
    appointment.id = original.id := by
  by_cases hrole : role = .customer
  · subst hrole
    rw [(updateByRole_customer db userId original appointment body h).1]
  · exact (appointment_update_columns original appointment body
      (updateByRole_staff db userId role original appointment body hrole h)).1

/-- The completion block changes `completedAt` and `completionSent` only. -/
theorem markCompleted_columns (mail : Bool) (now : Int) (db : Db) (original : Appointment)
    (body : AppointmentBody) (appointment : Appointment) :
    (markCompleted mail now db original body appointment).id = appointment.id
    ∧ (markCompleted mail now db original body appointment).status = appointment.status
    ∧ (markCompleted mail now db original body appointment).date = appointment.date
    ∧ (markCompleted mail now db original body appointment).startTime = appointment.startTime
    ∧ (markCompleted mail now db original body appointment).endTime = appointment.endTime
    ∧ (completing original body = true →
        (markCompleted mail now db original body appointment).completedAt = some now)
    ∧ (completing original body = false →
        (markCompleted mail now db original body appointment).completedAt
          = appointment.completedAt) := by
  unfold markCompleted
  cases hc : completing original body <;> simp

/-- A successful `updateAppointment` leaves, under the id, the instance of the
role branch after the completion block. -/
theorem updateAppointment_result (rt : Runtime) (mail : Bool) (now : Int) (db db1 : Db)
    (userId : Nat) (role : Role) (id : Nat) (body : AppointmentBody)
    (h : updateAppointment rt mail now db userId role id body = .ok db1) :
    ∃ original appointment,
      findAppointment db id = some original
      ∧ updateByRole db userId role original body = .ok appointment
      ∧ findAppointment db1 id
          = some (markCompleted mail now db original body appointment) := by
  obtain ⟨original, appointment, horig, happ, hdb⟩ :=
    updateAppointment_ok rt mail now db db1 userId role id body h
  refine ⟨original, appointment, horig, happ, ?_⟩
  rw [hdb]
  apply findAppointment_save db id original _ horig
  rw [(markCompleted_columns mail now db original body appointment).1,
    updateByRole_id db userId role original appointment body happ]
  exact findAppointment_id db id original horig

/-- A successful `requestReschedule` had a date and a time, found the
appointment and saved it with the appended note and the status Rescheduled. -/
theorem requestReschedule_ok (db db1 : Db) (userId id : Nat)
    (requestedDate requestedTime reason : Option String)
    (h : requestReschedule db userId id requestedDate requestedTime reason = .ok db1) :
    ∃ a, findAppointment db id = some a
      ∧ textTruthy requestedDate = true ∧ textTruthy requestedTime = true
      ∧ findAppointment db1 id = some
          { a with
            customerNotes := some
              ((if textTruthy a.customerNotes then a.customerNotes.getD "" else "")
                ++ String.singleton (Char.ofNat 10)
                ++ "[RESCHEDULE REQUEST] Date: " ++ requestedDate.getD ""
                ++ ", Time: " ++ requestedTime.getD ""
                ++ ", Reason: "
                ++ (if textTruthy reason then reason.getD "" else "Not provided"))
            status := .Rescheduled } := by
  unfold requestReschedule at h
  split at h
  · cases h
  · rename_i hreq
    split at h
    · cases h
    · rename_i a ha
      split at h
      · cases h
      · split at h
        · cases h
        · cases h
          have hreq2 : textTruthy requestedDate = true ∧ textTruthy requestedTime = true := by
            simpa using hreq
          refine ⟨a, ha, hreq2.1, hreq2.2, ?_⟩
          exact findAppointment_save db id a _ ha (findAppointment_id db id a ha)

/-- C15: a customer's `updateAppointment` on an existing appointment whose
body has a key outside date, startTime and endTime is rejected with 403, and
the state, with every field of the appointment, stays as it was. -/
theorem updateAppointment_customer_rejected (rt : Runtime) (mail : Bool) (now : Int) (db : Db)
    (userId id : Nat) (body : AppointmentBody) (appointment : Appointment) (customer : Customer)
    (hfind : findAppointment db id = some appointment)
    (hcust : db.customers.find? (fun c => c.userId == userId) = some customer)
    (hkey : ∃ key ∈ body.keys, key ∉ allowedFields) :
    (∃ e, updateAppointment rt mail now db userId .customer id body = .error e
        ∧ e.statusCode = 403)
    ∧ applyLifecycleOp rt id db (.updateAppointment mail now userId .customer body) = db := by
  have hres : ∃ e, updateAppointment rt mail now db userId .customer id body = .error e
      ∧ e.statusCode = 403 := by
    obtain ⟨key, hk1, hk2⟩ := hkey
    simp only [updateAppointment, hfind, updateByRole, hcust]
    by_cases hown : appointment.customerId = customer.id
    · have hlen : (body.keys.filter (fun key => not (allowedFields.contains key))).length > 0 := by
        apply List.length_pos_of_mem (a := key)
        rw [List.mem_filter]
        exact ⟨hk1, by simpa using hk2⟩
      simp only [hown, ne_eq, not_true_eq_false, if_false, hlen, if_true]
      exact ⟨_, rfl, rfl⟩
    · simp only [ne_eq, hown, not_false_eq_true, if_true]
      exact ⟨_, rfl, rfl⟩
  refine ⟨hres, ?_⟩
  obtain ⟨e, he, _⟩ := hres
  simp only [applyLifecycleOp, he]

/-- Witness of C15: the customer of `lifecycleDb` sends a new startTime
together with a status. -/
theorem updateAppointment_customer_rejected_witness :
    (∃ key ∈ ({ startTime := some "12:00", status := some "Completed" } : AppointmentBody).keys,
        key ∉ allowedFields)
    ∧ (∃ e, updateAppointment sampleRuntime true 100 lifecycleDb 5 .customer 1
          { startTime := some "12:00", status := some "Completed" } = .error e
        ∧ e.statusCode = 403)
    ∧ applyLifecycleOp sampleRuntime 1 lifecycleDb
        (.updateAppointment true 100 5 .customer
          { startTime := some "12:00", status := some "Completed" }) = lifecycleDb :=
  ⟨⟨"status", by decide, by decide⟩,
    updateAppointment_customer_rejected sampleRuntime true 100 lifecycleDb 5 1
      { startTime := some "12:00", status := some "Completed" }
      { id := 1, customerId := 1, serviceId := 1, date := "2024-06-10",
        startTime := "10:00", endTime := "11:00" }
      { id := 1, userId := 5 } (by decide) (by decide) ⟨"status", by decide, by decide⟩⟩

/-- C16 (as amended): `completedAt` takes the current time in every
successful `updateAppointment` whose body status is Completed while the
stored status is not Completed; in every other successful `updateAppointment`
it keeps its value unless the body itself supplies `completedAt`; and
`requestReschedule` never changes it. -/
theorem completedAt_written_on_completing (rt : Runtime) (db : Db) (id : Nat) :
    (∀ mail now userId role body db1,
      updateAppointment rt mail now db userId role id body = .ok db1 →
      ∃ original a1, findAppointment db id = some original ∧ findAppointment db1 id = some a1
        ∧ (completing original body = true → a1.completedAt = some now)
        ∧ (completing original body = false → body.completedAt = none →
            a1.completedAt = original.completedAt))
    ∧ (∀ userId requestedDate requestedTime reason db1,
        requestReschedule db userId id requestedDate requestedTime reason = .ok db1 →
        ∃ a a1, findAppointment db id = some a ∧ findAppointment db1 id = some a1
          ∧ a1.completedAt = a.completedAt) := by
  constructor
  · intro mail now userId role body db1 h
    obtain ⟨original, appointment, horig, happ, hres⟩ :=
      updateAppointment_result rt mail now db db1 userId role id body h
    have hm := markCompleted_columns mail now db original body appointment
    refine ⟨original, _, horig, hres, hm.2.2.2.2.2.1, ?_⟩
    intro hc hbody
    rw [hm.2.2.2.2.2.2 hc]
    by_cases hrole : role = .customer
    · subst hrole
      rw [(updateByRole_customer db userId original appointment body happ).1]
    · have hu := appointment_update_columns original appointment body
        (updateByRole_staff db userId role original appointment body hrole happ)
      rw [hu.2.2.2.2.1, hbody]
      rfl
  · intro userId requestedDate requestedTime reason db1 h
    obtain ⟨a, ha, _, _, hres⟩ :=
      requestReschedule_ok db db1 userId id requestedDate requestedTime reason h
    exact ⟨a, _, ha, hres, rfl⟩

/-- Witness of C16: on `lifecycleDb` an admin completes appointment 1 at time
100 and the customer then requests a reschedule; `completedAt` is 100 after
the first request and after both. -/
theorem completedAt_written_on_completing_witness :
    (∃ db1, updateAppointment sampleRuntime true 100 lifecycleDb 9 .admin 1
          { status := some "Completed" } = .ok db1
        ∧ ∃ original a1, findAppointment lifecycleDb 1 = some original
            ∧ findAppointment db1 1 = some a1
            ∧ (completing original { status := some "Completed" } = true →
                a1.completedAt = some 100)
            ∧ (completing original { status := some "Completed" } = false →
                ({ status := some "Completed" } : AppointmentBody).completedAt = none →
                a1.completedAt = original.completedAt))
    ∧ (findAppointment (applyLifecycleOps sampleRuntime 1 lifecycleDb [completeOp 100]) 1).map
          (fun a => a.completedAt) = some (some 100)
    ∧ (findAppointment
          (applyLifecycleOps sampleRuntime 1 lifecycleDb [completeOp 100, rescheduleOp]) 1).map
          (fun a => (a.completedAt, a.status)) = some (some 100, .Rescheduled) :=
  ⟨⟨_, rfl, (completedAt_written_on_completing sampleRuntime lifecycleDb 1).1 true 100 9 .admin
      { status := some "Completed" } _ rfl⟩, by decide, by decide⟩

/-- Counterexample to C16 as stated: appointment 1 is completed at time 100,
the customer requests a reschedule (status Rescheduled), and an admin completes
it again at time 300; `completedAt` was 100 and is rewritten to 300. -/
theorem completedAt_rewritten :
    (findAppointment (applyLifecycleOps sampleRuntime 1 lifecycleDb [completeOp 100]) 1).map
        (fun a => a.completedAt) = some (some 100)
    ∧ (findAppointment
        (applyLifecycleOps sampleRuntime 1 lifecycleDb
          [completeOp 100, rescheduleOp, completeOp 300]) 1).map
        (fun a => a.completedAt) = some (some 300) := by
  decide

/-- C17 (as amended): whatever the stored status is, also Completed or
Cancelled, a successful `updateAppointment` by a customer keeps it, one by an
admin or professional keeps it when the body has no status and otherwise sets
the status the body names, and a successful `requestReschedule` sets it to
Rescheduled. -/
theorem status_after_request (rt : Runtime) (db : Db) (id : Nat) :
    (∀ mail now userId role body db1,
      updateAppointment rt mail now db userId role id body = .ok db1 →
      ∃ original a1, findAppointment db id = some original ∧ findAppointment db1 id = some a1
        ∧ (role = .customer → a1.status = original.status)
        ∧ (body.status = none → a1.status = original.status)
        ∧ (∀ s, body.status = some s → parseStatus s = some a1.status))
    ∧ (∀ userId requestedDate requestedTime reason db1,
        requestReschedule db userId id requestedDate requestedTime reason = .ok db1 →
        ∃ a a1, findAppointment db id = some a ∧ findAppointment db1 id = some a1
          ∧ a1.status = .Rescheduled) := by
  constructor
  · intro mail now userId role body db1 h
    obtain ⟨original, appointment, horig, happ, hres⟩ :=
      updateAppointment_result rt mail now db db1 userId role id body h
    have hm := markCompleted_columns mail now db original body appointment
    refine ⟨original, _, horig, hres, ?_, ?_, ?_⟩
    · intro hrole
      subst hrole
      rw [hm.2.1, (updateByRole_customer db userId original appointment body happ).1]
    · intro hnone
      rw [hm.2.1]
      by_cases hrole : role = .customer
      · subst hrole
        rw [(updateByRole_customer db userId original appointment body happ).1]
      · exact (appointment_update_columns original appointment body
          (updateByRole_staff db userId role original appointment body hrole happ)).2.2.2.2.2.1
          hnone
    · intro s hs
      rw [hm.2.1]
      by_cases hrole : role = .customer
      · subst hrole
        rw [(updateByRole_customer db userId original appointment body happ).2] at hs
        cases hs
      · exact (appointment_update_columns original appointment body
          (updateByRole_staff db userId role original appointment body hrole happ)).2.2.2.2.2.2
          s hs
  · intro userId requestedDate requestedTime reason db1 h
    obtain ⟨a, ha, _, _, hres⟩ :=
      requestReschedule_ok db db1 userId id requestedDate requestedTime reason h
    exact ⟨a, _, ha, hres, rfl⟩

/-- Witness of C17: the customer of `lifecycleDb` moves appointment 1 to
12:00-13:00; the status stays Scheduled. -/
theorem status_after_request_witness :
    ∃ db1, updateAppointment sampleRuntime true 100 lifecycleDb 5 .customer 1
        { startTime := some "12:00", endTime := some "13:00" } = .ok db1
      ∧ (findAppointment db1 1).map (fun a => (a.status, a.startTime, a.endTime))
          = some (.Scheduled, "12:00", "13:00")
      ∧ ∃ original a1, findAppointment lifecycleDb 1 = some original
          ∧ findAppointment db1 1 = some a1
          ∧ (Role.customer = .customer → a1.status = original.status)
          ∧ (({ startTime := some "12:00", endTime := some "13:00" } : AppointmentBody).status
                = none → a1.status = original.status)
          ∧ (∀ s, ({ startTime := some "12:00", endTime := some "13:00" }
                : AppointmentBody).status = some s → parseStatus s = some a1.status) :=
  ⟨_, rfl, by decide,
    (status_after_request sampleRuntime lifecycleDb 1).1 true 100 5 .customer
      { startTime := some "12:00", endTime := some "13:00" } _ rfl⟩

/-- Counterexample to C17 as stated: appointment 1 is Completed and an admin
update with status "Scheduled" makes it Scheduled; it is Cancelled and the
customer's `requestReschedule` makes it Rescheduled. -/
theorem terminal_status_left :
    (findAppointment (applyLifecycleOps sampleRuntime 1 lifecycleDb [completeOp 100]) 1).map
        (fun a => a.status) = some .Completed
    ∧ (findAppointment
        (applyLifecycleOps sampleRuntime 1 lifecycleDb
          [completeOp 100,
           .updateAppointment true 200 9 .admin { status := some "Scheduled" }]) 1).map
        (fun a => a.status) = some .Scheduled
    ∧ (findAppointment
        (applyLifecycleOps sampleRuntime 1 lifecycleDb
          [.updateAppointment true 100 9 .admin { status := some "Cancelled" }]) 1).map
        (fun a => a.status) = some .Cancelled
    ∧ (findAppointment
        (applyLifecycleOps sampleRuntime 1 lifecycleDb
          [.updateAppointment true 100 9 .admin { status := some "Cancelled" },
           rescheduleOp]) 1).map
        (fun a => a.status) = some .Rescheduled := by
  decide

/-- A truthy optional text is a present, non-empty text. -/
theorem textTruthy_some (x : Option String) (h : textTruthy x = true) :
    ∃ s, x = some s ∧ s ≠ "" := by
  cases x with
  | none => cases h
  | some s => exact ⟨s, rfl, by simpa [textTruthy] using h⟩

/-- C20: a successful `requestReschedule` leaves date, startTime and endTime
of the appointment as stored, sets the status to Rescheduled, and makes
customerNotes the previous notes (the empty text when there were none)
followed by a line break and the line "[RESCHEDULE REQUEST] Date: d, Time: t,
Reason: r" with the requested date d, the requested time t and the reason r,
"Not provided" when no reason was given; every other column of the
appointment keeps its value. -/
theorem requestReschedule_effect (db db1 : Db) (userId id : Nat)
    (requestedDate requestedTime reason : Option String)
    (h : requestReschedule db userId id requestedDate requestedTime reason = .ok db1) :
    ∃ a a1 d t, findAppointment db id = some a ∧ findAppointment db1 id = some a1
      ∧ requestedDate = some d ∧ requestedTime = some t
      ∧ a1.date = a.date ∧ a1.startTime = a.startTime ∧ a1.endTime = a.endTime
      ∧ a1.status = .Rescheduled
      ∧ a1.customerNotes = some
          (a.customerNotes.getD "" ++ String.singleton (Char.ofNat 10)
            ++ "[RESCHEDULE REQUEST] Date: " ++ d ++ ", Time: " ++ t ++ ", Reason: "
            ++ (if reason.getD "" = "" then "Not provided" else reason.getD ""))
      ∧ a1 = { a with customerNotes := a1.customerNotes, status := .Rescheduled } := by
  obtain ⟨a, ha, hd, ht, hres⟩ :=
    requestReschedule_ok db db1 userId id requestedDate requestedTime reason h
  obtain ⟨d, hd1, _⟩ := textTruthy_some requestedDate hd
  obtain ⟨t, ht1, _⟩ := textTruthy_some requestedTime ht
  have hprev : (if textTruthy a.customerNotes then a.customerNotes.getD "" else "")
      = a.customerNotes.getD "" := by
    cases hn : a.customerNotes with
    | none => simp [textTruthy]
    | some notes =>
      by_cases hne : notes = "" <;> simp [textTruthy, hne]
  have hreason : (if textTruthy reason then reason.getD "" else "Not provided")
      = (if reason.getD "" = "" then "Not provided" else reason.getD "") := by
    cases hr : reason with
    | none => simp [textTruthy]
    | some r =>
      by_cases hne : r = "" <;> simp [textTruthy, hne]
  rw [hprev, hreason, hd1, ht1] at hres
  exact ⟨a, _, d, t, ha, hres, hd1, ht1, rfl, rfl, rfl, rfl, rfl, rfl⟩

/-- Witness of C20: the customer of `lifecycleDb` asks to move appointment 1
and gives no reason. -/
theorem requestReschedule_effect_witness :
    ∃ db1, requestReschedule lifecycleDb 5 1 (some "2024-06-12") (some "09:00") none = .ok db1
      ∧ (findAppointment db1 1).map
          (fun a => (a.date, a.startTime, a.endTime, a.status, a.customerNotes))
          = some ("2024-06-10", "10:00", "11:00", .Rescheduled,
              some (String.singleton (Char.ofNat 10)
                ++ "[RESCHEDULE REQUEST] Date: 2024-06-12, Time: 09:00, Reason: Not provided"))
      ∧ ∃ a a1 d t, findAppointment lifecycleDb 1 = some a ∧ findAppointment db1 1 = some a1
          ∧ some "2024-06-12" = some d ∧ some "09:00" = some t
          ∧ a1.date = a.date ∧ a1.startTime = a.startTime ∧ a1.endTime = a.endTime
          ∧ a1.status = .Rescheduled
          ∧ a1.customerNotes = some
              (a.customerNotes.getD "" ++ String.singleton (Char.ofNat 10)
                ++ "[RESCHEDULE REQUEST] Date: " ++ d ++ ", Time: " ++ t ++ ", Reason: "
                ++ (if (none : Option String).getD "" = "" then "Not provided"
                    else (none : Option String).getD ""))
          ∧ a1 = { a with customerNotes := a1.customerNotes, status := .Rescheduled } :=
  ⟨_, rfl, by decide,
    requestReschedule_effect lifecycleDb _ 5 1 (some "2024-06-12") (some "09:00") none rfl⟩

/-- C18 (as amended): `createAppointment` accepts every body with a date, a
startTime and an endTime (for a caller with a customer profile, an existing
service, a valid or absent duration and no status) and stores the two times as
supplied; a successful `updateAppointment` leaves the supplied times, or the
previous ones where the body supplies none (for a customer: none or an empty
text). The two times are never compared. -/
theorem times_stored_as_supplied (rt : Runtime) (db : Db) :
    (∀ mail userId body customer service d s e,
      db.customers.find? (fun c => c.userId == userId) = some customer →
      body.serviceId.bind (fun sid => db.services.find? (fun x => x.id == sid)) = some service →
      body.date = some d → body.startTime = some s → body.endTime = some e →
      durationValid body.duration = true → body.status = none →
      ∃ a, createAppointment mail db userId body
            = .ok { db with appointments := db.appointments ++ [a] }
        ∧ a.date = d ∧ a.startTime = s ∧ a.endTime = e)
    ∧ (∀ mail now userId role id body db1,
        updateAppointment rt mail now db userId role id body = .ok db1 →
        ∃ original a1, findAppointment db id = some original ∧ findAppointment db1 id = some a1
          ∧ (role = .customer →
              a1.startTime = (if textTruthy body.startTime then body.startTime.getD ""
                else original.startTime)
              ∧ a1.endTime = (if textTruthy body.endTime then body.endTime.getD ""
                else original.endTime))
          ∧ (role ≠ .customer →
              a1.startTime = body.startTime.getD original.startTime
              ∧ a1.endTime = body.endTime.getD original.endTime)) := by
  constructor
  · intro mail userId body customer service d s e hcust hsvc hd hs he hdur hst
    simp only [createAppointment, hcust, hsvc, hd, hs, he, hdur, hst, Bool.not_true,
      Bool.false_eq_true, if_false]
    exact ⟨_, rfl, rfl, rfl, rfl⟩
  · intro mail now userId role id body db1 h
    obtain ⟨original, appointment, horig, happ, hres⟩ :=
      updateAppointment_result rt mail now db db1 userId role id body h
    have hm := markCompleted_columns mail now db original body appointment
    refine ⟨original, _, horig, hres, ?_, ?_⟩
    · intro hrole
      subst hrole
      rw [hm.2.2.2.1, hm.2.2.2.2.1,
        (updateByRole_customer db userId original appointment body happ).1]
      exact ⟨rfl, rfl⟩
    · intro hrole
      have hu := appointment_update_columns original appointment body
        (updateByRole_staff db userId role original appointment body hrole happ)
      rw [hm.2.2.2.1, hm.2.2.2.2.1]
      exact ⟨hu.2.2.1, hu.2.2.2.1⟩

/-- Witness of C18: the customer of `lifecycleDb` books 14:00-15:00 on
2024-06-11. -/
theorem times_stored_as_supplied_witness :
    ∃ a, createAppointment true lifecycleDb 5
          { serviceId := some 1, date := some "2024-06-11", startTime := some "14:00",
            endTime := some "15:00" }
        = .ok { lifecycleDb with appointments := lifecycleDb.appointments ++ [a] }
      ∧ a.date = "2024-06-11" ∧ a.startTime = "14:00" ∧ a.endTime = "15:00" :=
  (times_stored_as_supplied sampleRuntime lifecycleDb).1 true 5
    { serviceId := some 1, date := some "2024-06-11", startTime := some "14:00",
      endTime := some "15:00" }
    { id := 1, userId := 5 } { id := 1, duration := 60 } "2024-06-11" "14:00" "15:00"
    (by decide) (by decide) rfl rfl rfl (by decide) rfl

/-- Counterexample to C18 as stated: the customer of `lifecycleDb` books an
appointment from 11:00 to 10:00, and moves the start of appointment 1
(10:00-11:00) to 12:00; both requests succeed and the stored startTime is not
earlier than the stored endTime. -/
theorem inverted_times_accepted :
    (∃ db1, createAppointment true lifecycleDb 5
          { serviceId := some 1, date := some "2024-06-11", startTime := some "11:00",
            endTime := some "10:00" } = .ok db1
        ∧ (findAppointment db1 2).map (fun a => (a.startTime, a.endTime, jsLt a.startTime a.endTime))
            = some ("11:00", "10:00", false))
    ∧ (∃ db1, updateAppointment sampleRuntime true 100 lifecycleDb 5 .customer 1
          { startTime := some "12:00" } = .ok db1
        ∧ (findAppointment db1 1).map (fun a => (a.startTime, a.endTime, jsLt a.startTime a.endTime))
            = some ("12:00", "11:00", false)) :=
  ⟨⟨_, rfl, by decide⟩, ⟨_, rfl, by decide⟩⟩

/-! ## Properties of estimate deletion and approval -/

/-- A package insert appends one row for the estimate, with the next id. -/
theorem estimatePackage_create_row (estimateId : Nat) (db db1 : Db) (p : PackageInput) (n : Nat)
    (h : EstimatePackage.create estimateId db p = .ok (db1, n)) :
    n = nextId (db.estimatePackages.map (fun r => r.id))
    ∧ db1.estimateLineItems = db.estimateLineItems
    ∧ ∃ row : EstimatePackage,
        db1.estimatePackages = db.estimatePackages ++ [row]
        ∧ row.id = n ∧ row.estimateId = estimateId
        ∧ PackageMatches { p with lineItems := none } (row, []) := by
  unfold EstimatePackage.create at h
  split at h
  · cases h
  · split at h
    · cases h
    · split at h
      · cases h
      · cases h
        exact ⟨rfl, rfl, _, rfl, rfl, rfl, rfl, rfl, rfl, rfl, rfl, rfl, rfl, rfl,
          List.Forall₂.nil⟩

/-- A group of line-item inserts keeps the package table. -/
theorem promiseAll_lineItems_packages (n : Nat) (items : List LineItemInput) (db : Db) :
    (promiseAll (EstimateLineItem.create n) db items).1.estimatePackages
      = db.estimatePackages := by
  unfold promiseAll
  exact promiseAll_frame (EstimateLineItem.create n)
    (fun d => d.estimatePackages = db.estimatePackages)
    (fun d x d1 hd hP => (estimateLineItem_create_frame n d d1 x hd).2.2.trans hP)
    items db none rfl

/-- The package loop keeps every package row that was stored, whether it ends
with an error or not. -/
theorem createPackages_keeps (estimateId : Nat) (ps : List PackageInput) (db : Db) :
    ∀ p ∈ db.estimatePackages, p ∈ (createPackages estimateId db ps).1.estimatePackages := by
  induction ps generalizing db with
  | nil => intro p hp; exact hp
  | cons x xs ih =>
    intro p hp
    unfold createPackages
    cases hx : EstimatePackage.create estimateId db x with
    | error e => exact hp
    | ok r =>
      obtain ⟨db1, n⟩ := r
      obtain ⟨_, _, row, hrow, _⟩ := estimatePackage_create_row estimateId db db1 x n hx
      have hp1 : p ∈ db1.estimatePackages := by
        rw [hrow]; exact List.mem_append_left _ hp
      simp only
      cases hli : x.lineItems with
      | none => exact ih db1 p hp1
      | some l =>
        cases l with
        | nil => exact ih db1 p hp1
        | cons li lis =>
          simp only
          have hp2 : p ∈ (promiseAll (EstimateLineItem.create n) db1
              (li :: lis)).1.estimatePackages := by
            rw [promiseAll_lineItems_packages]; exact hp1
          split
          · exact hp2
          · exact ih _ p hp2

/-- The state `createEstimate` reaches, with or without an error: every
stored package row is kept, and every estimate row is an old one or has no
approved package. -/
theorem createEstimate_reached (clock : Clock) (db : Db) (userId : Nat) (body : EstimateBody) :
    (∀ p ∈ db.estimatePackages,
      p ∈ (createEstimate clock db userId body).1.estimatePackages)
    ∧ (∀ e ∈ (createEstimate clock db userId body).1.estimates,
        e ∈ db.estimates ∨ e.approvedPackage = .null) := by
  unfold createEstimate
  split
  · exact ⟨fun p hp => hp, fun e he => Or.inl he⟩
  · rename_i customer _
    simp only
    split
    · exact ⟨fun p hp => hp, fun e he => Or.inl he⟩
    · rename_i dbE estimate hcreate
      have hE : dbE.estimatePackages = db.estimatePackages
          ∧ ∀ e ∈ dbE.estimates, e ∈ db.estimates ∨ e.approvedPackage = .null := by
        unfold Estimate.create at hcreate
        simp only at hcreate
        split at hcreate
        · cases hcreate
        · cases hcreate
          refine ⟨rfl, ?_⟩
          intro e he
          rcases List.mem_append.1 he with he | he
          · exact Or.inl he
          · right
            rw [List.mem_singleton] at he
            rw [he]
      have hS : ∀ args : List (ServiceIdArg × JsVal),
          (promiseAll (EstimateService.create estimate.id) dbE args).1.estimatePackages
              = db.estimatePackages
          ∧ ∀ e ∈ (promiseAll (EstimateService.create estimate.id) dbE args).1.estimates,
              e ∈ db.estimates ∨ e.approvedPackage = .null := by
        intro args
        unfold promiseAll
        exact promiseAll_frame (EstimateService.create estimate.id)
          (fun d => d.estimatePackages = db.estimatePackages
            ∧ ∀ e ∈ d.estimates, e ∈ db.estimates ∨ e.approvedPackage = .null)
          (fun d x d1 hd hP => by
            have hf := estimateService_create_frame estimate.id d d1 x hd
            exact ⟨hf.2.1.trans hP.1, fun e he => hP.2 e (hf.1 ▸ he)⟩)
          args dbE none hE
      have key : ∀ dbS : Db,
          (dbS.estimatePackages = db.estimatePackages
            ∧ ∀ e ∈ dbS.estimates, e ∈ db.estimates ∨ e.approvedPackage = .null) →
          ∀ ps : List PackageInput,
            (∀ p ∈ db.estimatePackages,
              p ∈ (createPackages estimate.id dbS ps).1.estimatePackages)
            ∧ ∀ e ∈ (createPackages estimate.id dbS ps).1.estimates,
                e ∈ db.estimates ∨ e.approvedPackage = .null := by
        intro dbS hdbS ps
        refine ⟨fun p hp => createPackages_keeps estimate.id ps dbS p (hdbS.1 ▸ hp), ?_⟩
        intro e he
        rw [(createPackages_frame estimate.id ps dbS).1] at he
        exact hdbS.2 e he
      have base : ∀ dbS : Db,
          (dbS.estimatePackages = db.estimatePackages
            ∧ ∀ e ∈ dbS.estimates, e ∈ db.estimates ∨ e.approvedPackage = .null) →
          (∀ p ∈ db.estimatePackages, p ∈ dbS.estimatePackages)
            ∧ ∀ e ∈ dbS.estimates, e ∈ db.estimates ∨ e.approvedPackage = .null :=
        fun dbS hdbS => ⟨fun p hp => hdbS.1 ▸ hp, hdbS.2⟩
      have hAfter : ∀ dbS : Db,
          (dbS.estimatePackages = db.estimatePackages
            ∧ ∀ e ∈ dbS.estimates, e ∈ db.estimates ∨ e.approvedPackage = .null) →
          (∀ p ∈ db.estimatePackages,
            p ∈ (match body.packages with
              | some (p :: ps) => createPackages estimate.id dbS (p :: ps)
              | _ => (dbS, none)).1.estimatePackages)
          ∧ ∀ e ∈ (match body.packages with
              | some (p :: ps) => createPackages estimate.id dbS (p :: ps)
              | _ => (dbS, none)).1.estimates,
              e ∈ db.estimates ∨ e.approvedPackage = .null := by
        intro dbS hdbS
        split
        · exact key dbS hdbS _
        · exact base dbS hdbS
      split
      · rename_i e he
        split at he
        · exact base _ (hS _)
        · exact base _ hE
      · rename_i hnone
        have hS2 : (match body.services with
            | some (i :: is) =>
              promiseAll (EstimateService.create estimate.id) dbE
                ((i :: is).map (fun (serviceItem : ServiceItem) =>
                  (serviceItem.service.asCreateArg, serviceItem.quantity.or (.num 1))))
            | _ => (dbE, none)).1.estimatePackages = db.estimatePackages
            ∧ ∀ e ∈ (match body.services with
                | some (i :: is) =>
                  promiseAll (EstimateService.create estimate.id) dbE
                    ((i :: is).map (fun (serviceItem : ServiceItem) =>
                      (serviceItem.service.asCreateArg, serviceItem.quantity.or (.num 1))))
                | _ => (dbE, none)).1.estimates,
                e ∈ db.estimates ∨ e.approvedPackage = .null := by
          split
          · exact hS _
          · exact hE
        split
        · exact hAfter _ hS2
        · exact hAfter _ hS2

/-- As the module stands, `deleteEstimate` never succeeds: `sequelize` is
unbound where the transaction is opened. -/
theorem deleteEstimate_fails (db : Db) (role : Role) (id : Nat) :
    ∃ e, deleteEstimate estimateModule db role id = .error e := by
  unfold deleteEstimate
  split
  · exact ⟨_, rfl⟩
  · split
    · exact ⟨_, rfl⟩
    · exact ⟨_, rfl⟩

/-- C12, the code at the failing input: an admin deletes estimate 1 of
`packagesDb`, which has two packages, three line items, a service row and a
photo; the request is answered 500 before any row is destroyed, so the
estimate and all its rows stay. -/
theorem deleteEstimate_deletes_nothing :
    deleteEstimate estimateModule packagesDb .admin 1
        = .error { message := "sequelize is not defined", statusCode := 500 }
      ∧ (packagesDb.estimates.map (fun e => e.id)) = [1, 2]
      ∧ ((packagesDb.estimatePackages.filter (fun p => p.estimateId == 1)).map
          (fun p => p.id)) = [1, 2]
      ∧ ((packagesDb.estimateLineItems.filter
            (fun li => li.estimatePackageId == 1 || li.estimatePackageId == 2)).map
          (fun li => li.id)) = [1, 2, 3]
      ∧ (∀ db role id db1, deleteEstimate estimateModule db role id ≠ .ok db1) := by
  refine ⟨rfl, by decide, by decide, by decide, ?_⟩
  intro db role id db1 h
  obtain ⟨e, he⟩ := deleteEstimate_fails db role id
  rw [he] at h
  cases h

/-- C13 (as amended): for an estimate owned by the calling customer and a
packageName that is not the name of one of its packages, `approveEstimate`
fails with 404 when the packageName is truthy and with 400 when it is absent
or empty, and the state, with status and approvedPackage of the estimate,
stays as it was. -/
theorem approveEstimate_unknown_package (scope : EstimateModule) (db : Db) (userId id : Nat)
    (packageName : JsVal) (estimate : Estimate) (customer : Customer)
    (hfind : db.estimates.find? (fun e => e.id == id) = some estimate)
    (hcust : db.customers.find? (fun c => c.userId == userId) = some customer)
    (hown : estimate.customerId = customer.id)
    (hnot : ∀ p ∈ db.estimatePackages, p.estimateId = id → p.name ≠ packageName) :
    (packageName.truthy = true →
      ∃ e, approveEstimate db userId id packageName = (db, .error e) ∧ e.statusCode = 404)
    ∧ (packageName.truthy = false →
      ∃ e, approveEstimate db userId id packageName = (db, .error e) ∧ e.statusCode = 400)
    ∧ applyEstimateOp scope db (.approveEstimate userId id packageName) = db := by
  have hid : estimate.id = id := by
    have := List.find?_some hfind
    simpa using this
  have hex : (db.estimatePackages.filter (fun p => p.estimateId == estimate.id)).any
      (fun pkg => pkg.name == packageName) = false := by
    rw [List.any_eq_false]
    intro p hp
    rw [List.mem_filter] at hp
    have := hnot p hp.1 (by simpa [hid] using hp.2)
    simpa using this
  have h404 : packageName.truthy = true →
      ∃ e, approveEstimate db userId id packageName = (db, .error e) ∧ e.statusCode = 404 := by
    intro ht
    simp only [approveEstimate, ht, Bool.not_true, Bool.false_eq_true, if_false, hfind, hcust,
      hown, ne_eq, not_true_eq_false, hex, Bool.not_false, if_true]
    exact ⟨_, rfl, rfl⟩
  have h400 : packageName.truthy = false →
      ∃ e, approveEstimate db userId id packageName = (db, .error e) ∧ e.statusCode = 400 := by
    intro ht
    simp only [approveEstimate, ht, Bool.not_false, if_true]
    exact ⟨_, rfl, rfl⟩
  refine ⟨h404, h400, ?_⟩
  cases ht : packageName.truthy with
  | true =>
    obtain ⟨e, he, _⟩ := h404 ht
    simp only [applyEstimateOp, he]
  | false =>
    obtain ⟨e, he, _⟩ := h400 ht
    simp only [applyEstimateOp, he]

/-- Witness of C13: the owner of estimate 1 of `packagesDb` (packages Basic
and Standard) asks for "Premium". -/
theorem approveEstimate_unknown_package_witness :
    (∀ p ∈ packagesDb.estimatePackages, p.estimateId = 1 → p.name ≠ .str "Premium")
    ∧ (JsVal.truthy (.str "Premium") = true →
        ∃ e, approveEstimate packagesDb 5 1 (.str "Premium") = (packagesDb, .error e)
          ∧ e.statusCode = 404)
    ∧ (JsVal.truthy (.str "Premium") = false →
        ∃ e, approveEstimate packagesDb 5 1 (.str "Premium") = (packagesDb, .error e)
          ∧ e.statusCode = 400)
    ∧ applyEstimateOp estimateModule packagesDb (.approveEstimate 5 1 (.str "Premium"))
        = packagesDb :=
  ⟨by decide,
    approveEstimate_unknown_package estimateModule packagesDb 5 1 (.str "Premium")
      { id := 1, customerId := 1, status := .str "Sent", estimateNumber := "EST-202406-0001",
        createdById := 9 }
      { id := 1, userId := 5 } (by decide) (by decide) rfl (by decide)⟩

/-- Counterexample to C13 as stated: the owner of estimate 1 sends an empty
packageName, which is not the name of a package of the estimate; the request
fails with 400, not with 404. -/
theorem approveEstimate_empty_name :
    (∀ p ∈ packagesDb.estimatePackages, p.estimateId = 1 → p.name ≠ .str "")
    ∧ approveEstimate packagesDb 5 1 (.str "")
        = (packagesDb,
           .error { message := "Please provide the package name to approve",
                    statusCode := 400 }) :=
  ⟨by decide, rfl⟩

/-- The state `approveEstimate` reaches, whether it answers an error or not,
keeps the approved packages valid: the name it writes was found among the
packages of the estimate. -/
theorem approveEstimate_valid (db : Db) (userId id : Nat) (packageName : JsVal)
    (hv : ApprovedPackageValid db) :
    ApprovedPackageValid (approveEstimate db userId id packageName).1 := by
  unfold approveEstimate
  split
  · exact hv
  · split
    · exact hv
    · rename_i estimate hfind
      split
      · exact hv
      · split
        · exact hv
        · simp only
          split
          · exact hv
          · rename_i hex
            have hstate : ApprovedPackageValid
                { db with
                  estimates := db.estimates.map
                    (fun e =>
                      if e.id == estimate.id then
                        { e with status := .str "Approved", approvedPackage := packageName }
                      else e) } := by
              intro e he
              simp only [List.mem_map] at he
              obtain ⟨e0, he0, heq⟩ := he
              by_cases hid : (e0.id == estimate.id) = true
              · simp only [hid, if_true] at heq
                right
                have hex2 : (db.estimatePackages.filter
                    (fun p => p.estimateId == estimate.id)).any
                    (fun pkg => pkg.name == packageName) = true := by
                  cases hany : (db.estimatePackages.filter
                    (fun p => p.estimateId == estimate.id)).any
                    (fun pkg => pkg.name == packageName) with
                  | true => rfl
                  | false => rw [hany] at hex; exact absurd rfl hex
                rw [List.any_eq_true] at hex2
                obtain ⟨p, hp, hname⟩ := hex2
                rw [List.mem_filter] at hp
                refine ⟨p, hp.1, ?_, ?_⟩
                · rw [← heq]
                  have h1 : p.estimateId = estimate.id := by simpa using hp.2
                  have h2 : e0.id = estimate.id := by simpa using hid
                  simp only [h1, h2]
                · rw [← heq]
                  simpa using hname
              · simp only [hid, if_false] at heq
                subst heq
                exact hv e0 he0
            split
            · exact hstate
            · exact hstate

/-- C14: starting from a state in which every approvedPackage is unset or
names a package row of its estimate, every sequence of `createEstimate`,
`updateEstimate` and `approveEstimate` requests leads to such a state:
`createEstimate` stores no approvedPackage and keeps the package rows,
`approveEstimate` writes a name it has found among the packages, and
`updateEstimate` writes nothing. -/
theorem approvedPackage_valid_applyOps (scope : EstimateModule) (ops : List EstimateOp)
    (db : Db) (hv : ApprovedPackageValid db) :
    ApprovedPackageValid (applyEstimateOps scope db ops) := by
  induction ops generalizing db with
  | nil => exact hv
  | cons op ops ih =>
    simp only [applyEstimateOps, List.foldl_cons]
    apply ih
    cases op with
    | createEstimate clock userId body =>
      simp only [applyEstimateOp]
      have hr := createEstimate_reached clock db userId body
      intro e he
      rcases hr.2 e he with hold | hnull
      · rcases hv e hold with h1 | ⟨p, hp, h2⟩
        · exact Or.inl h1
        · exact Or.inr ⟨p, hr.1 p hp, h2⟩
      · exact Or.inl hnull
    | updateEstimate role id body =>
      simp only [applyEstimateOp, afterUpdate, updateEstimate_fails]
      exact hv
    | approveEstimate userId id packageName =>
      simp only [applyEstimateOp]
      exact approveEstimate_valid db userId id packageName hv

/-- Witness of C14: on `packagesDb` the owner approves "Basic" for estimate 1,
an admin sends an update with approvedPackage "Premium", and an admin creates
another estimate; estimate 1 then has the approved package "Basic", one of its
packages. -/
theorem approvedPackage_valid_applyOps_witness :
    ApprovedPackageValid packagesDb
    ∧ ApprovedPackageValid (applyEstimateOps estimateModule packagesDb
        [.approveEstimate 5 1 (.str "Basic"),
         .updateEstimate .admin 1 { approvedPackage := .str "Premium" },
         .createEstimate juneClock 9 halfValidBody])
    ∧ ((applyEstimateOps estimateModule packagesDb
        [.approveEstimate 5 1 (.str "Basic"),
         .updateEstimate .admin 1 { approvedPackage := .str "Premium" },
         .createEstimate juneClock 9 halfValidBody]).estimates.map
          (fun e => (e.id, e.approvedPackage)))
        = [(1, .str "Basic"), (2, .null), (3, .null)] := by
  have hv : ApprovedPackageValid packagesDb := by
    intro e he
    simp only [packagesDb, List.mem_cons, List.mem_singleton, List.not_mem_nil, or_false] at he
    rcases he with rfl | rfl <;> exact Or.inl rfl
  exact ⟨hv,
    approvedPackage_valid_applyOps estimateModule
      [.approveEstimate 5 1 (.str "Basic"),
       .updateEstimate .admin 1 { approvedPackage := .str "Premium" },
       .createEstimate juneClock 9 halfValidBody]
      packagesDb hv,
    by decide⟩

/-! ## The packages of a new estimate -/

/-- Every key present is below the next AUTO_INCREMENT value. -/
theorem lt_nextId (l : List Nat) : ∀ x ∈ l, x < nextId l := by
  induction l with
  | nil => intro x hx; cases hx
  | cons y ys ih =>
    intro x hx
    simp only [nextId, List.foldr_cons] at ih ⊢
    rcases List.mem_cons.1 hx with rfl | hx
    · omega
    · have := ih x hx
      omega

/-- The next value after the next value was used. -/
theorem nextId_append (l : List Nat) : nextId (l ++ [nextId l]) = nextId l + 1 := by
  have hfold : ∀ (l : List Nat) (m : Nat), (l ++ [m]).foldr max 0 = max (l.foldr max 0) m := by
    intro l m
    induction l with
    | nil => simp
    | cons y ys ih =>
      simp only [List.cons_append, List.foldr_cons, ih]
      omega
  simp only [nextId, hfold]
  omega

/-- A group of line-item inserts that reports no error has appended one row
per supplied line item, in order, each attached to the given package. -/
theorem promiseAll_lineItems (n : Nat) (items : List LineItemInput) (db db2 : Db)
    (h : promiseAll (EstimateLineItem.create n) db items = (db2, none)) :
    ∃ rows : List EstimateLineItem,
      db2.estimateLineItems = db.estimateLineItems ++ rows
      ∧ (∀ r ∈ rows, r.estimatePackageId = n)
      ∧ List.Forall₂ LineItemMatches items rows := by
  unfold promiseAll at h
  induction items generalizing db with
  | nil =>
    simp only [List.foldl_nil, Prod.mk.injEq] at h
    exact ⟨[], by simp [h.1], by simp, List.Forall₂.nil⟩
  | cons x xs ih =>
    simp only [List.foldl_cons] at h
    cases hx : EstimateLineItem.create n db x with
    | error err =>
      simp only [hx] at h
      exact absurd (congrArg Prod.snd h)
        (promiseAll_error_sticks (EstimateLineItem.create n) xs db err)
    | ok db1 =>
      simp only [hx] at h
      obtain ⟨rows, h1, h2, h3⟩ := ih db1 h
      unfold EstimateLineItem.create at hx
      split at hx
      · cases hx
      · cases hx
        refine ⟨{ id := nextId (db.estimateLineItems.map (fun r => r.id))
                  estimatePackageId := n
                  service := x.service
                  description := x.description.toColumn
                  unitPrice := x.unitPrice.toColumn
                  quantity := x.quantity.toColumnOr (.num 1)
                  totalPrice := x.totalPrice.toColumn } :: rows, ?_, ?_,
          List.Forall₂.cons ⟨rfl, rfl, rfl, rfl, rfl⟩ h3⟩
        · rw [h1]; simp
        · intro r hr
          rcases List.mem_cons.1 hr with rfl | hr
          · rfl
          · exact h2 r hr

/-- The line-item step of the package loop is the group of inserts for the
supplied line items, none when the key is absent. -/
theorem lineItems_step (n : Nat) (db1 : Db) (lineItems : Option (List LineItemInput)) :
    (match lineItems with
      | some (l :: ls) => promiseAll (EstimateLineItem.create n) db1 (l :: ls)
      | _ => (db1, none))
      = promiseAll (EstimateLineItem.create n) db1 (lineItems.getD []) := by
  cases lineItems with
  | none => rfl
  | some l =>
    cases l with
    | nil => rfl
    | cons a as => rfl

/-- A package loop that ends without an error has appended one package row
per supplied package, in order, and after each its line items; the new rows
carry keys from the next AUTO_INCREMENT value on, and each new package, read
with the new line items attached to it, is the supplied one. -/
theorem createPackages_created (estimateId : Nat) (ps : List PackageInput) (db db1 : Db)
    (h : createPackages estimateId db ps = (db1, none)) :
    ∃ (newPkgs : List EstimatePackage) (newItems : List EstimateLineItem),
      db1.estimatePackages = db.estimatePackages ++ newPkgs
      ∧ db1.estimateLineItems = db.estimateLineItems ++ newItems
      ∧ (∀ p ∈ newPkgs, p.estimateId = estimateId
          ∧ nextId (db.estimatePackages.map (fun r => r.id)) ≤ p.id)
      ∧ (∀ li ∈ newItems,
          nextId (db.estimatePackages.map (fun r => r.id)) ≤ li.estimatePackageId)
      ∧ List.Forall₂ PackageMatches ps
          (newPkgs.map (fun p =>
            (p, newItems.filter (fun li => li.estimatePackageId == p.id)))) := by
  induction ps generalizing db with
  | nil =>
    simp only [createPackages, Prod.mk.injEq] at h
    exact ⟨[], [], by simp [h.1], by simp [h.1], by simp, by simp, List.Forall₂.nil⟩
  | cons x xs ih =>
    unfold createPackages at h
    cases hx : EstimatePackage.create estimateId db x with
    | error e => simp only [hx] at h; cases h
    | ok r =>
      obtain ⟨dbP, n⟩ := r
      simp only [hx, lineItems_step] at h
      obtain ⟨hn, hitems, row, hrow, hrid, hreid, hrm⟩ :=
        estimatePackage_create_row estimateId db dbP x n hx
      cases hstep : promiseAll (EstimateLineItem.create n) dbP (x.lineItems.getD []) with
      | mk dbL err =>
        rw [hstep] at h
        cases err with
        | some e => simp only at h; cases h
        | none =>
          simp only at h
          obtain ⟨rows, hrows, hrowsn, hrowsm⟩ :=
            promiseAll_lineItems n (x.lineItems.getD []) dbP dbL hstep
          have hLp : dbL.estimatePackages = db.estimatePackages ++ [row] := by
            have := promiseAll_lineItems_packages n (x.lineItems.getD []) dbP
            rw [hstep] at this
            rw [this, hrow]
          obtain ⟨newPkgs, newItems, h1, h2, h3, h4, h5⟩ := ih dbL h
          have hM : nextId (dbL.estimatePackages.map (fun r => r.id)) = n + 1 := by
            rw [hLp, List.map_append, List.map_cons, List.map_nil, hrid, hn]
            exact nextId_append _
          rw [hM] at h3 h4
          refine ⟨row :: newPkgs, rows ++ newItems, ?_, ?_, ?_, ?_, ?_⟩
          · rw [h1, hLp]; simp
          · rw [h2, hrows, hitems]; simp
          · intro p hp
            rcases List.mem_cons.1 hp with rfl | hp
            · exact ⟨hreid, by omega⟩
            · exact ⟨(h3 p hp).1, by have := (h3 p hp).2; omega⟩
          · intro li hli
            rcases List.mem_append.1 hli with hli | hli
            · rw [hrowsn li hli]; omega
            · have := h4 li hli; omega
          · have hhead : (rows ++ newItems).filter (fun li => li.estimatePackageId == row.id)
                = rows := by
              rw [List.filter_append]
              have e1 : rows.filter (fun li => li.estimatePackageId == row.id) = rows := by
                rw [List.filter_eq_self]
                intro li hli
                simp [hrowsn li hli, hrid]
              have e2 : newItems.filter (fun li => li.estimatePackageId == row.id) = [] := by
                rw [List.filter_eq_nil_iff]
                intro li hli
                have := h4 li hli
                simp only [beq_iff_eq]
                omega
              rw [e1, e2, List.append_nil]
            have htail : newPkgs.map (fun p =>
                  (p, (rows ++ newItems).filter (fun li => li.estimatePackageId == p.id)))
                = newPkgs.map (fun p =>
                  (p, newItems.filter (fun li => li.estimatePackageId == p.id))) := by
              apply List.map_congr_left
              intro p hp
              have hpid := (h3 p hp).2
              have e1 : rows.filter (fun li => li.estimatePackageId == p.id) = [] := by
                rw [List.filter_eq_nil_iff]
                intro li hli
                simp only [beq_iff_eq, hrowsn li hli]
                omega
              rw [List.filter_append, e1, List.nil_append]
            rw [List.map_cons, hhead, htail]
            refine List.Forall₂.cons ?_ h5
            obtain ⟨m1, m2, m3, m4, m5, m6, m7, m8, _⟩ := hrm
            exact ⟨m1, m2, m3, m4, m5, m6, m7, m8, hrowsm⟩

/-- C11, the code at the failing input: on `packagesDb` an estimate is created
with the packages "Basic" (line items Mowing and Edging) and "Premium" (no line
item). The rows are inserted under the new estimate 3, but the query that
reads the estimate back with its packages and their line items throws, so the
request is answered 500 and returns no package; the same query, sent again for
estimate 3 as `getEstimate` sends it, throws again. -/
theorem createEstimate_read_back_fails :
    (createEstimate juneClock packagesDb 9 twoPackagesBody).2
        = .error { message := "Service is not associated to EstimateService!",
                   statusCode := 500 }
      ∧ (createEstimate juneClock packagesDb 9 twoPackagesBody).1.estimates.map
          (fun e => e.id) = [1, 2, 3]
      ∧ ((createEstimate juneClock packagesDb 9 twoPackagesBody).1.estimatePackages.filter
            (fun p => p.estimateId == 3)).map (fun p => (p.id, p.name))
          = [(4, .str "Basic"), (5, .str "Premium")]
      ∧ ((createEstimate juneClock packagesDb 9 twoPackagesBody).1.estimateLineItems.filter
            (fun li => li.estimatePackageId == 4)).map (fun li => (li.service, li.quantity))
          = [(.str "Mowing", .num 2), (.str "Edging", .num 1)]
      ∧ findCompleteEstimate (createEstimate juneClock packagesDb 9 twoPackagesBody).1 3
          = .error { message := "Service is not associated to EstimateService!",
                     statusCode := 500 }
      ∧ (∀ clock db userId body id,
          (createEstimate clock db userId body).2 ≠ .ok id) := by
  refine ⟨rfl, by decide, by decide, by decide, rfl, ?_⟩
  intro clock db userId body id h
  unfold createEstimate at h
  split at h
  · cases h
  · simp only at h
    split at h
    · cases h
    · split at h
      · cases h
      · split at h
        · cases h
        · simp only [findCompleteEstimate] at h
          cases h

/-! ## Failure cases of the availability query -/

/-- C24: `getAvailableTimeSlots` answers 400 when the date or the service id
is missing, 400 when the date text gives an Invalid Date, 404 when no Service
has the id, and succeeds with a list of slots in every other case; the four
cases are exhaustive, so the call fails exactly in the first three. -/
theorem getAvailableTimeSlots_fails_iff (rt : Runtime) (db : Db) (date : Option String)
    (serviceId : Option Nat) :
    (date = none ∨ date = some "" ∨ serviceId = none →
        getAvailableTimeSlots rt db date serviceId
          = .error { message := "Please provide date and service ID", statusCode := 400 })
      ∧ (∀ d sid, date = some d → d ≠ "" → serviceId = some sid → rt.isoDate d = none →
          getAvailableTimeSlots rt db date serviceId
            = .error { message := "Invalid date format", statusCode := 400 })
      ∧ (∀ d sid formattedDate, date = some d → d ≠ "" → serviceId = some sid →
          rt.isoDate d = some formattedDate →
          db.services.find? (fun s => s.id == sid) = none →
          getAvailableTimeSlots rt db date serviceId
            = .error { message := "Service not found", statusCode := 404 })
      ∧ (∀ d sid formattedDate service, date = some d → d ≠ "" → serviceId = some sid →
          rt.isoDate d = some formattedDate →
          db.services.find? (fun s => s.id == sid) = some service →
          ∃ slots, getAvailableTimeSlots rt db date serviceId = .ok slots)
      ∧ ((∃ e, getAvailableTimeSlots rt db date serviceId = .error e) ↔
          (date = none ∨ date = some "" ∨ serviceId = none)
            ∨ (∃ d, date = some d ∧ rt.isoDate d = none)
            ∨ (∃ sid, serviceId = some sid
                ∧ db.services.find? (fun s => s.id == sid) = none)) := by
  refine ⟨?_, ?_, ?_, ?_, ?_⟩
  · rintro (h | h | h)
    · subst h; cases serviceId <;> rfl
    · subst h; cases serviceId <;> simp [getAvailableTimeSlots]
    · subst h; cases date <;> rfl
  · intro d sid hd hne hs hiso
    subst hd; subst hs
    simp [getAvailableTimeSlots, hne, hiso]
  · intro d sid formattedDate hd hne hs hiso hfind
    subst hd; subst hs
    simp [getAvailableTimeSlots, hne, hiso, hfind]
  · intro d sid formattedDate service hd hne hs hiso hfind
    subst hd; subst hs
    exact ⟨_, getAvailableTimeSlots_ok rt db d formattedDate sid service hne hiso hfind⟩
  · cases date with
    | none =>
      constructor
      · intro _; exact Or.inl (Or.inl rfl)
      · intro _; cases serviceId <;> exact ⟨_, rfl⟩
    | some d =>
      cases serviceId with
      | none =>
        constructor
        · intro _; exact Or.inl (Or.inr (Or.inr rfl))
        · intro _; exact ⟨_, rfl⟩
      | some sid =>
        by_cases hne : d = ""
        · subst hne
          constructor
          · intro _; exact Or.inl (Or.inr (Or.inl rfl))
          · intro _
            exact ⟨{ message := "Please provide date and service ID", statusCode := 400 },
              by simp [getAvailableTimeSlots]⟩
        · cases hiso : rt.isoDate d with
          | none =>
            constructor
            · intro _; exact Or.inr (Or.inl ⟨d, rfl, hiso⟩)
            · intro _
              exact ⟨{ message := "Invalid date format", statusCode := 400 },
                by simp [getAvailableTimeSlots, hne, hiso]⟩
          | some formattedDate =>
            cases hfind : db.services.find? (fun s => s.id == sid) with
            | none =>
              constructor
              · intro _; exact Or.inr (Or.inr ⟨sid, rfl, hfind⟩)
              · intro _
                exact ⟨{ message := "Service not found", statusCode := 404 },
                  by simp [getAvailableTimeSlots, hne, hiso, hfind]⟩
            | some service =>
              have hok := getAvailableTimeSlots_ok rt db d formattedDate sid service hne hiso hfind
              constructor
              · rintro ⟨e, he⟩
                rw [hok] at he
                cases he
              · rintro ((h | h | h) | ⟨d1, h1, h2⟩ | ⟨sid1, h1, h2⟩)
                · cases h
                · cases h; exact absurd rfl hne
                · cases h
                · cases h1; rw [hiso] at h2; cases h2
                · cases h1; rw [hfind] at h2; cases h2

/-- Witness of C24 in `bookedDb`: a request for an existing service on a valid
date succeeds, and the same state answers 404 for the service id 2. -/
theorem getAvailableTimeSlots_fails_iff_witness :
    (∃ slots, getAvailableTimeSlots sampleRuntime bookedDb (some "2024-06-10") (some 1)
        = .ok slots)
      ∧ getAvailableTimeSlots sampleRuntime bookedDb (some "2024-06-10") (some 2)
          = .error { message := "Service not found", statusCode := 404 }
      ∧ getAvailableTimeSlots sampleRuntime bookedDb (some "someday") (some 1)
          = .error { message := "Invalid date format", statusCode := 400 }
      ∧ getAvailableTimeSlots sampleRuntime bookedDb none (some 1)
          = .error { message := "Please provide date and service ID", statusCode := 400 } :=
  ⟨(getAvailableTimeSlots_fails_iff sampleRuntime bookedDb (some "2024-06-10") (some 1)).2.2.2.1
      "2024-06-10" 1 "2024-06-10" { id := 1, duration := 60 } rfl (by decide) rfl (by decide)
      (by rfl),
    (getAvailableTimeSlots_fails_iff sampleRuntime bookedDb (some "2024-06-10") (some 2)).2.2.1
      "2024-06-10" 2 "2024-06-10" rfl (by decide) rfl (by decide) (by rfl),
    (getAvailableTimeSlots_fails_iff sampleRuntime bookedDb (some "someday") (some 1)).2.1
      "someday" 1 rfl (by decide) rfl (by decide),
    (getAvailableTimeSlots_fails_iff sampleRuntime bookedDb none (some 1)).1 (Or.inl rfl)⟩

/-! ## The assignment of a professional -/

/-- No text is below itself in the order of the time strings. -/
theorem jsLt_irrefl (s : String) : jsLt s s = false := by
  cases h : jsLt s s with
  | false => rfl
  | true =>
    have h2 := codeUnitsLt_asymm _ _ h
    unfold jsLt at h
    rw [h] at h2
    cases h2

/-- The overlap test of a window against itself holds by its third disjunct. -/
theorem timeConflict_self (s e : String) : timeConflict s e s e = true := by
  simp [timeConflict, jsLe, jsGe, jsLt_irrefl]

/-- C23, the code at the failing input: in `assignedDb` user 7 is in the crew
of appointment 1 (10:00-11:00), which overlaps appointment 2 (10:30-11:30) of
the same date. The request to assign professional 1 (user 7) to appointment 2
is answered 500 with the message of the ReferenceError, for isLead true and
false, where the claim has the 400 that names the date; nothing is
assigned. -/
theorem assignToAppointment_overlap_answers_500 :
    findCrew assignedDb 1 7 = some { id := 1, appointmentId := 1, userId := 7 }
      ∧ (findAppointment assignedDb 1).map (fun a => (a.date, a.startTime, a.endTime))
          = some ("2024-06-10", "10:00", "11:00")
      ∧ (findAppointment assignedDb 2).map (fun a => (a.date, a.startTime, a.endTime))
          = some ("2024-06-10", "10:30", "11:30")
      ∧ timeConflict "10:30" "11:30" "10:00" "11:00" = true
      ∧ assignToAppointment professionalModule sampleRuntime assignedDb 1 2 true
          = .error { message := "Service is not defined", statusCode := 500 }
      ∧ assignToAppointment professionalModule sampleRuntime assignedDb 1 2 false
          = .error { message := "Service is not defined", statusCode := 500 }
      ∧ applyOp sampleRuntime assignedDb (.assignToAppointment 1 2 true) = assignedDb
      ∧ applyOp sampleRuntime assignedDb (.assignToAppointment 1 2 false) = assignedDb :=
  ⟨by decide, by decide, by decide, by decide, rfl, rfl, by decide, by decide⟩

/-- C27, the code at the failing input: in `assignedDb` user 7 is in the crew
of appointment 1; the request to assign professional 1 (user 7) to that same
appointment is answered 500 with the message of the ReferenceError, for isLead
true and false, where the claim has the scheduling-conflict error. The request
does not succeed, and user 7 is not made lead. -/
theorem assignToAppointment_member_answers_500 :
    findCrew assignedDb 1 7 = some { id := 1, appointmentId := 1, userId := 7 }
      ∧ timeConflict "10:00" "11:00" "10:00" "11:00" = true
      ∧ assignToAppointment professionalModule sampleRuntime assignedDb 1 1 true
          = .error { message := "Service is not defined", statusCode := 500 }
      ∧ assignToAppointment professionalModule sampleRuntime assignedDb 1 1 false
          = .error { message := "Service is not defined", statusCode := 500 }
      ∧ (findAppointment (applyOp sampleRuntime assignedDb (.assignToAppointment 1 1 true))
          1).map (fun a => a.leadProfessionalId) = some none :=
  ⟨by decide, by decide, rfl, rfl, by decide⟩

/-! ## The completion notification -/

/-- Saving a second instance of the same id leaves what saving it alone
leaves. -/
theorem saveAppointment_twice (db : Db) (a1 a2 : Appointment) (hid : a1.id = a2.id) :
    saveAppointment (saveAppointment db a1) a2 = saveAppointment db a2 := by
  unfold saveAppointment
  simp only [List.map_map, hid]
  congr 1
  apply List.map_congr_left
  intro x _
  by_cases hx : x.id = a2.id
  · simp [hx, hid]
  · simp [hx]

/-- The completion block gives the same instance whether the mail goes out or
not, up to `completionSent`. -/
theorem markCompleted_mail (now : Int) (db : Db) (original : Appointment)
    (body : AppointmentBody) (appointment : Appointment) :
    markCompleted false now db original body appointment
      = { markCompleted true now db original body appointment with
          completionSent :=
            (markCompleted false now db original body appointment).completionSent } := by
  unfold markCompleted
  cases completing original body <;> rfl

/-- C22: `updateAppointment` run on one state with one request, once with a
mail service that delivers and once with one that throws, fails with the same
error in both runs or succeeds in both; when it succeeds, the stored
appointment of the second run is the one of the first run up to
`completionSent`, and the two states differ in that row only. -/
theorem updateAppointment_mail_failure (rt : Runtime) (now : Int) (db : Db) (userId : Nat)
    (role : Role) (id : Nat) (body : AppointmentBody) :
    (∀ e, updateAppointment rt true now db userId role id body = .error e ↔
        updateAppointment rt false now db userId role id body = .error e)
      ∧ (∀ db1, updateAppointment rt true now db userId role id body = .ok db1 →
          ∃ db2 a1 a2, updateAppointment rt false now db userId role id body = .ok db2
            ∧ findAppointment db1 id = some a1 ∧ findAppointment db2 id = some a2
            ∧ a2 = { a1 with completionSent := a2.completionSent }
            ∧ db2 = saveAppointment db1 a2)
      ∧ (∀ db2, updateAppointment rt false now db userId role id body = .ok db2 →
          ∃ db1, updateAppointment rt true now db userId role id body = .ok db1) := by
  refine ⟨?_, ?_, ?_⟩
  · intro e
    unfold updateAppointment
    cases hf : findAppointment db id with
    | none => exact Iff.rfl
    | some original =>
      simp only []
      cases hu : updateByRole db userId role original body with
      | error e1 => exact Iff.rfl
      | ok appointment =>
        simp only []
        cases hc : dateCheckThrows rt original body with
        | true => exact Iff.rfl
        | false =>
          simp only [Bool.false_eq_true, if_false]
          constructor <;> intro h <;> cases h
  · intro db1 h
    obtain ⟨original, appointment, horig, happ, hdb⟩ :=
      updateAppointment_ok rt true now db db1 userId role id body h
    have hcheck : dateCheckThrows rt original body = false := by
      unfold updateAppointment at h
      simp only [horig, happ] at h
      cases hc : dateCheckThrows rt original body with
      | false => rfl
      | true => simp [hc] at h
    have hok2 : updateAppointment rt false now db userId role id body
        = .ok (saveAppointment db (markCompleted false now db original body appointment)) := by
      unfold updateAppointment
      simp only [horig, happ, hcheck, Bool.false_eq_true, if_false]
    have hid : ∀ mail, (markCompleted mail now db original body appointment).id = id := by
      intro mail
      rw [(markCompleted_columns mail now db original body appointment).1,
        updateByRole_id db userId role original appointment body happ]
      exact findAppointment_id db id original horig
    refine ⟨_, markCompleted true now db original body appointment,
      markCompleted false now db original body appointment, hok2, ?_, ?_, ?_, ?_⟩
    · rw [hdb]
      exact findAppointment_save db id original _ horig (hid true)
    · exact findAppointment_save db id original _ horig (hid false)
    · exact markCompleted_mail now db original body appointment
    · rw [hdb, saveAppointment_twice]
      rw [hid true, hid false]
  · intro db2 h
    obtain ⟨original, appointment, horig, happ, _⟩ :=
      updateAppointment_ok rt false now db db2 userId role id body h
    have hcheck : dateCheckThrows rt original body = false := by
      unfold updateAppointment at h
      simp only [horig, happ] at h
      cases hc : dateCheckThrows rt original body with
      | false => rfl
      | true => simp [hc] at h
    refine ⟨saveAppointment db (markCompleted true now db original body appointment), ?_⟩
    unfold updateAppointment
    simp only [horig, happ, hcheck, Bool.false_eq_true, if_false]

/-- Witness of C22 in `lifecycleDb`: the admin completes appointment 1 at time
1000. Both runs succeed; with a delivered mail the stored row has
`completionSent = true`, with a failed mail it has `completionSent = false`,
and both rows have the status Completed and `completedAt = 1000`. -/
theorem updateAppointment_mail_failure_witness :
    (∃ db2 a1 a2,
        updateAppointment sampleRuntime false 1000 lifecycleDb 9 .admin 1
            { status := some "Completed" } = .ok db2
          ∧ findAppointment (saveAppointment lifecycleDb
              { id := 1, customerId := 1, serviceId := 1, date := "2024-06-10",
                startTime := "10:00", endTime := "11:00", status := .Completed,
                completedAt := some 1000, completionSent := true }) 1 = some a1
          ∧ findAppointment db2 1 = some a2
          ∧ a2 = { a1 with completionSent := a2.completionSent }
          ∧ db2 = saveAppointment (saveAppointment lifecycleDb
              { id := 1, customerId := 1, serviceId := 1, date := "2024-06-10",
                startTime := "10:00", endTime := "11:00", status := .Completed,
                completedAt := some 1000, completionSent := true }) a2)
      ∧ updateAppointment sampleRuntime true 1000 lifecycleDb 9 .admin 1
            { status := some "Completed" }
          = .ok (saveAppointment lifecycleDb
              { id := 1, customerId := 1, serviceId := 1, date := "2024-06-10",
                startTime := "10:00", endTime := "11:00", status := .Completed,
                completedAt := some 1000, completionSent := true })
      ∧ updateAppointment sampleRuntime false 1000 lifecycleDb 9 .admin 1
            { status := some "Completed" }
          = .ok (saveAppointment lifecycleDb
              { id := 1, customerId := 1, serviceId := 1, date := "2024-06-10",
                startTime := "10:00", endTime := "11:00", status := .Completed,
                completedAt := some 1000, completionSent := false }) :=
  ⟨(updateAppointment_mail_failure sampleRuntime 1000 lifecycleDb 9 .admin 1
      { status := some "Completed" }).2.1 _ (by rfl), by rfl, by rfl⟩

/-! ## Approval and the status of the estimate -/

/-- C30, the code at the failing input: the owner of estimate 1 of
`packagesDb` approves the package "Basic", once with the estimate Declined and
once with it Expired. Both requests write the status Approved and the approved
package "Basic" and leave one and the same state, and both are answered 500,
because the query for the complete estimate that follows the write throws. -/
theorem approveEstimate_answers_500 :
    (approveEstimate (withEstimateStatus packagesDb 1 (.str "Declined")) 5 1 (.str "Basic")).2
        = .error { message := "Service is not associated to EstimateService!",
                   statusCode := 500 }
      ∧ (approveEstimate (withEstimateStatus packagesDb 1 (.str "Expired")) 5 1 (.str "Basic")).2
        = .error { message := "Service is not associated to EstimateService!",
                   statusCode := 500 }
      ∧ (approveEstimate (withEstimateStatus packagesDb 1 (.str "Declined")) 5 1
            (.str "Basic")).1
          = (approveEstimate (withEstimateStatus packagesDb 1 (.str "Expired")) 5 1
              (.str "Basic")).1
      ∧ ((approveEstimate (withEstimateStatus packagesDb 1 (.str "Declined")) 5 1
            (.str "Basic")).1.estimates.find? (fun e => e.id == 1)).map
          (fun e => (e.status, e.approvedPackage))
          = some (.str "Approved", .str "Basic")
      ∧ (∀ db userId id packageName n,
          (approveEstimate db userId id packageName).2 ≠ .ok n) := by
  refine ⟨rfl, rfl, by decide, by decide, ?_⟩
  intro db userId id packageName n h
  unfold approveEstimate at h
  split at h
  · cases h
  · split at h
    · cases h
    · split at h
      · cases h
      · split at h
        · cases h
        · simp only at h
          split at h
          · cases h
          · simp only [findCompleteEstimate] at h
            cases h

/-! ## Estimate numbers -/

/-- C28, the code at the failing input: two estimates are created in June 2024
and get the numbers EST-202406-0001 and EST-202406-0002; after the first one
is removed one row is left, so `generateEstimateNumber` produces
EST-202406-0002 again, the number of the estimate still stored, and the next
`Estimate.create` is refused by the unique column. -/
theorem generateEstimateNumber_collides :
    (∃ db1 first db2 second,
        Estimate.create juneClock {} newEstimate = .ok (db1, first)
          ∧ Estimate.create juneClock db1 newEstimate = .ok (db2, second)
          ∧ first.estimateNumber = "EST-202406-0001"
          ∧ second.estimateNumber = "EST-202406-0002"
          ∧ afterRemoval = Estimate.destroy db2 first.id)
      ∧ afterRemoval.estimates.map (fun e => (e.id, e.estimateNumber))
          = [(2, "EST-202406-0002")]
      ∧ generateEstimateNumber juneClock afterRemoval.estimates.length = "EST-202406-0002"
      ∧ (∃ e ∈ afterRemoval.estimates,
          e.estimateNumber = generateEstimateNumber juneClock afterRemoval.estimates.length)
      ∧ Estimate.create juneClock afterRemoval newEstimate
          = .error { message := "Duplicate field value entered", statusCode := 400 } :=
  ⟨⟨_, _, _, _, rfl, rfl, by decide, by decide, rfl⟩, by decide, by decide,
    ⟨{ id := 2, customerId := 1, estimateNumber := "EST-202406-0002", createdById := 9 },
      by decide, by decide⟩, rfl⟩

/-! ## Properties of the refund -/

/-- As the module stands, `processRefund` answers the 500 of the TypeError for
every request: `Payment` is undefined where the payment is looked up. -/
theorem processRefund_fails (stripe : Except String String) (now : Int)
    (payments : List Payment) (id : Nat) (amount reason : JsVal) :
    processRefund paymentModule stripe now payments id amount reason
      = .error { message := "Cannot read properties of undefined", statusCode := 500 } := rfl

/-- C21, the code at the failing input: for the completed payment of 100 in
`paidPayments`, the request without an amount and the request for 40 are both
answered 500; no refund record is attached and the status stays Completed. -/
theorem processRefund_attaches_nothing :
    processRefund paymentModule (.ok "re_1") 2000 paidPayments 1 .undefined .undefined
        = .error { message := "Cannot read properties of undefined", statusCode := 500 }
      ∧ processRefund paymentModule (.ok "re_1") 2000 paidPayments 1 (.num 40) .undefined
        = .error { message := "Cannot read properties of undefined", statusCode := 500 }
      ∧ (paidPayments.find? (fun p => p.id == 1)).map (fun p => (p.status, p.refund))
          = some (.Completed, none) :=
  ⟨rfl, rfl, by decide⟩

/-- C29: `processRefund` records no refund larger than the payment, because as
the module stands it records none: every request, for every payment, amount
and gateway answer, is rejected with 500, also the request for a payment that
is Partially Refunded. -/
theorem processRefund_never_over_refunds (stripe : Except String String) (now : Int)
    (payments : List Payment) (id : Nat) (amount reason : JsVal) :
    (∃ e, processRefund paymentModule stripe now payments id amount reason = .error e
        ∧ e.statusCode = 500)
      ∧ (∀ payments1,
          processRefund paymentModule stripe now payments id amount reason ≠ .ok payments1) := by
  refine ⟨⟨_, processRefund_fails stripe now payments id amount reason, rfl⟩, ?_⟩
  intro payments1 h
  rw [processRefund_fails] at h
  cases h

/-! ## Properties of the business settings -/

/-- A call on the model keeps a table of at most one row at most one row
long. -/
theorem applySettingsOp_length (table : List BusinessSetting) (op : SettingsOp)
    (h : table.length ≤ 1) : (applySettingsOp table op).length ≤ 1 := by
  have hcreate : ∀ values table1 row,
      BusinessSetting.create table values = .ok (table1, row) → table1.length ≤ 1 := by
    intro values table1 row hc
    unfold BusinessSetting.create at hc
    split at hc
    · cases hc
    · simp only at hc
      split at hc
      · cases hc
      · rename_i hlen
        cases hc
        have : table.length = 0 := by omega
        simp [this]
  cases op with
  | create values =>
    simp only [applySettingsOp]
    cases hc : BusinessSetting.create table values with
    | error e => exact h
    | ok result =>
      obtain ⟨table1, row⟩ := result
      exact hcreate values table1 row hc
  | getSettings =>
    simp only [applySettingsOp]
    cases hc : BusinessSetting.getSettings table with
    | error e => exact h
    | ok result =>
      obtain ⟨table1, row⟩ := result
      simp only
      unfold BusinessSetting.getSettings at hc
      split at hc
      · exact hcreate _ table1 row hc
      · cases hc
        exact h

/-- The bound on the length is kept along a sequence of calls. -/
theorem applySettingsOps_length (ops : List SettingsOp) :
    ∀ table : List BusinessSetting, table.length ≤ 1 →
      (applySettingsOps table ops).length ≤ 1 := by
  induction ops with
  | nil => intro table h; exact h
  | cons op ops ih =>
    intro table h
    exact ih _ (applySettingsOp_length table op h)

/-- C25: every table reached from the empty one by calls of
`BusinessSetting.create` and `BusinessSetting.getSettings` has at most one
row. `create` on a table that has a row fails, whatever the values;
`getSettings` on a table that has a row answers its first row and leaves the
table as it is, and on the empty table it inserts one row made of the defaults
and answers it. -/
theorem businessSettings_singleton (ops : List SettingsOp) :
    (applySettingsOps [] ops).length ≤ 1
      ∧ (∀ table values, table ≠ [] →
          ∃ e, BusinessSetting.create table values = .error e)
      ∧ (∀ settings rest,
          BusinessSetting.getSettings (settings :: rest) = .ok (settings :: rest, settings))
      ∧ BusinessSetting.getSettings [] = .ok ([{ id := 1 }], { id := 1 }) := by
  refine ⟨applySettingsOps_length ops [] (by simp), ?_, ?_, ?_⟩
  · intro table values hne
    unfold BusinessSetting.create
    split
    · exact ⟨_, rfl⟩
    · have hpos : table.length > 0 := List.length_pos.mpr hne
      simp only [hpos, if_true]
      exact ⟨_, rfl⟩
  · intro settings rest
    rfl
  · rfl

/-- Witness of C25: `getSettings`, a `create`, and `getSettings` again, from
the empty table, leave the one row of the first call; the `create` on that
table is refused by the hook. -/
theorem businessSettings_singleton_witness :
    (applySettingsOps [] [.getSettings, .create { companyName := .str "Acme" }, .getSettings]).length
        ≤ 1
      ∧ applySettingsOps [] [.getSettings, .create { companyName := .str "Acme" }, .getSettings]
          = [{ id := 1 }]
      ∧ (∃ e, BusinessSetting.create [{ id := 1 }] { companyName := .str "Acme" } = .error e)
      ∧ BusinessSetting.create [{ id := 1 }] { companyName := .str "Acme" }
          = .error { message := "Only one business setting record is allowed",
                     statusCode := 500 } :=
  ⟨(businessSettings_singleton
      [.getSettings, .create { companyName := .str "Acme" }, .getSettings]).1,
    by decide,
    (businessSettings_singleton []).2.1 [{ id := 1 }] { companyName := .str "Acme" }
      (by decide),
    rfl⟩

/-! ## Properties of the pagination -/

/-- The value of `parseInt(value, 10) || dflt` is never 0 for a default other
than 0. -/
theorem parseIntOr_ne_zero (value : Option String) (dflt : Int) (h : dflt ≠ 0) :
    parseIntOr value dflt ≠ 0 := by
  unfold parseIntOr
  split
  · exact h
  · split
    · exact h
    · assumption

/-- For a positive limit, `totalPages` is the least number of pages of that
size that hold `count` rows. -/
theorem totalPages_bounds (count : Int) (limitQuery : Option String)
    (h : 0 < limit limitQuery) :
    (totalPages count limitQuery - 1) * limit limitQuery < count
      ∧ count ≤ totalPages count limitQuery * limit limitQuery := by
  have hq : (0 : ℚ) < (limit limitQuery : ℚ) := by exact_mod_cast h
  unfold totalPages
  constructor
  · have h1 : ((⌈(count : ℚ) / (limit limitQuery : ℚ)⌉ - 1 : Int) : ℚ)
        < (count : ℚ) / (limit limitQuery : ℚ) := by
      have := Int.ceil_lt_add_one ((count : ℚ) / (limit limitQuery : ℚ))
      push_cast
      linarith
    rw [lt_div_iff₀ hq] at h1
    exact_mod_cast h1
  · have h2 : (count : ℚ) / (limit limitQuery : ℚ)
        ≤ ((⌈(count : ℚ) / (limit limitQuery : ℚ)⌉ : Int) : ℚ) := Int.le_ceil _
    rw [div_le_iff₀ hq] at h2
    exact_mod_cast h2

/-- C26: the pagination of `advancedResults`, for every row count and every
pair of query values. `page` is 1 and `limit` is 25 when the value is absent or
`parseInt` gives NaN for it, and the parsed number when that is not 0; the
offset is (page - 1) * limit; `totalPages` is the ceiling of count / limit;
`next` is `{ page + 1, limit }` exactly when page < totalPages and is not set
otherwise; `prev` is `{ page - 1, limit }` exactly when page > 1 and is not
set otherwise. For a positive limit the ceiling is the least number of pages
that hold the rows, and `next` is set exactly when rows remain after the
page. -/
theorem advancedResults_pagination (pageQuery limitQuery : Option String) (count : Int) :
    (parseInt pageQuery = none → page pageQuery = 1)
      ∧ (parseInt limitQuery = none → limit limitQuery = 25)
      ∧ (∀ n, parseInt pageQuery = some n → n ≠ 0 → page pageQuery = n)
      ∧ (∀ n, parseInt limitQuery = some n → n ≠ 0 → limit limitQuery = n)
      ∧ page pageQuery ≠ 0 ∧ limit limitQuery ≠ 0
      ∧ offset pageQuery limitQuery = (page pageQuery - 1) * limit limitQuery
      ∧ (pagination pageQuery limitQuery count).totalPages
          = ⌈(count : ℚ) / (limit limitQuery : ℚ)⌉
      ∧ (page pageQuery < (pagination pageQuery limitQuery count).totalPages →
          (pagination pageQuery limitQuery count).next
            = some { page := page pageQuery + 1, limit := limit limitQuery })
      ∧ (¬ page pageQuery < (pagination pageQuery limitQuery count).totalPages →
          (pagination pageQuery limitQuery count).next = none)
      ∧ (page pageQuery > 1 →
          (pagination pageQuery limitQuery count).prev
            = some { page := page pageQuery - 1, limit := limit limitQuery })
      ∧ (¬ page pageQuery > 1 → (pagination pageQuery limitQuery count).prev = none)
      ∧ (0 < limit limitQuery →
          ((pagination pageQuery limitQuery count).totalPages - 1) * limit limitQuery < count
            ∧ count ≤ (pagination pageQuery limitQuery count).totalPages * limit limitQuery
            ∧ ((pagination pageQuery limitQuery count).next.isSome = true ↔
                page pageQuery * limit limitQuery < count)) := by
  refine ⟨?_, ?_, ?_, ?_, parseIntOr_ne_zero _ 1 (by decide),
    parseIntOr_ne_zero _ 25 (by decide), rfl, rfl, ?_, ?_, ?_, ?_, ?_⟩
  · intro h; simp [page, parseIntOr, h]
  · intro h; simp [limit, parseIntOr, h]
  · intro n h hn; simp [page, parseIntOr, h, hn]
  · intro n h hn; simp [limit, parseIntOr, h, hn]
  · intro h
    simp only [pagination] at h ⊢
    rw [if_pos h]
  · intro h
    simp only [pagination] at h ⊢
    rw [if_neg h]
  · intro h
    simp only [pagination]
    rw [if_pos h]
  · intro h
    simp only [pagination]
    rw [if_neg h]
  · intro hpos
    have hb := totalPages_bounds count limitQuery hpos
    refine ⟨hb.1, hb.2, ?_⟩
    simp only [pagination]
    constructor
    · intro hsome
      by_cases hlt : page pageQuery < totalPages count limitQuery
      · have h1 : page pageQuery ≤ totalPages count limitQuery - 1 := by omega
        have h2 : page pageQuery * limit limitQuery
            ≤ (totalPages count limitQuery - 1) * limit limitQuery :=
          Int.mul_le_mul_of_nonneg_right h1 (le_of_lt hpos)
        exact lt_of_le_of_lt h2 hb.1
      · rw [if_neg hlt] at hsome
        cases hsome
    · intro hrows
      have hlt : page pageQuery < totalPages count limitQuery := by
        by_contra hge
        have h1 : totalPages count limitQuery ≤ page pageQuery := by omega
        have h2 : totalPages count limitQuery * limit limitQuery
            ≤ page pageQuery * limit limitQuery :=
          Int.mul_le_mul_of_nonneg_right h1 (le_of_lt hpos)
        have := hb.2
        omega
      rw [if_pos hlt]
      rfl

/-- Witness of C26: 60 rows, `page=2` and `limit=25` give the offset 25 and
three pages, with next = page 3 and prev = page 1; without query values, page
1 of 25 rows has no prev. -/
theorem advancedResults_pagination_witness :
    page (some "2") = 2 ∧ limit (some "25") = 25 ∧ offset (some "2") (some "25") = 25
      ∧ (pagination (some "2") (some "25") 60).totalPages = 3
      ∧ (pagination (some "2") (some "25") 60).next = some { page := 3, limit := 25 }
      ∧ (pagination (some "2") (some "25") 60).prev = some { page := 1, limit := 25 }
      ∧ page none = 1 ∧ limit (some "abc") = 25
      ∧ (pagination none none 60).prev = none := by
  have h := advancedResults_pagination (some "2") (some "25") 60
  have h0 := advancedResults_pagination none (some "abc") 60
  have h1 := advancedResults_pagination none none 60
  have hp : page (some "2") = 2 := h.2.2.1 2 (by decide) (by decide)
  have hl : limit (some "25") = 25 := h.2.2.2.1 25 (by decide) (by decide)
  have hp0 : page none = 1 := h0.1 (by decide)
  have hl0 : limit (some "abc") = 25 := h0.2.1 (by decide)
  have hb := h.2.2.2.2.2.2.2.2.2.2.2.2 (by rw [hl]; decide)
  have ht : (pagination (some "2") (some "25") 60).totalPages = 3 := by
    have hb1 := hb.1
    have hb2 := hb.2.1
    rw [hl] at hb1 hb2
    omega
  refine ⟨hp, hl, ?_, ht, ?_, ?_, hp0, hl0, ?_⟩
  · rw [h.2.2.2.2.2.2.1, hp, hl]; rfl
  · have := h.2.2.2.2.2.2.2.2.1 (by rw [ht, hp]; decide)
    rw [this, hp, hl]; rfl
  · have := h.2.2.2.2.2.2.2.2.2.2.1 (by rw [hp]; decide)
    rw [this, hp, hl]; rfl
  · exact h1.2.2.2.2.2.2.2.2.2.2.2.1 (by rw [hp0]; decide)

end Landscaping
